import Mathlib

/-!
# Product configurator API: compatibility rules over a relational store

A shallow embedding of the Express routes of the repository (`src/routes`), the
Sequelize model declarations they run on (`src/models`), the Joi schemas of
`src/utils/validation.js` and the error handler of `src/middleware/errorHandler.js`.

Conventions of the embedding
* A table is the list of its rows in insertion order; `findOne` returns the first
  matching row and an `ORDER BY` is a stable sort of the matching rows.
* The clock reading `new Date()` of a request is the parameter `now`.
* A request body is a JSON object, a list of key/value pairs; a number is an exact
  decimal, the value of the parsed number, and a number-typed or boolean-typed field
  holds the value after Joi's string coercion.  Where the code computes with the
  number (the rounding of prices), the computation is done in doubles.
* Prices (`DECIMAL(10, 2)`) are held in hundredths.  Column width limits of the
  database are not modelled, and the store is taken to be connected.
-/

set_option maxRecDepth 2048

namespace Think41

/-! ## JSON values -/

/-- A JSON number, the exact decimal `mantissa / 10 ^ scale`. -/
structure JNum where
  mantissa : Int
  scale : Nat
deriving DecidableEq, Repr

/-- A JSON value; arrays and objects are not told apart (`composite`). -/
inductive JVal where
  | null
  | bool (b : Bool)
  | num (n : JNum)
  | str (s : String)
  | composite
deriving DecidableEq, Repr

/-- A parsed JSON object body: key/value pairs. -/
abbrev Body := List (String × JVal)

/-- Value of `Number.isInteger` on a decimal. -/
def JNum.isInteger (n : JNum) : Bool :=
  n.mantissa % ((10 : Int) ^ n.scale) == 0

/-- The integer a decimal denotes when `isInteger` holds (its floor otherwise). -/
def JNum.toInt (n : JNum) : Int :=
  n.mantissa / ((10 : Int) ^ n.scale)

/-- The number of binary digits of `n`.  `fuel` bounds the recursion; `n` itself is
enough. -/
def bitLength : Nat → Nat → Nat
  | 0, _ => 0
  | fuel + 1, n => if n = 0 then 0 else bitLength fuel (n / 2) + 1

/-- A finite IEEE 754 double, the value `mantissa * 2 ^ exponent`. -/
structure Float64 where
  mantissa : Int
  exponent : Int
deriving DecidableEq, Repr

/-- The numerator of a double written as a fraction with the denominator `den`. -/
def Float64.num (d : Float64) : Int :=
  if 0 ≤ d.exponent then d.mantissa * (2 : Int) ^ d.exponent.toNat else d.mantissa

/-- The denominator of a double written as a fraction, a power of 2. -/
def Float64.den (d : Float64) : Nat :=
  if 0 ≤ d.exponent then 1 else 2 ^ (-d.exponent).toNat

/-- The double nearest to `num / den` (`den > 0`), ties to the even mantissa: the
rounding of a parsed number and of every arithmetic operation of JavaScript.  The
mantissa has 53 binary digits, fewer below `2 ^ -1022`.  Overflow to `Infinity` is
left out: it lies far outside the safe range, which the number schemas refuse. -/
def roundToDouble (num : Int) (den : Nat) : Float64 :=
  if num = 0 then { mantissa := 0, exponent := 0 }
  else
    let n := num.natAbs
    let k : Int := (bitLength n n : Int) - (bitLength den den : Int)
    let atLeast : Bool :=
      if 0 ≤ k then decide (den * 2 ^ k.toNat ≤ n) else decide (den ≤ n * 2 ^ (-k).toNat)
    let log : Int := if atLeast then k else k - 1
    let e : Int := max (log - 52) (-1074)
    let a : Nat := if 0 ≤ e then n else n * 2 ^ (-e).toNat
    let b : Nat := if 0 ≤ e then den * 2 ^ e.toNat else den
    let q := a / b
    let r := a % b
    let m : Nat :=
      if 2 * r < b then q else if b < 2 * r then q + 1 else if q % 2 = 0 then q else q + 1
    { mantissa := if 0 < num then (m : Int) else -(m : Int), exponent := e }

/-- The function `Math.round` on a double: the nearest integer, a tie going upward. -/
def Float64.round (d : Float64) : Int :=
  (2 * d.num + (d.den : Int)) / (2 * (d.den : Int))

/-- Hundredths after `Math.round(value * 100) / 100`, computed as JavaScript does: the
number is the double nearest to the decimal (the decimal itself when it is the value of
a parsed number), its product with 100 is rounded to the nearest double, and
`Math.round` takes the nearest integer of that. -/
def JNum.roundCents (n : JNum) : Int :=
  let value := roundToDouble n.mantissa (10 ^ n.scale)
  (roundToDouble (value.num * 100) value.den).round

/-- The constant `Number.MAX_SAFE_INTEGER`. -/
def MAX_SAFE_INTEGER : Int := 9007199254740991

/-- Joi's safe-number test: `value > MAX_SAFE_INTEGER || value < MIN_SAFE_INTEGER`. -/
def JNum.outOfSafeRange (n : JNum) : Bool :=
  decide (n.mantissa > MAX_SAFE_INTEGER * (10 : Int) ^ n.scale) ||
    decide (n.mantissa < -MAX_SAFE_INTEGER * (10 : Int) ^ n.scale)

/-- The JavaScript `length` of a string: UTF-16 code units. -/
def utf16Length (s : String) : Nat :=
  (s.data.map fun c => if c.toNat < 65536 then 1 else 2).sum

/-- The regular expression `/^[a-zA-Z0-9_-]+$/` of the three key schemas. -/
def keyPattern (s : String) : Bool :=
  !s.data.isEmpty && s.data.all fun c => c.isAlphanum || c == '_' || c == '-'

/-- Characters matched by `\s` in a JavaScript regular expression. -/
def isJsWhitespace (c : Char) : Bool :=
  let n := c.toNat
  n == 9 || n == 10 || n == 11 || n == 12 || n == 13 || n == 32 || n == 160 ||
    n == 5760 || (8192 ≤ n && n ≤ 8202) || n == 8232 || n == 8233 || n == 8239 ||
    n == 8287 || n == 12288 || n == 65279

/-! ## Joi schemas (`src/utils/validation.js`) -/

/-- One entry of a Joi error's `details`. -/
structure JoiDetail where
  path : List String
  type : String
  message : String
  value : Option JVal
deriving DecidableEq, Repr

/-- The label of a key as Joi prints it in its default messages. -/
def quoted (label : String) : String :=
  String.singleton (Char.ofNat 34) ++ label ++ String.singleton (Char.ofNat 34)

/-- The text of an error code: the schema's `.messages` entry, else Joi's default. -/
def messageFor (messages : List (String × String)) (code dflt : String) : String :=
  (messages.lookup code).getD dflt

/-- Build a detail for `label` with error `code`. -/
def detail (label : String) (messages : List (String × String)) (code dflt : String)
    (value : Option JVal) : JoiDetail :=
  { path := [label], type := code, message := messageFor messages code dflt, value := value }

/-- The errors carried by a result. -/
def errorsOf {α : Type} : Except (List JoiDetail) α → List JoiDetail
  | .ok _ => []
  | .error es => es

/-- The reports of the rules `pattern`, `min`, `max` of a string schema, in that order
(each rule present when its argument is).  With `abortEarly: false` every failing rule
reports. -/
def stringRuleErrors (label : String) (messages : List (String × String)) (usePattern : Bool)
    (min max : Option Nat) (s : String) : List JoiDetail :=
  (if usePattern && !keyPattern s then
    [detail label messages "string.pattern.base"
      (quoted label ++ " with value " ++ quoted s ++ " fails to match the required pattern")
      (some (.str s))] else []) ++
  (match min with
    | some lo => if utf16Length s < lo then
        [detail label messages "string.min"
          (quoted label ++ " length must be at least " ++ toString lo ++ " characters long")
          (some (.str s))] else []
    | none => []) ++
  (match max with
    | some hi => if hi < utf16Length s then
        [detail label messages "string.max"
          (quoted label ++ " length must be less than or equal to " ++ toString hi ++
            " characters long") (some (.str s))] else []
    | none => [])

/-- The schema `Joi.string()` with its rules; `allowEmpty` is `.allow('')`.  A value
that is not a string reports `string.base`, the empty string `string.empty` unless it
is allowed, and any other string goes through the rules. -/
def joiString (label : String) (messages : List (String × String)) (usePattern : Bool)
    (min max : Option Nat) (allowEmpty : Bool) (v : JVal) : Except (List JoiDetail) String :=
  match v with
  | .str s =>
    if s = "" then
      if allowEmpty then .ok s
      else .error [detail label messages "string.empty"
        (quoted label ++ " is not allowed to be empty") (some v)]
    else if stringRuleErrors label messages usePattern min max s = [] then .ok s
    else .error (stringRuleErrors label messages usePattern min max s)
  | _ => .error [detail label messages "string.base" (quoted label ++ " must be a string") (some v)]

/-- The reports of the rules `integer()` and `min(0)` of a number schema, in that
order. -/
def integerRuleErrors (label : String) (messages : List (String × String)) (n : JNum) :
    List JoiDetail :=
  (if !n.isInteger then
    [detail label messages "number.integer" (quoted label ++ " must be an integer")
      (some (.num n))] else []) ++
  (if n.mantissa < 0 then
    [detail label messages "number.min"
      (quoted label ++ " must be greater than or equal to 0") (some (.num n))] else [])

/-- The schema `Joi.number().integer().min(0)`: the base check (a number, in the safe
range), then both rules. -/
def joiInteger (label : String) (messages : List (String × String)) (v : JVal) :
    Except (List JoiDetail) Int :=
  match v with
  | .num n =>
    if n.outOfSafeRange then
      .error [detail label messages "number.unsafe" (quoted label ++ " must be a safe number")
        (some v)]
    else if integerRuleErrors label messages n = [] then .ok n.toInt
    else .error (integerRuleErrors label messages n)
  | _ => .error [detail label messages "number.base" (quoted label ++ " must be a number") (some v)]

/-- The schema `Joi.number()` with `.precision(2)` and, when `nonNegative`, `.min(0)`.
Under the default `convert: true` the base check rounds the value to two decimals
before any rule runs, so the `precision` rule itself never fails.  The result is in
hundredths. -/
def joiPrice (label : String) (messages : List (String × String)) (nonNegative : Bool)
    (v : JVal) : Except (List JoiDetail) Int :=
  match v with
  | .num n =>
    if n.outOfSafeRange then
      .error [detail label messages "number.unsafe" (quoted label ++ " must be a safe number")
        (some (.num ⟨n.roundCents, 2⟩))]
    else if nonNegative && decide (n.roundCents < 0) then
      .error [detail label messages "number.min"
        (quoted label ++ " must be greater than or equal to 0") (some (.num ⟨n.roundCents, 2⟩))]
    else .ok n.roundCents
  | _ => .error [detail label messages "number.base" (quoted label ++ " must be a number") (some v)]

/-- The schema `Joi.boolean()`. -/
def joiBoolean (label : String) (messages : List (String × String)) (v : JVal) :
    Except (List JoiDetail) Bool :=
  match v with
  | .bool b => .ok b
  | _ => .error [detail label messages "boolean.base" (quoted label ++ " must be a boolean")
      (some v)]

/-- The schema `Joi.string().valid('REQUIRES', 'INCOMPATIBLE', 'COMPATIBLE')`. -/
inductive RuleType where
  | REQUIRES
  | INCOMPATIBLE
  | COMPATIBLE
deriving DecidableEq, Repr

/-- The rule kind a string names. -/
def RuleType.ofString (s : String) : Option RuleType :=
  if s = "REQUIRES" then some .REQUIRES
  else if s = "INCOMPATIBLE" then some .INCOMPATIBLE
  else if s = "COMPATIBLE" then some .COMPATIBLE
  else none

/-- The string of a rule kind. -/
def RuleType.toString : RuleType → String
  | .REQUIRES => "REQUIRES"
  | .INCOMPATIBLE => "INCOMPATIBLE"
  | .COMPATIBLE => "COMPATIBLE"

/-- The `rule_type` key: only the three listed values pass; any other value reports
`any.only`, and then the base check of `Joi.string()` reports as well when it fails. -/
def joiRuleType (label : String) (messages : List (String × String)) (v : JVal) :
    Except (List JoiDetail) RuleType :=
  match v with
  | .str s =>
    match RuleType.ofString s with
    | some k => .ok k
    | none => .error ([detail label messages "any.only"
        (quoted label ++ " must be one of [REQUIRES, INCOMPATIBLE, COMPATIBLE]") (some v)] ++
        if s = "" then [detail label messages "string.empty"
          (quoted label ++ " is not allowed to be empty") (some v)] else [])
  | _ => .error [detail label messages "any.only"
      (quoted label ++ " must be one of [REQUIRES, INCOMPATIBLE, COMPATIBLE]") (some v),
      detail label messages "string.base" (quoted label ++ " must be a string") (some v)]

/-- Presence `.required()`: an absent key is the error `any.required`. -/
def joiRequired {α : Type} (label : String) (messages : List (String × String))
    (check : JVal → Except (List JoiDetail) α) (v : Option JVal) : Except (List JoiDetail) α :=
  match v with
  | none => .error [detail label messages "any.required" (quoted label ++ " is required") none]
  | some x => check x

/-- Presence `.optional()` without a default: an absent key stays absent. -/
def joiOptional {α : Type} (check : JVal → Except (List JoiDetail) α) (v : Option JVal) :
    Except (List JoiDetail) (Option α) :=
  match v with
  | none => .ok none
  | some x => (check x).map some

/-- Presence `.optional().default(d)`: an absent key takes the default. -/
def joiDefault {α : Type} (d : α) (check : JVal → Except (List JoiDetail) α) (v : Option JVal) :
    Except (List JoiDetail) α :=
  match v with
  | none => .ok d
  | some x => check x

/-- The validated body of a product template request. -/
structure TemplateBody where
  template_str_id : String
  name : String
  base_price : Int
  description : Option String
deriving DecidableEq, Repr

/-- The validated body of an option category request. -/
structure CategoryBody where
  category_str_id : String
  name : String
  description : Option String
  is_required : Bool
  display_order : Int
deriving DecidableEq, Repr

/-- The validated body of an option choice request. -/
structure ChoiceBody where
  choice_str_id : String
  name : String
  description : Option String
  price_delta : Int
  is_default : Bool
  is_available : Bool
  display_order : Int
deriving DecidableEq, Repr

/-- The validated body of a compatibility rule request. -/
structure RuleBody where
  rule_type : RuleType
  target_choice_str_id : String
  description : Option String
  priority : Int
deriving DecidableEq, Repr

/-- The key schema shared by `template_str_id`, `category_str_id`, `choice_str_id`. -/
def strIdSchema (label : String) (messages : List (String × String)) (v : Option JVal) :
    Except (List JoiDetail) String :=
  joiRequired label messages (joiString label messages true (some 1) (some 100) false) v

/-- The `name` key of the three entity schemas. -/
def nameSchema (v : Option JVal) : Except (List JoiDetail) String :=
  let messages := [("string.min", "name must be at least 1 character long"),
    ("string.max", "name must be at most 255 characters long"),
    ("any.required", "name is required")]
  joiRequired "name" messages (joiString "name" messages false (some 1) (some 255) false) v

/-- The `description` key of the four schemas. -/
def descriptionSchema (v : Option JVal) : Except (List JoiDetail) (Option String) :=
  let messages := [("string.max", "description must be at most 1000 characters long")]
  joiOptional (joiString "description" messages false none (some 1000) true) v

/-- The `display_order` key of the category and choice schemas. -/
def displayOrderSchema (v : Option JVal) : Except (List JoiDetail) Int :=
  let messages := [("number.integer", "display_order must be an integer"),
    ("number.min", "display_order must be a non-negative number")]
  joiDefault 0 (joiInteger "display_order" messages) v

/-- The schema `productTemplateSchema`; unknown keys are stripped. -/
def productTemplateSchema (b : Body) : Except (List JoiDetail) TemplateBody :=
  let key := strIdSchema "template_str_id"
    [("string.pattern.base",
        "template_str_id must contain only alphanumeric characters, underscores, and hyphens"),
      ("string.min", "template_str_id must be at least 1 character long"),
      ("string.max", "template_str_id must be at most 100 characters long"),
      ("any.required", "template_str_id is required")] (b.lookup "template_str_id")
  let name := nameSchema (b.lookup "name")
  let priceMessages := [("number.min", "base_price must be a positive number"),
    ("number.precision", "base_price must have at most 2 decimal places"),
    ("any.required", "base_price is required")]
  let price := joiRequired "base_price" priceMessages (joiPrice "base_price" priceMessages true)
    (b.lookup "base_price")
  let description := descriptionSchema (b.lookup "description")
  match key, name, price, description with
  | .ok k, .ok n, .ok p, .ok d =>
    .ok { template_str_id := k, name := n, base_price := p, description := d }
  | _, _, _, _ => .error (errorsOf key ++ errorsOf name ++ errorsOf price ++ errorsOf description)

/-- The schema `optionCategorySchema`; unknown keys are stripped. -/
def optionCategorySchema (b : Body) : Except (List JoiDetail) CategoryBody :=
  let key := strIdSchema "category_str_id"
    [("string.pattern.base",
        "category_str_id must contain only alphanumeric characters, underscores, and hyphens"),
      ("string.min", "category_str_id must be at least 1 character long"),
      ("string.max", "category_str_id must be at most 100 characters long"),
      ("any.required", "category_str_id is required")] (b.lookup "category_str_id")
  let name := nameSchema (b.lookup "name")
  let description := descriptionSchema (b.lookup "description")
  let required := joiDefault false (joiBoolean "is_required" []) (b.lookup "is_required")
  let order := displayOrderSchema (b.lookup "display_order")
  match key, name, description, required, order with
  | .ok k, .ok n, .ok d, .ok r, .ok o =>
    .ok { category_str_id := k, name := n, description := d, is_required := r,
          display_order := o }
  | _, _, _, _, _ => .error (errorsOf key ++ errorsOf name ++ errorsOf description ++
      errorsOf required ++ errorsOf order)

/-- The schema `optionChoiceSchema`; unknown keys are stripped. -/
def optionChoiceSchema (b : Body) : Except (List JoiDetail) ChoiceBody :=
  let key := strIdSchema "choice_str_id"
    [("string.pattern.base",
        "choice_str_id must contain only alphanumeric characters, underscores, and hyphens"),
      ("string.min", "choice_str_id must be at least 1 character long"),
      ("string.max", "choice_str_id must be at most 100 characters long"),
      ("any.required", "choice_str_id is required")] (b.lookup "choice_str_id")
  let name := nameSchema (b.lookup "name")
  let description := descriptionSchema (b.lookup "description")
  let delta := joiDefault 0 (joiPrice "price_delta"
    [("number.precision", "price_delta must have at most 2 decimal places")] false)
    (b.lookup "price_delta")
  let dflt := joiDefault false (joiBoolean "is_default" []) (b.lookup "is_default")
  let available := joiDefault true (joiBoolean "is_available" []) (b.lookup "is_available")
  let order := displayOrderSchema (b.lookup "display_order")
  match key, name, description, delta, dflt, available, order with
  | .ok k, .ok n, .ok d, .ok p, .ok f, .ok a, .ok o =>
    .ok { choice_str_id := k, name := n, description := d, price_delta := p, is_default := f,
          is_available := a, display_order := o }
  | _, _, _, _, _, _, _ => .error (errorsOf key ++ errorsOf name ++ errorsOf description ++
      errorsOf delta ++ errorsOf dflt ++ errorsOf available ++ errorsOf order)

/-- The schema `compatibilityRuleSchema`; unknown keys are stripped. -/
def compatibilityRuleSchema (b : Body) : Except (List JoiDetail) RuleBody :=
  let kindMessages := [("any.only", "rule_type must be one of: REQUIRES, INCOMPATIBLE, COMPATIBLE"),
    ("any.required", "rule_type is required")]
  let kind := joiRequired "rule_type" kindMessages (joiRuleType "rule_type" kindMessages)
    (b.lookup "rule_type")
  let target := strIdSchema "target_choice_str_id"
    [("string.pattern.base", "target_choice_str_id must contain only alphanumeric characters, " ++
        "underscores, and hyphens"),
      ("any.required", "target_choice_str_id is required")] (b.lookup "target_choice_str_id")
  let description := descriptionSchema (b.lookup "description")
  let priority := joiDefault 0 (joiInteger "priority"
    [("number.integer", "priority must be an integer"),
      ("number.min", "priority must be a non-negative number")]) (b.lookup "priority")
  match kind, target, description, priority with
  | .ok k, .ok t, .ok d, .ok p =>
    .ok { rule_type := k, target_choice_str_id := t, description := d, priority := p }
  | _, _, _, _ => .error (errorsOf kind ++ errorsOf target ++ errorsOf description ++
      errorsOf priority)

/-! ## Records (`src/models`) -/

/-- A row of `product_templates`; `base_price` in hundredths. -/
structure ProductTemplate where
  id : Nat
  template_str_id : String
  name : String
  base_price : Int
  description : Option String
  is_active : Bool
  created_at : Nat
  updated_at : Nat
deriving DecidableEq, Repr

/-- A row of `option_categories`. -/
structure OptionCategory where
  id : Nat
  category_str_id : String
  name : String
  description : Option String
  is_required : Bool
  display_order : Int
  product_template_id : Nat
  created_at : Nat
  updated_at : Nat
deriving DecidableEq, Repr

/-- A row of `option_choices`; `price_delta` in hundredths. -/
structure OptionChoice where
  id : Nat
  choice_str_id : String
  name : String
  description : Option String
  price_delta : Int
  is_default : Bool
  is_available : Bool
  display_order : Int
  option_category_id : Nat
  created_at : Nat
  updated_at : Nat
deriving DecidableEq, Repr

/-- A row of `compatibility_rules`. -/
structure CompatibilityRule where
  id : Nat
  rule_type : RuleType
  description : Option String
  is_active : Bool
  priority : Int
  source_choice_id : Nat
  target_choice_id : Nat
  created_at : Nat
  updated_at : Nat
deriving DecidableEq, Repr

/-- Modelled from the spec: the Catalog Store behind `require('../config/database')`,
a file that is not among the sources.  Per the spec it is durable relational storage
with uniqueness and referential-integrity enforcement and cascading delete per the
declared foreign-key relations; each row records its creation time (`created_at`) and
update time.  Here it is the four tables declared in `src/models`, each with its
auto-increment counter. -/
structure Store where
  templates : List ProductTemplate
  categories : List OptionCategory
  choices : List OptionChoice
  rules : List CompatibilityRule
  nextTemplateId : Nat
  nextCategoryId : Nat
  nextChoiceId : Nat
  nextRuleId : Nat
deriving DecidableEq, Repr

/-- The store before any request. -/
def Store.empty : Store :=
  { templates := [], categories := [], choices := [], rules := [],
    nextTemplateId := 1, nextCategoryId := 1, nextChoiceId := 1, nextRuleId := 1 }

/-! ## Errors and responses (`src/middleware/errorHandler.js`) -/

/-- One entry of a Sequelize error's `errors`. -/
structure ErrorItem where
  path : String
  message : String
  value : Option JVal
deriving DecidableEq, Repr

/-- The properties of an error object that the handler reads.  `stack` holds the
first line of the trace only. -/
structure Err where
  name : String
  statusCode : Option Nat
  message : String
  stack : Option String
  errors : List ErrorItem
  isJoi : Bool
  details : List JoiDetail
deriving DecidableEq, Repr

/-- One entry of a response's `details` array. -/
structure DetailItem where
  field : String
  message : String
  value : Option JVal
deriving DecidableEq, Repr

/-- The `details` member of an error response. -/
inductive Details where
  | absent
  | items (l : List DetailItem)
  | text (s : String)
deriving DecidableEq, Repr

/-- The attributes `['id', 'template_str_id', 'name']` of a joined template. -/
structure TemplateRef where
  id : Nat
  template_str_id : String
  name : String
deriving DecidableEq, Repr

/-- The `option_category` member of a created choice. -/
structure CategoryRef where
  id : Nat
  category_str_id : String
  name : String
  product_template : Option TemplateRef
deriving DecidableEq, Repr

/-- The attributes `['id', 'choice_str_id', 'name']` of a choice. -/
structure ChoiceRef where
  id : Nat
  choice_str_id : String
  name : String
deriving DecidableEq, Repr

/-- A rule as `findAll` returns it, with the joined choice of its other end. -/
structure RuleView where
  rule : CompatibilityRule
  choice : Option ChoiceRef
deriving DecidableEq, Repr

/-- The attributes of a category included in a template of the template list. -/
structure CategoryItem where
  id : Nat
  category_str_id : String
  name : String
  description : Option String
  is_required : Bool
  display_order : Int
deriving DecidableEq, Repr

/-- The attributes of a choice included in a category of the category list. -/
structure ChoiceItem where
  id : Nat
  choice_str_id : String
  name : String
  description : Option String
  price_delta : Int
  is_default : Bool
  is_available : Bool
  display_order : Int
deriving DecidableEq, Repr

/-- The `pagination` member of the template list.  `total_pages` is `none` when
`Math.ceil(count / limit)` is not a finite number (a limit of 0). -/
structure Pagination where
  current_page : Nat
  total_pages : Option Nat
  total_items : Nat
  items_per_page : Nat
deriving DecidableEq, Repr

/-- The `data` member of a success response, per route.  For the template list the
constructor also holds the `pagination` member that stands beside `data`; in the
choice list every item carries the same `option_category`. -/
inductive Data where
  | none
  | template (t : ProductTemplate)
  | category (c : OptionCategory)
  | categoryJoined (c : OptionCategory) (product_template : Option TemplateRef)
  | choice (c : OptionChoice) (option_category : CategoryRef)
  | choiceJoined (c : OptionChoice)
      (option_category : Option (OptionCategory × Option TemplateRef))
  | rule (r : CompatibilityRule) (source_choice target_choice : ChoiceRef)
  | rules (choice : ChoiceRef) (source_rules target_rules : List RuleView)
  | templates (items : List (ProductTemplate × Option (List CategoryItem)))
      (pagination : Pagination)
  | categories (items : List (OptionCategory × Option (List ChoiceItem)))
  | choices (items : List (OptionChoice × Option (List RuleView × List RuleView)))
      (option_category : CategoryRef)
deriving DecidableEq, Repr

/-- An HTTP response: status code and the members of the JSON envelope. -/
structure Response where
  status : Nat
  success : Bool
  message : Option String
  error : Option String
  details : Details
  stack : Option String
  data : Data
deriving DecidableEq, Repr

/-- The response `res.status(status).json(...)` with `success: false` and `error`. -/
def failure (status : Nat) (error : String) : Response :=
  { status := status, success := false, message := none, error := some error,
    details := .absent, stack := none, data := .none }

/-- The response `res.status(status).json(...)` with `success: true`, `message`, `data`. -/
def success (status : Nat) (message : Option String) (data : Data) : Response :=
  { status := status, success := true, message := message, error := none,
    details := .absent, stack := none, data := data }

/-- The function `errorHandler`; `env` is `process.env.NODE_ENV`. -/
def errorHandler (env : Option String) (err : Err) : Response :=
  let statusCode := match err.statusCode with
    | some n => if n = 0 then 500 else n
    | none => 500
  let message := if err.message = "" then "Internal Server Error" else err.message
  if err.name = "SequelizeValidationError" then
    { failure 400 "Validation Error" with
      details := .items (err.errors.map fun e =>
        { field := e.path, message := e.message, value := e.value }) }
  else if err.name = "SequelizeUniqueConstraintError" then
    { failure 409 "Resource already exists" with
      details := .items (err.errors.map fun e =>
        { field := e.path, message := e.path ++ " must be unique", value := e.value }) }
  else if err.name = "SequelizeForeignKeyConstraintError" then
    { failure 400 "Invalid reference to related resource" with
      details := .text "The referenced resource does not exist" }
  else
    let connection := decide (err.name = "SequelizeConnectionError")
    let statusCode := if connection then 503 else statusCode
    let message := if connection then "Database connection error" else message
    if err.isJoi then
      { failure 400 "Validation Error" with
        details := .items (err.details.map fun d =>
          { field := ".".intercalate d.path, message := d.message, value := d.value }) }
    else
      { failure statusCode message with
        stack := if env = some "development" then err.stack else none }

/-- The middleware `validate(schema)`: the sanitized body, or the Joi error passed to
`next`. -/
def validate {α : Type} (schema : Body → Except (List JoiDetail) α) (body : Body) :
    Except Err α :=
  match schema body with
  | .ok value => .ok value
  | .error details =>
    let message := ". ".intercalate (details.map fun d => d.message)
    .error { name := "ValidationError", statusCode := none, message := message,
             stack := some ("ValidationError: " ++ message), errors := [], isJoi := true,
             details := details }

/-! ## Model operations (Sequelize over the declarations of `src/models`) -/

/-- Sequelize's `notEmpty` validator: the string is not made of whitespace only. -/
def notEmpty (s : String) : Bool :=
  !s.data.all isJsWhitespace

/-- The validators `notEmpty: true, len: [1, hi]` of a string attribute. -/
def stringAttrErrors (path : String) (hi : Nat) (s : String) : List ErrorItem :=
  (if notEmpty s then [] else
    [{ path := path, message := "Validation notEmpty on " ++ path ++ " failed",
       value := some (.str s) }]) ++
  (if 1 ≤ s.length && s.length ≤ hi then [] else
    [{ path := path, message := "Validation len on " ++ path ++ " failed",
       value := some (.str s) }])

/-- The error Sequelize raises when validators fail. -/
def sequelizeValidationError (items : List ErrorItem) : Err :=
  let message := ",\n".intercalate (items.map fun e => "Validation error: " ++ e.message)
  { name := "SequelizeValidationError", statusCode := none, message := message,
    stack := some ("SequelizeValidationError: " ++ message), errors := items, isJoi := false,
    details := [] }

/-- The error Sequelize raises when a unique index rejects a statement; one item per
field of the index. -/
def sequelizeUniqueConstraintError (fields : List (String × JVal)) : Err :=
  { name := "SequelizeUniqueConstraintError", statusCode := none, message := "Validation error",
    stack := some "SequelizeUniqueConstraintError: Validation error",
    errors := fields.map fun f =>
      { path := f.1, message := f.1 ++ " must be unique", value := some f.2 },
    isJoi := false, details := [] }

/-- The error Sequelize raises when a foreign key rejects a statement. -/
def sequelizeForeignKeyConstraintError : Err :=
  { name := "SequelizeForeignKeyConstraintError", statusCode := none,
    message := "insert or update violates foreign key constraint",
    stack := some "SequelizeForeignKeyConstraintError", errors := [], isJoi := false,
    details := [] }

/-- The error of reading a property of the `null` that `findOne` returned. -/
def nullPropertyError : Err :=
  { name := "TypeError", statusCode := none,
    message := "Cannot read properties of null (reading 'id')",
    stack := some "TypeError: Cannot read properties of null (reading 'id')", errors := [],
    isJoi := false, details := [] }

/-- A natural number as a JSON value. -/
def natVal (n : Nat) : JVal := .num { mantissa := n, scale := 0 }

/-- The query `ProductTemplate.findOne` with `where: template_str_id`. -/
def ProductTemplate.findOne (st : Store) (template_str_id : String) : Option ProductTemplate :=
  st.templates.find? fun t => t.template_str_id == template_str_id

/-- The query `OptionCategory.findOne` with `where: category_str_id`. -/
def OptionCategory.findOne (st : Store) (category_str_id : String) : Option OptionCategory :=
  st.categories.find? fun c => c.category_str_id == category_str_id

/-- The query `OptionChoice.findOne` with `where: choice_str_id`. -/
def OptionChoice.findOne (st : Store) (choice_str_id : String) : Option OptionChoice :=
  st.choices.find? fun c => c.choice_str_id == choice_str_id

/-- The joined `productTemplate` of a category, attributes id, key and name. -/
def templateRefOf (st : Store) (product_template_id : Nat) : Option TemplateRef :=
  (st.templates.find? fun t => t.id == product_template_id).map fun t =>
    { id := t.id, template_str_id := t.template_str_id, name := t.name }

/-- The attributes id, key and name of a choice. -/
def OptionChoice.ref (c : OptionChoice) : ChoiceRef :=
  { id := c.id, choice_str_id := c.choice_str_id, name := c.name }

/-- The joined `sourceChoice` or `targetChoice` of a rule. -/
def choiceRefOf (st : Store) (choice_id : Nat) : Option ChoiceRef :=
  (st.choices.find? fun c => c.id == choice_id).map OptionChoice.ref

/-- The call `ProductTemplate.create(req.body)`: attribute validators, the unique index
on `template_str_id`, then the insert with defaults `is_active = true`. -/
def ProductTemplate.create (st : Store) (now : Nat) (v : TemplateBody) :
    Except Err (Store × ProductTemplate) :=
  let errs := stringAttrErrors "template_str_id" 100 v.template_str_id ++
    stringAttrErrors "name" 255 v.name ++
    (if v.base_price < 0 then
      [{ path := "base_price", message := "Validation min on base_price failed",
         value := some (.num { mantissa := v.base_price, scale := 2 }) }] else [])
  if errs ≠ [] then .error (sequelizeValidationError errs)
  else if st.templates.any fun t => t.template_str_id == v.template_str_id then
    .error (sequelizeUniqueConstraintError [("template_str_id", .str v.template_str_id)])
  else
    let row : ProductTemplate :=
      { id := st.nextTemplateId, template_str_id := v.template_str_id, name := v.name,
        base_price := v.base_price, description := v.description, is_active := true,
        created_at := now, updated_at := now }
    .ok ({ st with templates := st.templates ++ [row],
                   nextTemplateId := st.nextTemplateId + 1 }, row)

/-- The call `OptionCategory.create` with the body and `product_template_id`:
validators, the unique index on (key, template), the foreign key, then the insert. -/
def OptionCategory.create (st : Store) (now : Nat) (v : CategoryBody)
    (product_template_id : Nat) : Except Err (Store × OptionCategory) :=
  let errs := stringAttrErrors "category_str_id" 100 v.category_str_id ++
    stringAttrErrors "name" 255 v.name
  if errs ≠ [] then .error (sequelizeValidationError errs)
  else if st.categories.any fun c =>
      c.category_str_id == v.category_str_id && c.product_template_id == product_template_id then
    .error (sequelizeUniqueConstraintError [("category_str_id", .str v.category_str_id),
      ("product_template_id", natVal product_template_id)])
  else if !(st.templates.any fun t => t.id == product_template_id) then
    .error sequelizeForeignKeyConstraintError
  else
    let row : OptionCategory :=
      { id := st.nextCategoryId, category_str_id := v.category_str_id, name := v.name,
        description := v.description, is_required := v.is_required,
        display_order := v.display_order, product_template_id := product_template_id,
        created_at := now, updated_at := now }
    .ok ({ st with categories := st.categories ++ [row],
                   nextCategoryId := st.nextCategoryId + 1 }, row)

/-- The call `OptionChoice.create` with the body and `option_category_id`:
validators, the unique index on (key, category), the foreign key, then the insert. -/
def OptionChoice.create (st : Store) (now : Nat) (v : ChoiceBody) (option_category_id : Nat) :
    Except Err (Store × OptionChoice) :=
  let errs := stringAttrErrors "choice_str_id" 100 v.choice_str_id ++
    stringAttrErrors "name" 255 v.name
  if errs ≠ [] then .error (sequelizeValidationError errs)
  else if st.choices.any fun c =>
      c.choice_str_id == v.choice_str_id && c.option_category_id == option_category_id then
    .error (sequelizeUniqueConstraintError [("choice_str_id", .str v.choice_str_id),
      ("option_category_id", natVal option_category_id)])
  else if !(st.categories.any fun c => c.id == option_category_id) then
    .error sequelizeForeignKeyConstraintError
  else
    let row : OptionChoice :=
      { id := st.nextChoiceId, choice_str_id := v.choice_str_id, name := v.name,
        description := v.description, price_delta := v.price_delta,
        is_default := v.is_default, is_available := v.is_available,
        display_order := v.display_order, option_category_id := option_category_id,
        created_at := now, updated_at := now }
    .ok ({ st with choices := st.choices ++ [row], nextChoiceId := st.nextChoiceId + 1 }, row)

/-- The model validator `sourceNotTarget` of `CompatibilityRule`.  The item of a model
validator carries the value `null`. -/
def sourceNotTarget (source_choice_id target_choice_id : Nat) : List ErrorItem :=
  if source_choice_id = target_choice_id then
    [{ path := "sourceNotTarget",
       message := "A choice cannot have a compatibility rule with itself",
       value := some .null }]
  else []

/-- The call `CompatibilityRule.create`: the model validator, the unique index on
(source, target, kind), the two foreign keys, then the insert with the defaults
`is_active = true` and the given priority. -/
def CompatibilityRule.create (st : Store) (now : Nat) (rule_type : RuleType)
    (source_choice_id target_choice_id : Nat) (description : Option String) (priority : Int) :
    Except Err (Store × CompatibilityRule) :=
  let errs := sourceNotTarget source_choice_id target_choice_id
  if errs ≠ [] then .error (sequelizeValidationError errs)
  else if st.rules.any fun r => r.source_choice_id == source_choice_id &&
      r.target_choice_id == target_choice_id && r.rule_type == rule_type then
    .error (sequelizeUniqueConstraintError [("source_choice_id", natVal source_choice_id),
      ("target_choice_id", natVal target_choice_id), ("rule_type", .str rule_type.toString)])
  else if !(st.choices.any fun c => c.id == source_choice_id) ||
      !(st.choices.any fun c => c.id == target_choice_id) then
    .error sequelizeForeignKeyConstraintError
  else
    let row : CompatibilityRule :=
      { id := st.nextRuleId, rule_type := rule_type, description := description,
        is_active := true, priority := priority, source_choice_id := source_choice_id,
        target_choice_id := target_choice_id, created_at := now, updated_at := now }
    .ok ({ st with rules := st.rules ++ [row], nextRuleId := st.nextRuleId + 1 }, row)

/-- The call `ProductTemplate.update(req.body, where: template_str_id)`: validators on
the supplied attributes, then one `UPDATE` over every matching row, rejected as a
whole when the unique index would be violated.  Returns the number of matched rows. -/
def ProductTemplate.update (st : Store) (now : Nat) (template_str_id : String)
    (v : TemplateBody) : Except Err (Store × Nat) :=
  let errs := stringAttrErrors "template_str_id" 100 v.template_str_id ++
    stringAttrErrors "name" 255 v.name ++
    (if v.base_price < 0 then
      [{ path := "base_price", message := "Validation min on base_price failed",
         value := some (.num { mantissa := v.base_price, scale := 2 }) }] else [])
  if errs ≠ [] then .error (sequelizeValidationError errs)
  else
    let count := (st.templates.filter fun t => t.template_str_id == template_str_id).length
    let rows : List ProductTemplate := st.templates.map fun t =>
      if t.template_str_id == template_str_id then
        { t with template_str_id := v.template_str_id, name := v.name,
                 base_price := v.base_price,
                 description := match v.description with
                   | some d => some d
                   | none => t.description,
                 updated_at := now }
      else t
    if count = 0 then .ok (st, 0)
    else if ¬ (rows.map fun (t : ProductTemplate) => t.template_str_id).Nodup then
      .error (sequelizeUniqueConstraintError [("template_str_id", .str v.template_str_id)])
    else .ok ({ st with templates := rows }, count)

/-- The second column of the key that a unique index on (key, parent) rejects: the
parent of the first row that shares both columns with another row. -/
def duplicateParent (keys : List (String × Nat)) : Nat :=
  ((keys.find? fun k => decide (1 < keys.count k)).map fun k => k.2).getD 0

/-- The call `OptionCategory.update(req.body, where: category_str_id)`.  The error of
the unique index names both columns of the index. -/
def OptionCategory.update (st : Store) (now : Nat) (category_str_id : String)
    (v : CategoryBody) : Except Err (Store × Nat) :=
  let errs := stringAttrErrors "category_str_id" 100 v.category_str_id ++
    stringAttrErrors "name" 255 v.name
  if errs ≠ [] then .error (sequelizeValidationError errs)
  else
    let count := (st.categories.filter fun c => c.category_str_id == category_str_id).length
    let rows : List OptionCategory := st.categories.map fun c =>
      if c.category_str_id == category_str_id then
        { c with category_str_id := v.category_str_id, name := v.name,
                 description := match v.description with
                   | some d => some d
                   | none => c.description,
                 is_required := v.is_required, display_order := v.display_order,
                 updated_at := now }
      else c
    if count = 0 then .ok (st, 0)
    else if ¬ (rows.map fun (c : OptionCategory) =>
        (c.category_str_id, c.product_template_id)).Nodup then
      .error (sequelizeUniqueConstraintError [("category_str_id", .str v.category_str_id),
        ("product_template_id", natVal (duplicateParent (rows.map fun (c : OptionCategory) =>
          (c.category_str_id, c.product_template_id))))])
    else .ok ({ st with categories := rows }, count)

/-- The call `OptionChoice.update(req.body, where: choice_str_id)`.  The error of the
unique index names both columns of the index. -/
def OptionChoice.update (st : Store) (now : Nat) (choice_str_id : String) (v : ChoiceBody) :
    Except Err (Store × Nat) :=
  let errs := stringAttrErrors "choice_str_id" 100 v.choice_str_id ++
    stringAttrErrors "name" 255 v.name
  if errs ≠ [] then .error (sequelizeValidationError errs)
  else
    let count := (st.choices.filter fun c => c.choice_str_id == choice_str_id).length
    let rows : List OptionChoice := st.choices.map fun c =>
      if c.choice_str_id == choice_str_id then
        { c with choice_str_id := v.choice_str_id, name := v.name,
                 description := match v.description with
                   | some d => some d
                   | none => c.description,
                 price_delta := v.price_delta, is_default := v.is_default,
                 is_available := v.is_available, display_order := v.display_order,
                 updated_at := now }
      else c
    if count = 0 then .ok (st, 0)
    else if ¬ (rows.map fun (c : OptionChoice) =>
        (c.choice_str_id, c.option_category_id)).Nodup then
      .error (sequelizeUniqueConstraintError [("choice_str_id", .str v.choice_str_id),
        ("option_category_id", natVal (duplicateParent (rows.map fun (c : OptionChoice) =>
          (c.choice_str_id, c.option_category_id))))])
    else .ok ({ st with choices := rows }, count)

/-- Delete the choices that satisfy `dead`; `onDelete: 'CASCADE'` on `sourceRules` and
`targetRules` (`OptionChoice.associate`) deletes every rule that has a deleted choice
as `source_choice_id` or as `target_choice_id`. -/
def Store.dropChoices (st : Store) (dead : OptionChoice → Bool) : Store :=
  let ids := (st.choices.filter dead).map fun c => c.id
  { st with
    choices := st.choices.filter fun c => !dead c,
    rules := st.rules.filter fun r =>
      !(ids.contains r.source_choice_id || ids.contains r.target_choice_id) }

/-- Delete the categories that satisfy `dead`; `onDelete: 'CASCADE'` on `optionChoices`
(`OptionCategory.associate`) deletes their choices, which cascades further. -/
def Store.dropCategories (st : Store) (dead : OptionCategory → Bool) : Store :=
  let ids := (st.categories.filter dead).map fun c => c.id
  Store.dropChoices { st with categories := st.categories.filter fun c => !dead c }
    fun c => ids.contains c.option_category_id

/-- Delete the templates that satisfy `dead`; `onDelete: 'CASCADE'` on
`optionCategories` (`ProductTemplate.associate`) deletes their categories, which
cascades further. -/
def Store.dropTemplates (st : Store) (dead : ProductTemplate → Bool) : Store :=
  let ids := (st.templates.filter dead).map fun t => t.id
  Store.dropCategories { st with templates := st.templates.filter fun t => !dead t }
    fun c => ids.contains c.product_template_id

/-- The call `ProductTemplate.destroy(where: template_str_id)`: the store after the
delete and the number of templates deleted. -/
def ProductTemplate.destroy (st : Store) (template_str_id : String) : Store × Nat :=
  (st.dropTemplates fun t => t.template_str_id == template_str_id,
    (st.templates.filter fun t => t.template_str_id == template_str_id).length)

/-- The call `OptionCategory.destroy(where: category_str_id)`. -/
def OptionCategory.destroy (st : Store) (category_str_id : String) : Store × Nat :=
  (st.dropCategories fun c => c.category_str_id == category_str_id,
    (st.categories.filter fun c => c.category_str_id == category_str_id).length)

/-- The call `OptionChoice.destroy(where: choice_str_id)`. -/
def OptionChoice.destroy (st : Store) (choice_str_id : String) : Store × Nat :=
  (st.dropChoices fun c => c.choice_str_id == choice_str_id,
    (st.choices.filter fun c => c.choice_str_id == choice_str_id).length)

/-- The order `[['priority', 'DESC'], ['created_at', 'ASC']]`: `a` may stand before `b`. -/
def ruleOrder (a b : CompatibilityRule) : Prop :=
  b.priority < a.priority ∨ (a.priority = b.priority ∧ a.created_at ≤ b.created_at)

instance ruleOrderDecidable : DecidableRel ruleOrder :=
  fun _ _ => inferInstanceAs (Decidable (_ ∨ _))

/-- The query `CompatibilityRule.findAll` with a `where` on one column and the order
above: the matching rows, sorted. -/
def CompatibilityRule.findAll (st : Store) (matching : CompatibilityRule → Bool) :
    List CompatibilityRule :=
  (st.rules.filter matching).insertionSort ruleOrder

/-! ## Routes (`src/routes`)

A route returns the store after the request and either the response it sent or the
error it passed to `next`. -/

/-- The route `POST /product-templates`. -/
def postProductTemplate (st : Store) (now : Nat) (body : Body) : Store × Except Err Response :=
  match validate productTemplateSchema body with
  | .error e => (st, .error e)
  | .ok v =>
    match ProductTemplate.create st now v with
    | .error e => (st, .error e)
    | .ok (st1, row) =>
      (st1, .ok (success 201 (some "Product template created successfully") (.template row)))

/-- The route `PUT /product-templates/:template_str_id`.  The row is read back under
the key of the path, so a request that changes the key updates the store and then
fails on the `null` it reads. -/
def putProductTemplate (st : Store) (now : Nat) (template_str_id : String) (body : Body) :
    Store × Except Err Response :=
  match validate productTemplateSchema body with
  | .error e => (st, .error e)
  | .ok v =>
    match ProductTemplate.update st now template_str_id v with
    | .error e => (st, .error e)
    | .ok (st1, updatedRowsCount) =>
      if updatedRowsCount = 0 then (st1, .ok (failure 404 "Product template not found"))
      else
        match ProductTemplate.findOne st1 template_str_id with
        | none => (st1, .error nullPropertyError)
        | some row =>
          (st1, .ok (success 200 (some "Product template updated successfully")
            (.template row)))

/-- The route `DELETE /product-templates/:template_str_id`. -/
def deleteProductTemplate (st : Store) (template_str_id : String) :
    Store × Except Err Response :=
  let (st1, deletedRowsCount) := ProductTemplate.destroy st template_str_id
  if deletedRowsCount = 0 then (st1, .ok (failure 404 "Product template not found"))
  else (st1, .ok (success 200 (some "Product template deleted successfully") .none))

/-- The JavaScript test `!x` on an optional query string. -/
def missing (x : Option String) : Bool :=
  match x with
  | none => true
  | some s => s == ""

/-- The route `POST /option-categories?template_str_id=`. -/
def postOptionCategory (st : Store) (now : Nat) (template_str_id : Option String)
    (body : Body) : Store × Except Err Response :=
  match validate optionCategorySchema body with
  | .error e => (st, .error e)
  | .ok v =>
    if missing template_str_id then
      (st, .ok (failure 400 "template_str_id query parameter is required"))
    else
      match ProductTemplate.findOne st (template_str_id.getD "") with
      | none => (st, .ok (failure 404 "Product template not found"))
      | some productTemplate =>
        match OptionCategory.create st now v productTemplate.id with
        | .error e => (st, .error e)
        | .ok (st1, row) =>
          (st1, .ok (success 201 (some "Option category created successfully")
            (.category row)))

/-- The route `PUT /option-categories/:category_str_id`. -/
def putOptionCategory (st : Store) (now : Nat) (category_str_id : String) (body : Body) :
    Store × Except Err Response :=
  match validate optionCategorySchema body with
  | .error e => (st, .error e)
  | .ok v =>
    match OptionCategory.update st now category_str_id v with
    | .error e => (st, .error e)
    | .ok (st1, updatedRowsCount) =>
      if updatedRowsCount = 0 then (st1, .ok (failure 404 "Option category not found"))
      else
        match OptionCategory.findOne st1 category_str_id with
        | none => (st1, .error nullPropertyError)
        | some row =>
          (st1, .ok (success 200 (some "Option category updated successfully")
            (.categoryJoined row (templateRefOf st1 row.product_template_id))))

/-- The route `DELETE /option-categories/:category_str_id`. -/
def deleteOptionCategory (st : Store) (category_str_id : String) :
    Store × Except Err Response :=
  let (st1, deletedRowsCount) := OptionCategory.destroy st category_str_id
  if deletedRowsCount = 0 then (st1, .ok (failure 404 "Option category not found"))
  else (st1, .ok (success 200 (some "Option category deleted successfully") .none))

/-- The route `POST /option-choices?category_str_id=`. -/
def postOptionChoice (st : Store) (now : Nat) (category_str_id : Option String)
    (body : Body) : Store × Except Err Response :=
  match validate optionChoiceSchema body with
  | .error e => (st, .error e)
  | .ok v =>
    if missing category_str_id then
      (st, .ok (failure 400 "category_str_id query parameter is required"))
    else
      match OptionCategory.findOne st (category_str_id.getD "") with
      | none => (st, .ok (failure 404 "Option category not found"))
      | some optionCategory =>
        match OptionChoice.create st now v optionCategory.id with
        | .error e => (st, .error e)
        | .ok (st1, row) =>
          (st1, .ok (success 201 (some "Option choice created successfully")
            (.choice row
              { id := optionCategory.id, category_str_id := optionCategory.category_str_id,
                name := optionCategory.name,
                product_template := templateRefOf st optionCategory.product_template_id })))

/-- The route `PUT /option-choices/:choice_str_id`. -/
def putOptionChoice (st : Store) (now : Nat) (choice_str_id : String) (body : Body) :
    Store × Except Err Response :=
  match validate optionChoiceSchema body with
  | .error e => (st, .error e)
  | .ok v =>
    match OptionChoice.update st now choice_str_id v with
    | .error e => (st, .error e)
    | .ok (st1, updatedRowsCount) =>
      if updatedRowsCount = 0 then (st1, .ok (failure 404 "Option choice not found"))
      else
        match OptionChoice.findOne st1 choice_str_id with
        | none => (st1, .error nullPropertyError)
        | some row =>
          (st1, .ok (success 200 (some "Option choice updated successfully")
            (.choiceJoined row
              ((st1.categories.find? fun c => c.id == row.option_category_id).map fun c =>
                (c, templateRefOf st1 c.product_template_id)))))

/-- The route `DELETE /option-choices/:choice_str_id`. -/
def deleteOptionChoice (st : Store) (choice_str_id : String) : Store × Except Err Response :=
  let (st1, deletedRowsCount) := OptionChoice.destroy st choice_str_id
  if deletedRowsCount = 0 then (st1, .ok (failure 404 "Option choice not found"))
  else (st1, .ok (success 200 (some "Option choice deleted successfully") .none))

/-- The route `POST /option-choices/:choice_str_id/compatibility-rules`. -/
def postCompatibilityRule (st : Store) (now : Nat) (choice_str_id : String) (body : Body) :
    Store × Except Err Response :=
  match validate compatibilityRuleSchema body with
  | .error e => (st, .error e)
  | .ok v =>
    match OptionChoice.findOne st choice_str_id with
    | none => (st, .ok (failure 404 "Source option choice not found"))
    | some sourceChoice =>
      match OptionChoice.findOne st v.target_choice_str_id with
      | none => (st, .ok (failure 404 "Target option choice not found"))
      | some targetChoice =>
        match CompatibilityRule.create st now v.rule_type sourceChoice.id targetChoice.id
            v.description v.priority with
        | .error e => (st, .error e)
        | .ok (st1, row) =>
          (st1, .ok (success 201 (some "Compatibility rule created successfully")
            (.rule row sourceChoice.ref targetChoice.ref)))

/-- The route `GET /option-choices/:choice_str_id/compatibility-rules`. -/
def getCompatibilityRules (st : Store) (choice_str_id : String) : Store × Except Err Response :=
  match OptionChoice.findOne st choice_str_id with
  | none => (st, .ok (failure 404 "Option choice not found"))
  | some optionChoice =>
    let sourceRules := (CompatibilityRule.findAll st fun r =>
      r.source_choice_id == optionChoice.id).map fun r =>
        ({ rule := r, choice := choiceRefOf st r.target_choice_id } : RuleView)
    let targetRules := (CompatibilityRule.findAll st fun r =>
      r.target_choice_id == optionChoice.id).map fun r =>
        ({ rule := r, choice := choiceRefOf st r.source_choice_id } : RuleView)
    (st, .ok (success 200 none (.rules optionChoice.ref sourceRules targetRules)))

/-- The query string of a list request.  `page` and `limit` are absent or decimal
numerals; the other parameters are strings as sent. -/
structure Query where
  template_str_id : Option String
  category_str_id : Option String
  page : Option Nat
  limit : Option Nat
  include_categories : Option String
  include_choices : Option String
  include_rules : Option String
deriving DecidableEq, Repr

/-- The order `[['created_at', 'DESC']]` of the template list. -/
def newestFirst (a b : ProductTemplate) : Prop := b.created_at ≤ a.created_at

instance newestFirstDecidable : DecidableRel newestFirst :=
  fun a b => inferInstanceAs (Decidable (b.created_at ≤ a.created_at))

/-- The order `[['display_order', 'ASC'], ['created_at', 'ASC']]` of the category list. -/
def categoryOrder (a b : OptionCategory) : Prop :=
  a.display_order < b.display_order ∨
    (a.display_order = b.display_order ∧ a.created_at ≤ b.created_at)

instance categoryOrderDecidable : DecidableRel categoryOrder :=
  fun _ _ => inferInstanceAs (Decidable (_ ∨ _))

/-- The order `[['display_order', 'ASC'], ['created_at', 'ASC']]` of the choice list. -/
def choiceOrder (a b : OptionChoice) : Prop :=
  a.display_order < b.display_order ∨
    (a.display_order = b.display_order ∧ a.created_at ≤ b.created_at)

instance choiceOrderDecidable : DecidableRel choiceOrder :=
  fun _ _ => inferInstanceAs (Decidable (_ ∨ _))

/-- The included `optionCategories` of a template, with the listed attributes. -/
def categoryItemsOf (st : Store) (t : ProductTemplate) : List CategoryItem :=
  (st.categories.filter fun c => c.product_template_id == t.id).map fun c =>
    { id := c.id, category_str_id := c.category_str_id, name := c.name,
      description := c.description, is_required := c.is_required,
      display_order := c.display_order }

/-- The included `optionChoices` of a category, with the listed attributes. -/
def choiceItemsOf (st : Store) (c : OptionCategory) : List ChoiceItem :=
  (st.choices.filter fun x => x.option_category_id == c.id).map fun x =>
    { id := x.id, choice_str_id := x.choice_str_id, name := x.name,
      description := x.description, price_delta := x.price_delta,
      is_default := x.is_default, is_available := x.is_available,
      display_order := x.display_order }

/-- The call `ProductTemplate.findAndCountAll` of the template list.  The rows are the
templates newest first, `offset` skipped and at most `limit` kept (a negative offset is
read as 0).  The count runs over the same joins as the rows: without the include it is
the number of templates, with it the number of rows of the left outer join with the
categories, no `distinct` being asked for.  No rows are returned when the count is 0. -/
def ProductTemplate.findAndCountAll (st : Store) (limit : Nat) (offset : Int)
    (joined : Bool) : Nat × List ProductTemplate :=
  let count := if joined then
      (st.templates.map fun t =>
        max 1 (st.categories.filter fun c => c.product_template_id == t.id).length).sum
    else st.templates.length
  let rows := ((st.templates.insertionSort newestFirst).drop offset.toNat).take limit
  (count, if count = 0 then [] else rows)

/-- The route `GET /product-templates`. -/
def getProductTemplates (st : Store) (query : Query) : Store × Except Err Response :=
  let page := query.page.getD 1
  let limit := query.limit.getD 10
  let offset : Int := ((page : Int) - 1) * (limit : Int)
  let included := decide (query.include_categories = some "true")
  let (count, rows) := ProductTemplate.findAndCountAll st limit offset included
  let templates := rows.map fun t =>
    (t, if included then some (categoryItemsOf st t) else none)
  (st, .ok (success 200 none (.templates templates
    { current_page := page,
      total_pages := if limit = 0 then none else some ((count + limit - 1) / limit),
      total_items := count, items_per_page := limit })))

/-- The route `GET /option-categories?template_str_id=`.  It reads no `page` and no
`limit`. -/
def getOptionCategories (st : Store) (query : Query) : Store × Except Err Response :=
  if missing query.template_str_id then
    (st, .ok (failure 400 "template_str_id query parameter is required"))
  else
    match ProductTemplate.findOne st (query.template_str_id.getD "") with
    | none => (st, .ok (failure 404 "Product template not found"))
    | some productTemplate =>
      let included := decide (query.include_choices = some "true")
      let optionCategories := (st.categories.filter fun c =>
        c.product_template_id == productTemplate.id).insertionSort categoryOrder
      (st, .ok (success 200 none (.categories (optionCategories.map fun c =>
        (c, if included then some (choiceItemsOf st c) else none)))))

/-- The route `GET /option-choices?category_str_id=`.  It reads no `page` and no
`limit`. -/
def getOptionChoices (st : Store) (query : Query) : Store × Except Err Response :=
  if missing query.category_str_id then
    (st, .ok (failure 400 "category_str_id query parameter is required"))
  else
    match OptionCategory.findOne st (query.category_str_id.getD "") with
    | none => (st, .ok (failure 404 "Option category not found"))
    | some optionCategory =>
      let included := decide (query.include_rules = some "true")
      let optionChoices := (st.choices.filter fun c =>
        c.option_category_id == optionCategory.id).insertionSort choiceOrder
      (st, .ok (success 200 none (.choices
        (optionChoices.map fun c =>
          (c, if included then some
            ((st.rules.filter fun r => r.source_choice_id == c.id).map (fun r =>
                ({ rule := r, choice := choiceRefOf st r.target_choice_id } : RuleView)),
              (st.rules.filter fun r => r.target_choice_id == c.id).map (fun r =>
                ({ rule := r, choice := choiceRefOf st r.source_choice_id } : RuleView)))
            else none))
        { id := optionCategory.id, category_str_id := optionCategory.category_str_id,
          name := optionCategory.name,
          product_template := templateRefOf st optionCategory.product_template_id })))

/-! ## The API as a transition system -/

/-- A request to one of the routes above. -/
inductive Request where
  | postProductTemplate (body : Body)
  | putProductTemplate (template_str_id : String) (body : Body)
  | deleteProductTemplate (template_str_id : String)
  | postOptionCategory (template_str_id : Option String) (body : Body)
  | putOptionCategory (category_str_id : String) (body : Body)
  | deleteOptionCategory (category_str_id : String)
  | postOptionChoice (category_str_id : Option String) (body : Body)
  | putOptionChoice (choice_str_id : String) (body : Body)
  | deleteOptionChoice (choice_str_id : String)
  | postCompatibilityRule (choice_str_id : String) (body : Body)
  | getCompatibilityRules (choice_str_id : String)
  | getProductTemplates (query : Query)
  | getOptionCategories (query : Query)
  | getOptionChoices (query : Query)
deriving DecidableEq, Repr

/-- Run the route of a request at clock reading `now`. -/
def route (st : Store) (now : Nat) : Request → Store × Except Err Response
  | .postProductTemplate body => postProductTemplate st now body
  | .putProductTemplate key body => putProductTemplate st now key body
  | .deleteProductTemplate key => deleteProductTemplate st key
  | .postOptionCategory query body => postOptionCategory st now query body
  | .putOptionCategory key body => putOptionCategory st now key body
  | .deleteOptionCategory key => deleteOptionCategory st key
  | .postOptionChoice query body => postOptionChoice st now query body
  | .putOptionChoice key body => putOptionChoice st now key body
  | .deleteOptionChoice key => deleteOptionChoice st key
  | .postCompatibilityRule key body => postCompatibilityRule st now key body
  | .getCompatibilityRules key => getCompatibilityRules st key
  | .getProductTemplates query => getProductTemplates st query
  | .getOptionCategories query => getOptionCategories st query
  | .getOptionChoices query => getOptionChoices st query

/-- The response the client receives: the route's own, or the error handler's. -/
def respond (env : Option String) : Except Err Response → Response
  | .ok r => r
  | .error e => errorHandler env e

/-- Modelled from the spec: the application entry point that mounts the routers and
the error handler is not among the sources.  Per the spec every failure path returns a
structured response or propagates to the single top-level handler; so one request is
served by its route, and an error passed to `next` is answered by `errorHandler`. -/
def handle (env : Option String) (st : Store) (now : Nat) (req : Request) : Store × Response :=
  ((route st now req).1, respond env (route st now req).2)

/-- Serve a sequence of timed requests from a store, returning the final store. -/
def run (st : Store) : List (Nat × Request) → Store
  | [] => st
  | (now, req) :: rest => run (route st now req).1 rest

/-- The states the API can reach from the empty store. -/
inductive Reachable : Store → Prop where
  | empty : Reachable Store.empty
  | step (st : Store) (now : Nat) (req : Request) :
      Reachable st → Reachable (route st now req).1

/-! ## Statements: projections, invariants and worked requests -/

deriving instance DecidableEq for Except

/-- The rules listed under `source_rules` in a lookup response. -/
def Response.sourceRules (r : Response) : List CompatibilityRule :=
  match r.data with
  | .rules _ source_rules _ => source_rules.map fun v => v.rule
  | _ => []

/-- The rules listed under `target_rules` in a lookup response. -/
def Response.targetRules (r : Response) : List CompatibilityRule :=
  match r.data with
  | .rules _ _ target_rules => target_rules.map fun v => v.rule
  | _ => []

/-- The columns of the unique index of `compatibility_rules`. -/
def ruleKey (r : CompatibilityRule) : Nat × Nat × RuleType :=
  (r.source_choice_id, r.target_choice_id, r.rule_type)

/-- Every stored rule joins two distinct stored choices, and no two stored rules agree
on the columns of the unique index. -/
def StoreInv (st : Store) : Prop :=
  (∀ r ∈ st.rules, r.source_choice_id ≠ r.target_choice_id ∧
    (∃ c ∈ st.choices, c.id = r.source_choice_id) ∧
    (∃ c ∈ st.choices, c.id = r.target_choice_id)) ∧
  (st.rules.map ruleKey).Nodup

/-- A template body, after the example of `src/routes/index.js`. -/
def laptopBody : Body :=
  [("template_str_id", .str "laptop_x"), ("name", .str "Laptop Model X"),
    ("base_price", .num { mantissa := 800, scale := 0 })]

/-- A category body with the given key. -/
def categoryBody (key : String) : Body :=
  [("category_str_id", .str key), ("name", .str "Processor")]

/-- A choice body with the given key. -/
def choiceBody (key : String) : Body :=
  [("choice_str_id", .str key), ("name", .str "Intel Core i7")]

/-- A rule body with the given kind, target key and priority. -/
def ruleBody (kind target : String) (priority : Int) : Body :=
  [("rule_type", .str kind), ("target_choice_str_id", .str target),
    ("priority", .num { mantissa := priority, scale := 0 })]

/-- Requests that create choices `intel_i7` and `ddr5` in category `cpu`, the rule
`intel_i7 REQUIRES ddr5`, and then a second choice `intel_i7` in category `gpu`. -/
def sharedKeyRequests : List (Nat × Request) :=
  [(1, .postProductTemplate laptopBody),
    (2, .postOptionCategory (some "laptop_x") (categoryBody "cpu")),
    (3, .postOptionCategory (some "laptop_x") (categoryBody "gpu")),
    (4, .postOptionChoice (some "cpu") (choiceBody "intel_i7")),
    (5, .postOptionChoice (some "cpu") (choiceBody "ddr5")),
    (6, .postCompatibilityRule "intel_i7" (ruleBody "REQUIRES" "ddr5" 5)),
    (7, .postOptionChoice (some "gpu") (choiceBody "intel_i7"))]

/-- The store after `sharedKeyRequests`. -/
def sharedKeyStore : Store := run Store.empty sharedKeyRequests

/-- The choice `intel_i7` of category `cpu` in `sharedKeyStore`. -/
def firstIntel : OptionChoice :=
  { id := 1, choice_str_id := "intel_i7", name := "Intel Core i7", description := none,
    price_delta := 0, is_default := false, is_available := true, display_order := 0,
    option_category_id := 1, created_at := 4, updated_at := 4 }

/-- The choice `ddr5` in `sharedKeyStore`. -/
def ddr5Choice : OptionChoice :=
  { id := 2, choice_str_id := "ddr5", name := "Intel Core i7", description := none,
    price_delta := 0, is_default := false, is_available := true, display_order := 0,
    option_category_id := 1, created_at := 5, updated_at := 5 }

/-- The choice `intel_i7` of category `gpu` in `sharedKeyStore`. -/
def secondIntel : OptionChoice :=
  { id := 3, choice_str_id := "intel_i7", name := "Intel Core i7", description := none,
    price_delta := 0, is_default := false, is_available := true, display_order := 0,
    option_category_id := 2, created_at := 7, updated_at := 7 }

/-- The rule of `sharedKeyStore`, from the first `intel_i7` to `ddr5`. -/
def intelRequiresDdr5 : CompatibilityRule :=
  { id := 1, rule_type := .REQUIRES, description := none, is_active := true, priority := 5,
    source_choice_id := 1, target_choice_id := 2, created_at := 6, updated_at := 6 }

/-- Requests that create four choices and three rules out of `intel_i7`: to `ddr4`
with priority 5, to `ddr5` with priority 5 and to `rtx_4090` with priority 10. -/
def priorityRequests : List (Nat × Request) :=
  [(1, .postProductTemplate laptopBody),
    (2, .postOptionCategory (some "laptop_x") (categoryBody "cpu")),
    (3, .postOptionChoice (some "cpu") (choiceBody "intel_i7")),
    (4, .postOptionChoice (some "cpu") (choiceBody "ddr4")),
    (5, .postOptionChoice (some "cpu") (choiceBody "ddr5")),
    (6, .postOptionChoice (some "cpu") (choiceBody "rtx_4090")),
    (7, .postCompatibilityRule "intel_i7" (ruleBody "REQUIRES" "ddr4" 5)),
    (8, .postCompatibilityRule "intel_i7" (ruleBody "COMPATIBLE" "ddr5" 5)),
    (9, .postCompatibilityRule "intel_i7" (ruleBody "INCOMPATIBLE" "rtx_4090" 10))]

/-- The store after `priorityRequests`. -/
def priorityStore : Store := run Store.empty priorityRequests

/-- The rule of request 7 in `priorityStore`. -/
def ruleA : CompatibilityRule :=
  { id := 1, rule_type := .REQUIRES, description := none, is_active := true, priority := 5,
    source_choice_id := 1, target_choice_id := 2, created_at := 7, updated_at := 7 }

/-- The rule of request 8 in `priorityStore`. -/
def ruleB : CompatibilityRule :=
  { id := 2, rule_type := .COMPATIBLE, description := none, is_active := true, priority := 5,
    source_choice_id := 1, target_choice_id := 3, created_at := 8, updated_at := 8 }

/-- The rule of request 9 in `priorityStore`. -/
def ruleC : CompatibilityRule :=
  { id := 3, rule_type := .INCOMPATIBLE, description := none, is_active := true,
    priority := 10, source_choice_id := 1, target_choice_id := 4, created_at := 9,
    updated_at := 9 }

/-! ## The validation layer as a whole -/

/-- The four schemas of `src/utils/validation.js`. -/
inductive Schema where
  | productTemplate
  | optionCategory
  | optionChoice
  | compatibilityRule
deriving DecidableEq, Repr

/-- A sanitized body, as `validate` stores it in `req.body`. -/
inductive Sanitized where
  | productTemplate (v : TemplateBody)
  | optionCategory (v : CategoryBody)
  | optionChoice (v : ChoiceBody)
  | compatibilityRule (v : RuleBody)
deriving DecidableEq, Repr

/-- Run a schema on a body. -/
def Schema.run : Schema → Body → Except (List JoiDetail) Sanitized
  | .productTemplate, b => (productTemplateSchema b).map .productTemplate
  | .optionCategory, b => (optionCategorySchema b).map .optionCategory
  | .optionChoice, b => (optionChoiceSchema b).map .optionChoice
  | .compatibilityRule, b => (compatibilityRuleSchema b).map .compatibilityRule

/-- The details of the Joi error of a body; none when the body passes. -/
def Schema.details (s : Schema) (b : Body) : List JoiDetail :=
  errorsOf (s.run b)

/-- The keys a schema declares, in the order of the declaration. -/
def Schema.keys : Schema → List String
  | .productTemplate => ["template_str_id", "name", "base_price", "description"]
  | .optionCategory =>
    ["category_str_id", "name", "description", "is_required", "display_order"]
  | .optionChoice =>
    ["choice_str_id", "name", "description", "price_delta", "is_default", "is_available",
      "display_order"]
  | .compatibilityRule => ["rule_type", "target_choice_str_id", "description", "priority"]

/-- The body that holds nothing but the key `k`, or nothing at all. -/
def singleKeyBody (k : String) : Option JVal → Body
  | some x => [(k, x)]
  | none => []

/-- The details the key `k` draws when it holds `v` (or is absent): those that the
schema reports under `k` for a body that holds nothing but `k`.  The key is violated
when this list is not empty. -/
def Schema.keyDetails (s : Schema) (k : String) (v : Option JVal) : List JoiDetail :=
  (s.details (singleKeyBody k v)).filter fun d => d.path == [k]

/-- The requests whose route runs `validate` with the schema. -/
def Schema.requests (s : Schema) (key : String) (query : Option String) (body : Body) :
    List Request :=
  match s with
  | .productTemplate => [.postProductTemplate body, .putProductTemplate key body]
  | .optionCategory => [.postOptionCategory query body, .putOptionCategory key body]
  | .optionChoice => [.postOptionChoice query body, .putOptionChoice key body]
  | .compatibilityRule => [.postCompatibilityRule key body]

/-- The response of the error handler to Joi details. -/
def validationResponse (details : List JoiDetail) : Response :=
  { failure 400 "Validation Error" with
    details := .items (details.map fun d =>
      { field := ".".intercalate d.path, message := d.message, value := d.value }) }

/-- A rule body whose priority is the decimal -1.5. -/
def fractionalPriorityBody : Body :=
  [("rule_type", .str "REQUIRES"), ("target_choice_str_id", .str "ddr5"),
    ("priority", .num { mantissa := -15, scale := 1 })]

/-- The defaults of the optional keys: what the sanitized body holds for a key of the
schema that the body leaves out. -/
def defaultsFilled (b : Body) : Sanitized → Prop
  | .productTemplate _ => True
  | .optionCategory v =>
    (b.lookup "is_required" = none → v.is_required = false) ∧
    (b.lookup "display_order" = none → v.display_order = 0)
  | .optionChoice v =>
    (b.lookup "price_delta" = none → v.price_delta = 0) ∧
    (b.lookup "is_default" = none → v.is_default = false) ∧
    (b.lookup "is_available" = none → v.is_available = true) ∧
    (b.lookup "display_order" = none → v.display_order = 0)
  | .compatibilityRule v => b.lookup "priority" = none → v.priority = 0

/-- Every stored rule is active with a priority that is not negative, and every stored
template has a base price that is not negative. -/
def ValuesInv (st : Store) : Prop :=
  (∀ r ∈ st.rules, r.is_active = true ∧ 0 ≤ r.priority) ∧
  (∀ t ∈ st.templates, 0 ≤ t.base_price)

/-- The error kinds the handler knows, by the properties it tests. -/
def Err.isRecognized (err : Err) : Bool :=
  err.name == "SequelizeValidationError" || err.name == "SequelizeUniqueConstraintError" ||
    err.name == "SequelizeForeignKeyConstraintError" ||
    err.name == "SequelizeConnectionError" || err.isJoi

/-- An error of no recognized kind that carries the status code 404. -/
def notFoundError : Err :=
  { name := "NotFoundError", statusCode := some 404, message := "Not Found",
    stack := some "NotFoundError: Not Found", errors := [], isJoi := false, details := [] }

/-- A template body with the given base price. -/
def priceBody (price : JNum) : Body :=
  [("template_str_id", .str "laptop_x"), ("name", .str "Laptop Model X"),
    ("base_price", .num price)]

/-- A template body whose base price is the decimal -0.004. -/
def tinyNegativePriceBody : Body := priceBody { mantissa := -4, scale := 3 }

/-- A query that asks for the template `laptop_x`, the category `cpu`, page 1 with one
item per page and no included children. -/
def onePerPage : Query :=
  { template_str_id := some "laptop_x", category_str_id := some "cpu", page := some 1,
    limit := some 1, include_categories := none, include_choices := none,
    include_rules := none }

/-- The items of a list response, as many as the `data` array holds. -/
def Response.itemCount (r : Response) : Nat :=
  match r.data with
  | .templates items _ => items.length
  | .categories items => items.length
  | .choices items _ => items.length
  | _ => 0

/-- The templates of a template list response. -/
def Response.templates (r : Response) : List ProductTemplate :=
  match r.data with
  | .templates items _ => items.map fun i => i.1
  | _ => []

/-- The `pagination` member of a template list response. -/
def Response.pagination (r : Response) : Option Pagination :=
  match r.data with
  | .templates _ p => some p
  | _ => none

/-- For every item of a list response, whether it carries its child collection. -/
def Response.children (r : Response) : List Bool :=
  match r.data with
  | .templates items _ => items.map fun i => i.2.isSome
  | .categories items => items.map fun i => i.2.isSome
  | .choices items _ => items.map fun i => i.2.isSome
  | _ => []

/-- The categories of a category list response. -/
def Response.categories (r : Response) : List OptionCategory :=
  match r.data with
  | .categories items => items.map fun i => i.1
  | _ => []

/-- The choices of a choice list response. -/
def Response.choices (r : Response) : List OptionChoice :=
  match r.data with
  | .choices items _ => items.map fun i => i.1
  | _ => []

/-- A query for the first page of the template list, one item per page, with the
categories included. -/
def withCategories : Query :=
  { template_str_id := none, category_str_id := none, page := some 1, limit := some 1,
    include_categories := some "true", include_choices := none, include_rules := none }

/-- The template of `sharedKeyStore`. -/
def laptopTemplate : ProductTemplate :=
  { id := 1, template_str_id := "laptop_x", name := "Laptop Model X", base_price := 80000,
    description := none, is_active := true, created_at := 1, updated_at := 1 }

/-- The category `cpu` of `sharedKeyStore`. -/
def cpuCategory : OptionCategory :=
  { id := 1, category_str_id := "cpu", name := "Processor", description := none,
    is_required := false, display_order := 0, product_template_id := 1, created_at := 2,
    updated_at := 2 }

/-- Requests that create the choices `intel_i7`, `ddr4` and `ddr5` and the rules
`intel_i7 REQUIRES ddr4` and `ddr4 INCOMPATIBLE ddr5`. -/
def chainRequests : List (Nat × Request) :=
  [(1, .postProductTemplate laptopBody),
    (2, .postOptionCategory (some "laptop_x") (categoryBody "cpu")),
    (3, .postOptionChoice (some "cpu") (choiceBody "intel_i7")),
    (4, .postOptionChoice (some "cpu") (choiceBody "ddr4")),
    (5, .postOptionChoice (some "cpu") (choiceBody "ddr5")),
    (6, .postCompatibilityRule "intel_i7" (ruleBody "REQUIRES" "ddr4" 0)),
    (7, .postCompatibilityRule "ddr4" (ruleBody "INCOMPATIBLE" "ddr5" 0))]

/-! ## The compatibility check of the spec -/

/-- Modelled from the spec: what `is_compatible` cites when it rejects, a pair with its
`INCOMPATIBLE` rule or a missing requirement with its `REQUIRES` rule.  The source holds
no resolver; section 4.1 of the spec describes the one a correct engine must provide. -/
inductive Violation where
  | incompatible (a b : Nat) (rule : CompatibilityRule)
  | missingRequirement (a b : Nat) (rule : CompatibilityRule)
deriving DecidableEq, Repr

/-- Modelled from the spec: the `Outcome` of `is_compatible`, `Accepted` or `Rejected`
with what it cites. -/
inductive Outcome where
  | Accepted
  | Rejected (cited : List Violation)
deriving DecidableEq, Repr

/-- Modelled from the spec: a rule "between a and b", in either direction. -/
def CompatibilityRule.between (r : CompatibilityRule) (a b : Nat) : Bool :=
  (r.source_choice_id == a && r.target_choice_id == b) ||
    (r.source_choice_id == b && r.target_choice_id == a)

/-- Modelled from the spec: the two kinds of the conflict policy, a `REQUIRES` and an
`INCOMPATIBLE` rule; `COMPATIBLE` is informational only. -/
def conflictingKinds (x y : RuleType) : Bool :=
  (x == .REQUIRES && y == .INCOMPATIBLE) || (x == .INCOMPATIBLE && y == .REQUIRES)

/-- Modelled from the spec: "equal priority is a configuration error", two active rules
of conflicting kinds between the same pair with the same priority. -/
def configurationError (rules : List CompatibilityRule) : Bool :=
  rules.any fun r => rules.any fun o =>
    r.is_active && o.is_active && o.between r.source_choice_id r.target_choice_id &&
      conflictingKinds o.rule_type r.rule_type && o.priority == r.priority

/-- Modelled from the spec: "only active rules" are considered and "the higher-priority
rule governs": an active rule governs when no active rule of the conflicting kind
between the same pair has a priority as high as its own. -/
def governs (rules : List CompatibilityRule) (r : CompatibilityRule) : Bool :=
  r.is_active && rules.all fun o =>
    !(o.is_active && o.between r.source_choice_id r.target_choice_id &&
      conflictingKinds o.rule_type r.rule_type && decide (r.priority ≤ o.priority))

/-- Modelled from the spec: `is_compatible(choice_ids)` over the stored rules.  For every
ordered pair of the set a governing `INCOMPATIBLE` rule between the two is a violation;
a governing `REQUIRES` rule from a choice of the set to a choice outside it is a
violation; no violation is `Accepted`.  An equal-priority conflict is not resolved
(`none`). -/
def is_compatible (rules : List CompatibilityRule) (choice_ids : List Nat) : Option Outcome :=
  if configurationError rules then none
  else
    let incompatible := choice_ids.flatMap fun a => choice_ids.flatMap fun b =>
      (rules.filter fun r =>
        r.rule_type == .INCOMPATIBLE && r.between a b && governs rules r).map fun r =>
          Violation.incompatible a b r
    let missing := choice_ids.flatMap fun a =>
      (rules.filter fun r =>
        r.rule_type == .REQUIRES && r.source_choice_id == a &&
          !choice_ids.contains r.target_choice_id && governs rules r).map fun r =>
          Violation.missingRequirement a r.target_choice_id r
    if incompatible ++ missing = [] then some .Accepted
    else some (.Rejected (incompatible ++ missing))

/-- An active `REQUIRES` rule from choice 1 to choice 2 with priority 10. -/
def requiresHigh : CompatibilityRule :=
  { id := 1, rule_type := .REQUIRES, description := none, is_active := true, priority := 10,
    source_choice_id := 1, target_choice_id := 2, created_at := 1, updated_at := 1 }

/-- An active `INCOMPATIBLE` rule from choice 1 to choice 2 with priority 5. -/
def incompatibleLow : CompatibilityRule :=
  { id := 2, rule_type := .INCOMPATIBLE, description := none, is_active := true,
    priority := 5, source_choice_id := 1, target_choice_id := 2, created_at := 2,
    updated_at := 2 }

/-! ## Lemmas on the schemas, the model operations and the routes -/

/-- A string schema only accepts a string, and returns it unchanged. -/
theorem joiString_ok {label : String} {messages : List (String × String)} {p : Bool}
    {lo hi : Option Nat} {e : Bool} {v : JVal} {s : String}
    (h : joiString label messages p lo hi e v = .ok s) : v = .str s := by
  cases v <;> simp only [joiString] at h <;> first | (split_ifs at h <;> simp_all) | simp at h

/-- The integer schema only accepts a number, and returns exactly its value. -/
theorem joiInteger_ok {label : String} {messages : List (String × String)} {v : JVal} {i : Int}
    (h : joiInteger label messages v = .ok i) :
    ∃ n : JNum, v = .num n ∧ n.mantissa = i * (10 : Int) ^ n.scale := by
  cases v <;> simp only [joiInteger] at h <;> try simp at h
  rename_i n
  split_ifs at h with h1 h2
  injection h with h
  refine ⟨n, rfl, ?_⟩
  simp only [integerRuleErrors, List.append_eq_nil, ite_eq_right_iff, List.cons_ne_nil, imp_false] at h2
  have h3 : n.isInteger = true := by simpa using h2.1
  simp only [JNum.isInteger, beq_iff_eq] at h3
  rw [← h]
  simp only [JNum.toInt]
  exact (Int.ediv_mul_cancel (Int.dvd_of_emod_eq_zero h3)).symm

/-- A Joi error from the validation middleware is answered with status 400. -/
theorem errorHandler_joi (env : Option String) {α : Type}
    (schema : Body → Except (List JoiDetail) α) (body : Body) (e : Err)
    (h : validate schema body = .error e) :
    (errorHandler env e).status = 400 ∧ (errorHandler env e).success = false := by
  unfold validate at h
  split at h
  · simp at h
  · injection h with h
    subst h
    simp [errorHandler, failure]

end Think41

namespace Think41

/-- A string read as a rule kind is that kind's string. -/
theorem ruleType_ofString {s : String} {k : RuleType} (h : RuleType.ofString s = some k) :
    s = k.toString := by
  unfold RuleType.ofString at h
  split_ifs at h <;> simp at h <;> subst h <;> simp [RuleType.toString, *]

/-- What a body that passes `compatibilityRuleSchema` held under each key. -/
theorem compatibilityRuleSchema_ok {body : Body} {v : RuleBody}
    (h : compatibilityRuleSchema body = .ok v) :
    body.lookup "rule_type" = some (.str v.rule_type.toString) ∧
    body.lookup "target_choice_str_id" = some (.str v.target_choice_str_id) ∧
    body.lookup "description" = v.description.map JVal.str ∧
    ((body.lookup "priority" = none ∧ v.priority = 0) ∨
      ∃ n : JNum, body.lookup "priority" = some (.num n) ∧
        n.mantissa = v.priority * (10 : Int) ^ n.scale) := by
  unfold compatibilityRuleSchema at h
  simp only at h
  split at h
  next k t d p hk ht hd hp =>
    injection h with h
    subst h
    simp only
    refine ⟨?_, ?_, ?_, ?_⟩
    · cases hl : body.lookup "rule_type" with
      | none => rw [hl] at hk; simp [joiRequired] at hk
      | some x =>
        rw [hl] at hk
        simp only [joiRequired] at hk
        cases x <;> simp only [joiRuleType] at hk <;> try simp at hk
        rename_i s
        split at hk
        next k1 hk1 =>
          injection hk with hk
          subst hk
          rw [ruleType_ofString hk1]
        next => simp at hk
    · cases hl : body.lookup "target_choice_str_id" with
      | none => rw [hl] at ht; simp [strIdSchema, joiRequired] at ht
      | some x =>
        rw [hl] at ht
        simp only [strIdSchema, joiRequired] at ht
        rw [joiString_ok ht]
    · cases hl : body.lookup "description" with
      | none =>
        rw [hl] at hd
        simp only [descriptionSchema, joiOptional] at hd
        injection hd with hd
        subst hd
        rfl
      | some x =>
        rw [hl] at hd
        simp only [descriptionSchema, joiOptional] at hd
        cases hj : joiString "description"
            [("string.max", "description must be at most 1000 characters long")] false none
            (some 1000) true x with
        | error e => rw [hj] at hd; simp [Except.map] at hd
        | ok s =>
          rw [hj] at hd
          simp only [Except.map] at hd
          injection hd with hd
          subst hd
          rw [joiString_ok hj]
          rfl
    · cases hl : body.lookup "priority" with
      | none =>
        rw [hl] at hp
        simp only [joiDefault] at hp
        injection hp with hp
        exact Or.inl ⟨rfl, hp.symm⟩
      | some x =>
        rw [hl] at hp
        simp only [joiDefault] at hp
        obtain ⟨n, hn, hm⟩ := joiInteger_ok hp
        exact Or.inr ⟨n, by rw [hn], hm⟩
  next => simp at h

end Think41

namespace Think41

/-- The middleware passes on exactly what the schema accepted. -/
theorem validate_ok {α : Type} {schema : Body → Except (List JoiDetail) α} {body : Body} {v : α}
    (h : validate schema body = .ok v) : schema body = .ok v := by
  unfold validate at h
  split at h
  · next w hw => injection h with h; rw [hw, h]
  · simp at h

/-- A stored choice makes `findOne` on its key succeed. -/
theorem findOne_of_mem {st : Store} {c : OptionChoice} (h : c ∈ st.choices) :
    ∃ c1, OptionChoice.findOne st c.choice_str_id = some c1 := by
  cases hf : OptionChoice.findOne st c.choice_str_id with
  | some c1 => exact ⟨c1, rfl⟩
  | none =>
    unfold OptionChoice.findOne at hf
    rw [List.find?_eq_none] at hf
    have := hf c h
    simp at this

/-- The invariant only reads the rules and the choices. -/
theorem storeInv_congr {st st1 : Store} (hr : st1.rules = st.rules)
    (hc : st1.choices = st.choices) (h : StoreInv st) : StoreInv st1 := by
  unfold StoreInv at *
  rw [hr, hc]
  exact h

/-- Deleting choices with the cascade to the rules keeps the invariant. -/
theorem storeInv_dropChoices {st : Store} (dead : OptionChoice → Bool) (h : StoreInv st) :
    StoreInv (st.dropChoices dead) := by
  obtain ⟨hw, hn⟩ := h
  refine ⟨?_, ?_⟩
  · intro r hr
    simp only [Store.dropChoices, List.mem_filter] at hr
    obtain ⟨hr1, hr2⟩ := hr
    obtain ⟨hne, ⟨c1, hc1, hid1⟩, ⟨c2, hc2, hid2⟩⟩ := hw r hr1
    simp only [Bool.not_eq_true', Bool.or_eq_false_iff] at hr2
    refine ⟨hne, ⟨c1, ?_, hid1⟩, ⟨c2, ?_, hid2⟩⟩
    · simp only [Store.dropChoices, List.mem_filter, Bool.not_eq_true']
      refine ⟨hc1, ?_⟩
      by_contra hd
      have hd1 : dead c1 = true := by simpa using hd
      have : (List.map (fun c => c.id) (List.filter dead st.choices)).contains
          r.source_choice_id = true := by
        simp only [List.contains_iff_exists_mem_beq, beq_iff_eq]
        exact ⟨c1.id, List.mem_map.mpr ⟨c1, List.mem_filter.mpr ⟨hc1, hd1⟩, rfl⟩, hid1.symm⟩
      rw [this] at hr2
      exact absurd hr2.1 (by simp)
    · simp only [Store.dropChoices, List.mem_filter, Bool.not_eq_true']
      refine ⟨hc2, ?_⟩
      by_contra hd
      have hd1 : dead c2 = true := by simpa using hd
      have : (List.map (fun c => c.id) (List.filter dead st.choices)).contains
          r.target_choice_id = true := by
        simp only [List.contains_iff_exists_mem_beq, beq_iff_eq]
        exact ⟨c2.id, List.mem_map.mpr ⟨c2, List.mem_filter.mpr ⟨hc2, hd1⟩, rfl⟩, hid2.symm⟩
      rw [this] at hr2
      exact absurd hr2.2 (by simp)
  · simp only [Store.dropChoices]
    exact hn.sublist ((List.filter_sublist _).map ruleKey)

/-- Deleting categories with their cascade keeps the invariant. -/
theorem storeInv_dropCategories {st : Store} (dead : OptionCategory → Bool) (h : StoreInv st) :
    StoreInv (st.dropCategories dead) := by
  unfold Store.dropCategories
  exact storeInv_dropChoices _ (storeInv_congr rfl rfl h)

/-- Deleting templates with their cascade keeps the invariant. -/
theorem storeInv_dropTemplates {st : Store} (dead : ProductTemplate → Bool) (h : StoreInv st) :
    StoreInv (st.dropTemplates dead) := by
  unfold Store.dropTemplates
  exact storeInv_dropCategories _ (storeInv_congr rfl rfl h)

theorem productTemplate_create_frame {st st1 : Store} {now : Nat} {v : TemplateBody}
    {row : ProductTemplate} (h : ProductTemplate.create st now v = .ok (st1, row)) :
    st1.rules = st.rules ∧ st1.choices = st.choices := by
  unfold ProductTemplate.create at h
  simp only at h
  split_ifs at h <;>
    (injection h with h; injection h with h1 h2; subst h1; exact ⟨rfl, rfl⟩)

theorem optionCategory_create_frame {st st1 : Store} {now : Nat} {v : CategoryBody} {t : Nat}
    {row : OptionCategory} (h : OptionCategory.create st now v t = .ok (st1, row)) :
    st1.rules = st.rules ∧ st1.choices = st.choices := by
  unfold OptionCategory.create at h
  simp only at h
  split_ifs at h
  injection h with h
  injection h with h1 h2
  subst h1
  exact ⟨rfl, rfl⟩

theorem productTemplate_update_frame {st st1 : Store} {now : Nat} {key : String}
    {v : TemplateBody} {n : Nat} (h : ProductTemplate.update st now key v = .ok (st1, n)) :
    st1.rules = st.rules ∧ st1.choices = st.choices := by
  unfold ProductTemplate.update at h
  simp only at h
  split_ifs at h <;> injection h with h <;> injection h with h1 h2 <;> subst h1 <;>
    exact ⟨rfl, rfl⟩

theorem optionCategory_update_frame {st st1 : Store} {now : Nat} {key : String}
    {v : CategoryBody} {n : Nat} (h : OptionCategory.update st now key v = .ok (st1, n)) :
    st1.rules = st.rules ∧ st1.choices = st.choices := by
  unfold OptionCategory.update at h
  simp only at h
  split_ifs at h <;> injection h with h <;> injection h with h1 h2 <;> subst h1 <;>
    exact ⟨rfl, rfl⟩

theorem optionChoice_create_frame {st st1 : Store} {now : Nat} {v : ChoiceBody} {cat : Nat}
    {row : OptionChoice} (h : OptionChoice.create st now v cat = .ok (st1, row)) :
    st1.rules = st.rules ∧ st1.choices = st.choices ++ [row] := by
  unfold OptionChoice.create at h
  simp only at h
  split_ifs at h
  injection h with h
  injection h with h1 h2
  subst h1
  subst h2
  exact ⟨rfl, rfl⟩

theorem optionChoice_update_frame {st st1 : Store} {now : Nat} {key : String}
    {v : ChoiceBody} {n : Nat} (h : OptionChoice.update st now key v = .ok (st1, n)) :
    st1.rules = st.rules ∧ ∃ f : OptionChoice → OptionChoice,
      (∀ c, (f c).id = c.id) ∧ (st1.choices = st.choices ∨ st1.choices = st.choices.map f) := by
  unfold OptionChoice.update at h
  simp only at h
  split_ifs at h
  · injection h with h
    injection h with h1 h2
    subst h1
    exact ⟨rfl, fun c => c, fun _ => rfl, Or.inl rfl⟩
  · injection h with h
    injection h with h1 h2
    subst h1
    refine ⟨rfl, _, ?_, Or.inr rfl⟩
    intro c
    by_cases hk : (c.choice_str_id == key) = true
    · rw [if_pos hk]
    · rw [if_neg hk]

theorem compatibilityRule_create_ok {st st1 : Store} {now : Nat} {k : RuleType} {s t : Nat}
    {d : Option String} {p : Int} {row : CompatibilityRule}
    (h : CompatibilityRule.create st now k s t d p = .ok (st1, row)) :
    st1.rules = st.rules ++ [row] ∧ st1.choices = st.choices ∧
    st1.templates = st.templates ∧ st1.categories = st.categories ∧
    row = { id := st.nextRuleId, rule_type := k, description := d, is_active := true,
            priority := p, source_choice_id := s, target_choice_id := t, created_at := now,
            updated_at := now } ∧
    s ≠ t ∧ (∃ c ∈ st.choices, c.id = s) ∧ (∃ c ∈ st.choices, c.id = t) ∧
    (∀ r ∈ st.rules, ruleKey r ≠ (s, t, k)) := by
  unfold CompatibilityRule.create at h
  simp only at h
  split_ifs at h with h1 h2 h3
  injection h with h
  injection h with h4 h5
  subst h4
  subst h5
  refine ⟨rfl, rfl, rfl, rfl, rfl, ?_, ?_, ?_, ?_⟩
  · intro hst
    exact h1 (by simp [sourceNotTarget, hst])
  · simp only [Bool.or_eq_true, Bool.not_eq_true', not_or, Bool.not_eq_false,
      List.any_eq_true, beq_iff_eq] at h3
    exact h3.1
  · simp only [Bool.or_eq_true, Bool.not_eq_true', not_or, Bool.not_eq_false,
      List.any_eq_true, beq_iff_eq] at h3
    exact h3.2
  · intro r hr hk
    apply h2
    simp only [ruleKey, Prod.mk.injEq] at hk
    simp only [List.any_eq_true, Bool.and_eq_true, beq_iff_eq]
    exact ⟨r, hr, ⟨hk.1, hk.2.1⟩, hk.2.2⟩

/-- Every route keeps the invariant. -/
theorem storeInv_route (st : Store) (now : Nat) (req : Request) (h : StoreInv st) :
    StoreInv (route st now req).1 := by
  cases req with
  | postProductTemplate body =>
    simp only [route, postProductTemplate]
    split
    · exact h
    · split
      · exact h
      · next hc =>
        have hf := productTemplate_create_frame hc
        exact storeInv_congr hf.1 hf.2 h
  | putProductTemplate key body =>
    simp only [route, putProductTemplate]
    split
    · exact h
    · split
      · exact h
      · next hu =>
        have hf := productTemplate_update_frame hu
        have := storeInv_congr hf.1 hf.2 h
        split
        · exact this
        · split <;> exact this
  | deleteProductTemplate key =>
    simp only [route, deleteProductTemplate, ProductTemplate.destroy]
    split <;> exact storeInv_dropTemplates _ h
  | postOptionCategory query body =>
    simp only [route, postOptionCategory]
    split
    · exact h
    · split
      · exact h
      · split
        · exact h
        · split
          · exact h
          · next hc =>
            have hf := optionCategory_create_frame hc
            exact storeInv_congr hf.1 hf.2 h
  | putOptionCategory key body =>
    simp only [route, putOptionCategory]
    split
    · exact h
    · split
      · exact h
      · next hu =>
        have hf := optionCategory_update_frame hu
        have := storeInv_congr hf.1 hf.2 h
        split
        · exact this
        · split <;> exact this
  | deleteOptionCategory key =>
    simp only [route, deleteOptionCategory, OptionCategory.destroy]
    split <;> exact storeInv_dropCategories _ h
  | postOptionChoice query body =>
    simp only [route, postOptionChoice]
    split
    · exact h
    · split
      · exact h
      · split
        · exact h
        · split
          · exact h
          · next st1 row hc =>
            obtain ⟨hr, hch⟩ := optionChoice_create_frame hc
            refine ⟨?_, ?_⟩
            · intro r hrm
              simp only [hr] at hrm
              obtain ⟨hne, ⟨c1, hc1, h1⟩, ⟨c2, hc2, h2⟩⟩ := h.1 r hrm
              simp only [hch]
              exact ⟨hne, ⟨c1, List.mem_append_left _ hc1, h1⟩,
                ⟨c2, List.mem_append_left _ hc2, h2⟩⟩
            · simp only [hr]
              exact h.2
  | putOptionChoice key body =>
    simp only [route, putOptionChoice]
    split
    · exact h
    · split
      · exact h
      · next st1 n hu =>
        obtain ⟨hr, f, hf, hch⟩ := optionChoice_update_frame hu
        have hinv : StoreInv st1 := by
          rcases hch with hch | hch
          · exact storeInv_congr hr hch h
          · refine ⟨?_, ?_⟩
            · intro r hrm
              simp only [hr] at hrm
              obtain ⟨hne, ⟨c1, hc1, h1⟩, ⟨c2, hc2, h2⟩⟩ := h.1 r hrm
              simp only [hch]
              exact ⟨hne, ⟨f c1, List.mem_map.mpr ⟨c1, hc1, rfl⟩, (hf c1).trans h1⟩,
                ⟨f c2, List.mem_map.mpr ⟨c2, hc2, rfl⟩, (hf c2).trans h2⟩⟩
            · simp only [hr]
              exact h.2
        split
        · exact hinv
        · split <;> exact hinv
  | deleteOptionChoice key =>
    simp only [route, deleteOptionChoice, OptionChoice.destroy]
    split <;> exact storeInv_dropChoices _ h
  | postCompatibilityRule key body =>
    simp only [route, postCompatibilityRule]
    split
    · exact h
    · split
      · exact h
      · split
        · exact h
        · split
          · exact h
          · next st1 row hc =>
            obtain ⟨hr, hch, -, -, hrow, hne, hs, ht, hfresh⟩ := compatibilityRule_create_ok hc
            refine ⟨?_, ?_⟩
            · intro r hrm
              simp only [hr, List.mem_append, List.mem_singleton] at hrm
              simp only [hch]
              rcases hrm with hrm | hrm
              · exact h.1 r hrm
              · subst hrm
                rw [hrow]
                exact ⟨hne, hs, ht⟩
            · simp only [hr, List.map_append, List.map_cons, List.map_nil]
              rw [List.nodup_append]
              refine ⟨h.2, List.nodup_singleton _, ?_⟩
              intro k hk1 hk2
              simp only [List.mem_singleton] at hk2
              obtain ⟨r, hrm, hrk⟩ := List.mem_map.mp hk1
              apply hfresh r hrm
              rw [hrk, hk2, hrow]
              rfl
  | getCompatibilityRules key =>
    simp only [route, getCompatibilityRules]
    split <;> exact h
  | getProductTemplates query =>
    simp only [route, getProductTemplates]
    exact h
  | getOptionCategories query =>
    simp only [route, getOptionCategories]
    split
    · exact h
    · split <;> exact h
  | getOptionChoices query =>
    simp only [route, getOptionChoices]
    split
    · exact h
    · split <;> exact h

/-- The empty store satisfies the invariant. -/
theorem storeInv_empty : StoreInv Store.empty := by
  refine ⟨?_, ?_⟩
  · intro r hr
    simp [Store.empty] at hr
  · simp [Store.empty]

/-- Every reachable store satisfies the invariant. -/
theorem storeInv_of_reachable {st : Store} (h : Reachable st) : StoreInv st := by
  induction h with
  | empty => exact storeInv_empty
  | step st now req _ ih => exact storeInv_route st now req ih

/-- Serving a sequence of requests from a reachable store gives a reachable store. -/
theorem reachable_run {st : Store} (h : Reachable st) (reqs : List (Nat × Request)) :
    Reachable (run st reqs) := by
  induction reqs generalizing st with
  | nil => exact h
  | cons x rest ih => exact ih (Reachable.step st x.1 x.2 h)

/-- Every response of the error handler has `success = false`. -/
theorem errorHandler_success (env : Option String) (e : Err) :
    (errorHandler env e).success = false := by
  unfold errorHandler
  simp only
  split_ifs <;> rfl

/-- The contents of `sharedKeyStore`. -/
theorem sharedKeyStore_eq : sharedKeyStore =
    { templates := [{ id := 1, template_str_id := "laptop_x", name := "Laptop Model X",
                      base_price := 80000, description := none, is_active := true,
                      created_at := 1, updated_at := 1 }],
      categories := [{ id := 1, category_str_id := "cpu", name := "Processor",
                       description := none, is_required := false, display_order := 0,
                       product_template_id := 1, created_at := 2, updated_at := 2 },
                     { id := 2, category_str_id := "gpu", name := "Processor",
                       description := none, is_required := false, display_order := 0,
                       product_template_id := 1, created_at := 3, updated_at := 3 }],
      choices := [firstIntel, ddr5Choice, secondIntel],
      rules := [intelRequiresDdr5],
      nextTemplateId := 2, nextCategoryId := 3, nextChoiceId := 4, nextRuleId := 2 } := by
  decide

/-- No stored choice with the key makes `findOne` return nothing. -/
theorem findOne_eq_none {st : Store} {key : String}
    (h : ∀ c ∈ st.choices, c.choice_str_id ≠ key) : OptionChoice.findOne st key = none := by
  unfold OptionChoice.findOne
  rw [List.find?_eq_none]
  intro c hc
  simpa using h c hc

/-- The query `findAll` returns the matching rows, each as often as it is stored. -/
theorem findAll_perm (st : Store) (p : CompatibilityRule → Bool) :
    (CompatibilityRule.findAll st p).Perm (st.rules.filter p) :=
  List.perm_insertionSort ruleOrder _

/-- The order of the lookup is total. -/
theorem ruleOrder_total (a b : CompatibilityRule) : ruleOrder a b ∨ ruleOrder b a := by
  unfold ruleOrder
  rcases lt_trichotomy a.priority b.priority with h | h | h
  · exact Or.inr (Or.inl h)
  · rcases le_total a.created_at b.created_at with h1 | h1
    · exact Or.inl (Or.inr ⟨h, h1⟩)
    · exact Or.inr (Or.inr ⟨h.symm, h1⟩)
  · exact Or.inl (Or.inl h)

/-- The order of the lookup is transitive. -/
theorem ruleOrder_trans (a b c : CompatibilityRule) (hab : ruleOrder a b)
    (hbc : ruleOrder b c) : ruleOrder a c := by
  unfold ruleOrder at *
  rcases hab with h1 | ⟨h1, h2⟩ <;> rcases hbc with h3 | ⟨h3, h4⟩
  · exact Or.inl (lt_trans h3 h1)
  · exact Or.inl (h3 ▸ h1)
  · exact Or.inl (h1 ▸ h3)
  · exact Or.inr ⟨h1.trans h3, le_trans h2 h4⟩

/-- The query `findAll` returns its rows in the order of the lookup. -/
theorem findAll_sorted (st : Store) (p : CompatibilityRule → Bool) :
    (CompatibilityRule.findAll st p).Sorted ruleOrder :=
  @List.sorted_insertionSort _ ruleOrder _ ⟨ruleOrder_total⟩ ⟨ruleOrder_trans⟩ _

/-- The outgoing rules of a lookup that resolves to the choice `c`. -/
theorem lookup_sourceRules (env : Option String) {st : Store} (now : Nat) {key : String}
    {c : OptionChoice} (h : OptionChoice.findOne st key = some c) :
    (handle env st now (.getCompatibilityRules key)).2.sourceRules =
      CompatibilityRule.findAll st fun r => r.source_choice_id == c.id := by
  simp [handle, route, getCompatibilityRules, h, respond, success, Response.sourceRules,
    Function.comp_def]

/-- The incoming rules of a lookup that resolves to the choice `c`. -/
theorem lookup_targetRules (env : Option String) {st : Store} (now : Nat) {key : String}
    {c : OptionChoice} (h : OptionChoice.findOne st key = some c) :
    (handle env st now (.getCompatibilityRules key)).2.targetRules =
      CompatibilityRule.findAll st fun r => r.target_choice_id == c.id := by
  simp [handle, route, getCompatibilityRules, h, respond, success, Response.targetRules,
    Function.comp_def]

/-- A lookup on a key that no stored choice has lists no rules. -/
theorem lookup_missing (env : Option String) {st : Store} (now : Nat) {key : String}
    (h : OptionChoice.findOne st key = none) :
    (handle env st now (.getCompatibilityRules key)).2.sourceRules = [] ∧
    (handle env st now (.getCompatibilityRules key)).2.targetRules = [] := by
  simp [handle, route, getCompatibilityRules, h, respond, failure, Response.sourceRules,
    Response.targetRules]

/-- The store after the choice delete route. -/
theorem deleteOptionChoice_store (env : Option String) (st : Store) (now : Nat)
    (key : String) :
    (handle env st now (.deleteOptionChoice key)).1 =
      st.dropChoices fun c => c.choice_str_id == key := by
  simp only [handle, route, deleteOptionChoice, OptionChoice.destroy]
  split <;> rfl

/-- The id of a listed row is among the listed ids. -/
theorem mem_ids_contains {α : Type} (l : List α) (f : α → Nat) (a : α) (h : a ∈ l) :
    (l.map f).contains (f a) = true := by
  simp only [List.contains_iff_exists_mem_beq, beq_iff_eq]
  exact ⟨f a, List.mem_map.mpr ⟨a, h, rfl⟩, rfl⟩

/-- A deleted choice is gone, and so is every rule that references it. -/
theorem dropChoices_removes (st : Store) (dead : OptionChoice → Bool) (c : OptionChoice)
    (hc : c ∈ st.choices) (hd : dead c = true) :
    c ∉ (st.dropChoices dead).choices ∧
    ∀ r ∈ st.rules, (r.source_choice_id = c.id ∨ r.target_choice_id = c.id) →
      r ∉ (st.dropChoices dead).rules := by
  simp only [Store.dropChoices]
  refine ⟨?_, ?_⟩
  · simp [hd]
  · intro r _ href hmem
    simp only [List.mem_filter, Bool.not_eq_true', Bool.or_eq_false_iff] at hmem
    have hid := mem_ids_contains (st.choices.filter dead) (fun c => c.id) c
      (List.mem_filter.mpr ⟨hc, hd⟩)
    simp only at hid
    rcases href with h | h
    · rw [← h, hmem.2.1] at hid
      exact absurd hid (by simp)
    · rw [← h, hmem.2.2] at hid
      exact absurd hid (by simp)

/-- A deleted category is gone with its choices and their rules. -/
theorem dropCategories_removes (st : Store) (dead : OptionCategory → Bool)
    (cat : OptionCategory) (hcat : cat ∈ st.categories) (hd : dead cat = true) :
    cat ∉ (st.dropCategories dead).categories ∧
    ∀ c ∈ st.choices, c.option_category_id = cat.id →
      c ∉ (st.dropCategories dead).choices ∧
      ∀ r ∈ st.rules, (r.source_choice_id = c.id ∨ r.target_choice_id = c.id) →
        r ∉ (st.dropCategories dead).rules := by
  refine ⟨?_, ?_⟩
  · simp [Store.dropCategories, Store.dropChoices, hd]
  · intro c hc hcc
    unfold Store.dropCategories
    apply dropChoices_removes _ _ c hc
    rw [hcc]
    exact mem_ids_contains (st.categories.filter dead) (fun c => c.id) cat
      (List.mem_filter.mpr ⟨hcat, hd⟩)

/-- A deleted template is gone with its categories, their choices and rules. -/
theorem dropTemplates_removes (st : Store) (dead : ProductTemplate → Bool)
    (t : ProductTemplate) (ht : t ∈ st.templates) (hd : dead t = true) :
    t ∉ (st.dropTemplates dead).templates ∧
    ∀ cat ∈ st.categories, cat.product_template_id = t.id →
      cat ∉ (st.dropTemplates dead).categories ∧
      ∀ c ∈ st.choices, c.option_category_id = cat.id →
        c ∉ (st.dropTemplates dead).choices ∧
        ∀ r ∈ st.rules, (r.source_choice_id = c.id ∨ r.target_choice_id = c.id) →
          r ∉ (st.dropTemplates dead).rules := by
  refine ⟨?_, ?_⟩
  · simp [Store.dropTemplates, Store.dropCategories, Store.dropChoices, hd]
  · intro cat hcat hct
    unfold Store.dropTemplates
    apply dropCategories_removes _ _ cat hcat
    rw [hct]
    exact mem_ids_contains (st.templates.filter dead) (fun t => t.id) t
      (List.mem_filter.mpr ⟨ht, hd⟩)

/-- The store after the category delete route. -/
theorem deleteOptionCategory_store (env : Option String) (st : Store) (now : Nat)
    (key : String) :
    (handle env st now (.deleteOptionCategory key)).1 =
      st.dropCategories fun c => c.category_str_id == key := by
  simp only [handle, route, deleteOptionCategory, OptionCategory.destroy]
  split <;> rfl

/-- The store after the template delete route. -/
theorem deleteProductTemplate_store (env : Option String) (st : Store) (now : Nat)
    (key : String) :
    (handle env st now (.deleteProductTemplate key)).1 =
      st.dropTemplates fun t => t.template_str_id == key := by
  simp only [handle, route, deleteProductTemplate, ProductTemplate.destroy]
  split <;> rfl

/-! ## The claims -/

/-- Claim C1: for every stored choice `c` and every request body whose target key is the
key of `c`, whatever its rule kind, priority and description, creating a rule from the
key of `c` is answered with status 400 and `success = false` and leaves the store as it
was, so no rule is stored; when the body passes the schema, the reported detail is the
model validator `sourceNotTarget`. -/
theorem self_rule_rejected (env : Option String) (st : Store) (now : Nat) (c : OptionChoice)
    (body : Body) (hc : c ∈ st.choices)
    (htarget : body.lookup "target_choice_str_id" = some (.str c.choice_str_id)) :
    (handle env st now (.postCompatibilityRule c.choice_str_id body)).2.status = 400 ∧
    (handle env st now (.postCompatibilityRule c.choice_str_id body)).2.success = false ∧
    (handle env st now (.postCompatibilityRule c.choice_str_id body)).1 = st ∧
    (∀ v, compatibilityRuleSchema body = .ok v →
      (handle env st now (.postCompatibilityRule c.choice_str_id body)).2.details =
        .items [{ field := "sourceNotTarget",
                  message := "A choice cannot have a compatibility rule with itself",
                  value := some .null }]) := by
  obtain ⟨c1, hc1⟩ := findOne_of_mem hc
  simp only [handle, route, postCompatibilityRule]
  cases hv : validate compatibilityRuleSchema body with
  | error e =>
    have he := errorHandler_joi env compatibilityRuleSchema body e hv
    refine ⟨he.1, he.2, rfl, ?_⟩
    intro v hv1
    simp [validate, hv1] at hv
  | ok v =>
    have hs := validate_ok hv
    have ht : v.target_choice_str_id = c.choice_str_id := by
      have := (compatibilityRuleSchema_ok hs).2.1
      rw [htarget] at this
      simpa using this.symm
    simp [hc1, ht, CompatibilityRule.create, sourceNotTarget, respond, errorHandler,
      sequelizeValidationError, failure]

/-- An instance on `sharedKeyStore`: a rule from `intel_i7` to `intel_i7` is refused with
status 400. -/
theorem self_rule_rejected_witness :
    secondIntel ∈ sharedKeyStore.choices ∧
    (ruleBody "INCOMPATIBLE" "intel_i7" 3).lookup "target_choice_str_id" =
      some (.str secondIntel.choice_str_id) ∧
    (handle none sharedKeyStore 8 (.postCompatibilityRule secondIntel.choice_str_id
      (ruleBody "INCOMPATIBLE" "intel_i7" 3))).2.status = 400 ∧
    (handle none sharedKeyStore 8 (.postCompatibilityRule secondIntel.choice_str_id
      (ruleBody "INCOMPATIBLE" "intel_i7" 3))).1 = sharedKeyStore :=
  have h := self_rule_rejected none sharedKeyStore 8 secondIntel
    (ruleBody "INCOMPATIBLE" "intel_i7" 3) (by decide) (by decide)
  ⟨by decide, by decide, h.1, h.2.2.1⟩

/-- Claim C2: in every reachable store, a request with a valid body whose source and
target keys resolve to the two ends of a stored rule of the same kind is answered with
status 409 and leaves the store as it was; and no two stored rules agree on
(source, target, kind). -/
theorem duplicate_rule_rejected (env : Option String) (st : Store) (now : Nat)
    (hreach : Reachable st) :
    (∀ (choice_str_id : String) (body : Body) (v : RuleBody) (s t : OptionChoice)
        (r : CompatibilityRule),
      compatibilityRuleSchema body = .ok v →
      OptionChoice.findOne st choice_str_id = some s →
      OptionChoice.findOne st v.target_choice_str_id = some t →
      r ∈ st.rules → r.rule_type = v.rule_type →
      r.source_choice_id = s.id → r.target_choice_id = t.id →
      (handle env st now (.postCompatibilityRule choice_str_id body)).2.status = 409 ∧
      (handle env st now (.postCompatibilityRule choice_str_id body)).2.success = false ∧
      (handle env st now (.postCompatibilityRule choice_str_id body)).1 = st) ∧
    (st.rules.map ruleKey).Nodup := by
  have hinv := storeInv_of_reachable hreach
  refine ⟨?_, hinv.2⟩
  intro key body v s t r hv hs ht hr hk hrs hrt
  have hv1 : validate compatibilityRuleSchema body = .ok v := by simp [validate, hv]
  have hne : s.id ≠ t.id := by
    rw [← hrs, ← hrt]
    exact (hinv.1 r hr).1
  have hany : (st.rules.any fun r => r.source_choice_id == s.id &&
      r.target_choice_id == t.id && r.rule_type == v.rule_type) = true := by
    simp only [List.any_eq_true, Bool.and_eq_true, beq_iff_eq]
    exact ⟨r, hr, ⟨hrs, hrt⟩, hk⟩
  simp [handle, route, postCompatibilityRule, hv1, hs, ht, CompatibilityRule.create,
    sourceNotTarget, hne, hany, respond, errorHandler, sequelizeUniqueConstraintError, failure]

/-- An instance on `sharedKeyStore`: a second rule `intel_i7 REQUIRES ddr5` is refused with
status 409. -/
theorem duplicate_rule_rejected_witness :
    Reachable sharedKeyStore ∧
    (handle none sharedKeyStore 8
      (.postCompatibilityRule "intel_i7" (ruleBody "REQUIRES" "ddr5" 9))).2.status = 409 ∧
    (handle none sharedKeyStore 8
      (.postCompatibilityRule "intel_i7" (ruleBody "REQUIRES" "ddr5" 9))).1 = sharedKeyStore ∧
    (sharedKeyStore.rules.map ruleKey).Nodup :=
  have hreach : Reachable sharedKeyStore := reachable_run Reachable.empty sharedKeyRequests
  have h := duplicate_rule_rejected none sharedKeyStore 8 hreach
  have h1 := h.1 "intel_i7" (ruleBody "REQUIRES" "ddr5" 9)
    { rule_type := .REQUIRES, target_choice_str_id := "ddr5", description := none,
      priority := 9 } firstIntel ddr5Choice intelRequiresDdr5 (by decide) (by decide)
    (by decide) (by decide) (by decide) (by decide) (by decide)
  ⟨hreach, h1.1, h1.2.2, h.2⟩

/-- Claim C3: for every body that passes the rule schema, if no stored choice has the
source key or no stored choice has the target key, rule creation is answered with
status 404 and leaves the store as it was, so no rule is stored. -/
theorem missing_endpoint_not_found (env : Option String) (st : Store) (now : Nat)
    (choice_str_id : String) (body : Body) (v : RuleBody)
    (hv : compatibilityRuleSchema body = .ok v)
    (hmiss : (∀ c ∈ st.choices, c.choice_str_id ≠ choice_str_id) ∨
      (∀ c ∈ st.choices, c.choice_str_id ≠ v.target_choice_str_id)) :
    (handle env st now (.postCompatibilityRule choice_str_id body)).2.status = 404 ∧
    (handle env st now (.postCompatibilityRule choice_str_id body)).2.success = false ∧
    (handle env st now (.postCompatibilityRule choice_str_id body)).1 = st := by
  have hv1 : validate compatibilityRuleSchema body = .ok v := by simp [validate, hv]
  simp only [handle, route, postCompatibilityRule, hv1]
  cases hs : OptionChoice.findOne st choice_str_id with
  | none => simp [respond, failure]
  | some s =>
    rcases hmiss with h | h
    · rw [findOne_eq_none h] at hs
      simp at hs
    · simp [findOne_eq_none h, respond, failure]

/-- An instance on `sharedKeyStore`: a rule to the key `rtx_4090`, which no choice has, is
refused with status 404. -/
theorem missing_endpoint_not_found_witness :
    compatibilityRuleSchema (ruleBody "REQUIRES" "rtx_4090" 1) =
      .ok { rule_type := .REQUIRES, target_choice_str_id := "rtx_4090", description := none,
            priority := 1 } ∧
    (∀ c ∈ sharedKeyStore.choices, c.choice_str_id ≠ "rtx_4090") ∧
    (handle none sharedKeyStore 8
      (.postCompatibilityRule "intel_i7" (ruleBody "REQUIRES" "rtx_4090" 1))).2.status = 404 ∧
    (handle none sharedKeyStore 8
      (.postCompatibilityRule "intel_i7" (ruleBody "REQUIRES" "rtx_4090" 1))).1 =
        sharedKeyStore :=
  have h := missing_endpoint_not_found none sharedKeyStore 8 "intel_i7"
    (ruleBody "REQUIRES" "rtx_4090" 1)
    { rule_type := .REQUIRES, target_choice_str_id := "rtx_4090", description := none,
      priority := 1 } (by decide) (Or.inr (by decide))
  ⟨by decide, by decide, h.1, h.2.2⟩

/-- Claim C4: every successful rule creation appends exactly one rule to the stored rules;
that rule is active, and its priority is 0 when the body has no `priority` key and is
otherwise exactly the number submitted under that key. -/
theorem created_rule_priority_and_active (env : Option String) (st : Store) (now : Nat)
    (choice_str_id : String) (body : Body)
    (hok : (handle env st now (.postCompatibilityRule choice_str_id body)).2.success = true) :
    ∃ row : CompatibilityRule,
      (handle env st now (.postCompatibilityRule choice_str_id body)).1.rules =
        st.rules ++ [row] ∧
      row.is_active = true ∧
      ((body.lookup "priority" = none ∧ row.priority = 0) ∨
        ∃ n : JNum, body.lookup "priority" = some (.num n) ∧
          n.mantissa = row.priority * (10 : Int) ^ n.scale) := by
  simp only [handle, route, postCompatibilityRule] at hok ⊢
  cases hv : validate compatibilityRuleSchema body with
  | error e => simp [hv, respond, errorHandler_success] at hok
  | ok v =>
    simp only [hv] at hok ⊢
    cases hs : OptionChoice.findOne st choice_str_id with
    | none => simp [hs, respond, failure] at hok
    | some s =>
      simp only [hs] at hok ⊢
      cases ht : OptionChoice.findOne st v.target_choice_str_id with
      | none => simp [ht, respond, failure] at hok
      | some t =>
        simp only [ht] at hok ⊢
        cases hc : CompatibilityRule.create st now v.rule_type s.id t.id v.description
            v.priority with
        | error e => simp [hc, respond, errorHandler_success] at hok
        | ok res =>
          obtain ⟨st1, row⟩ := res
          obtain ⟨hr, -, -, -, hrow, -⟩ := compatibilityRule_create_ok hc
          refine ⟨row, hr, ?_, ?_⟩
          · rw [hrow]
          · have := (compatibilityRuleSchema_ok (validate_ok hv)).2.2.2
            rw [hrow]
            exact this

/-- An instance on `sharedKeyStore`: creating `ddr5 COMPATIBLE intel_i7` with priority 3
succeeds. -/
theorem created_rule_priority_and_active_witness :
    (handle none sharedKeyStore 8
      (.postCompatibilityRule "ddr5" (ruleBody "COMPATIBLE" "intel_i7" 3))).2.success = true ∧
    ∃ row : CompatibilityRule,
      (handle none sharedKeyStore 8
        (.postCompatibilityRule "ddr5" (ruleBody "COMPATIBLE" "intel_i7" 3))).1.rules =
        sharedKeyStore.rules ++ [row] ∧
      row.is_active = true ∧
      (((ruleBody "COMPATIBLE" "intel_i7" 3).lookup "priority" = none ∧ row.priority = 0) ∨
        ∃ n : JNum, (ruleBody "COMPATIBLE" "intel_i7" 3).lookup "priority" = some (.num n) ∧
          n.mantissa = row.priority * (10 : Int) ^ n.scale) :=
  ⟨by decide, created_rule_priority_and_active none sharedKeyStore 8 "ddr5"
    (ruleBody "COMPATIBLE" "intel_i7" 3) (by decide)⟩

/-- Claim C5 fails as stated: `sharedKeyStore` is reachable and holds the choices
`firstIntel` and `secondIntel`, which have the same key in two categories; the one
stored rule has `firstIntel` as its source, so the single lookup that serves both
choices cannot be exact for both, and the response lists, for `secondIntel`, a rule
whose source is another choice. -/
theorem lookup_shared_key_counterexample :
    Reachable sharedKeyStore ∧ firstIntel ∈ sharedKeyStore.choices ∧
    secondIntel ∈ sharedKeyStore.choices ∧
    firstIntel.choice_str_id = secondIntel.choice_str_id ∧
    intelRequiresDdr5 ∈ sharedKeyStore.rules ∧
    intelRequiresDdr5.source_choice_id = firstIntel.id ∧
    intelRequiresDdr5.source_choice_id ≠ secondIntel.id ∧
    intelRequiresDdr5 ∈ (handle none sharedKeyStore 8
      (.getCompatibilityRules secondIntel.choice_str_id)).2.sourceRules :=
  ⟨reachable_run Reachable.empty sharedKeyRequests, by decide, by decide, by decide,
    by decide, by decide, by decide, by decide⟩

/-- Claim C5 as amended: for every stored choice `c` that is the first stored choice with
its key (so for every choice whose key no other stored choice shares), the lookup for
the key of `c` answers 200 and returns as outgoing exactly the stored rules whose source
is `c` and as incoming exactly the stored rules whose target is `c`: the same rules,
each as often as stored. -/
theorem lookup_returns_exactly_the_rules (env : Option String) (st : Store) (now : Nat)
    (c : OptionChoice) (hfirst : OptionChoice.findOne st c.choice_str_id = some c) :
    (handle env st now (.getCompatibilityRules c.choice_str_id)).2.status = 200 ∧
    ((handle env st now (.getCompatibilityRules c.choice_str_id)).2.sourceRules).Perm
      (st.rules.filter fun r => r.source_choice_id == c.id) ∧
    ((handle env st now (.getCompatibilityRules c.choice_str_id)).2.targetRules).Perm
      (st.rules.filter fun r => r.target_choice_id == c.id) ∧
    (∀ r, r ∈ (handle env st now (.getCompatibilityRules c.choice_str_id)).2.sourceRules ↔
      r ∈ st.rules ∧ r.source_choice_id = c.id) ∧
    (∀ r, r ∈ (handle env st now (.getCompatibilityRules c.choice_str_id)).2.targetRules ↔
      r ∈ st.rules ∧ r.target_choice_id = c.id) := by
  rw [lookup_sourceRules env now hfirst, lookup_targetRules env now hfirst]
  refine ⟨?_, findAll_perm st _, findAll_perm st _, ?_, ?_⟩
  · simp [handle, route, getCompatibilityRules, hfirst, respond, success]
  · intro r
    rw [(findAll_perm st _).mem_iff]
    simp
  · intro r
    rw [(findAll_perm st _).mem_iff]
    simp

/-- An instance on `sharedKeyStore`, for the first choice with key `intel_i7`. -/
theorem lookup_returns_exactly_the_rules_witness :
    OptionChoice.findOne sharedKeyStore firstIntel.choice_str_id = some firstIntel ∧
    ((handle none sharedKeyStore 8
      (.getCompatibilityRules firstIntel.choice_str_id)).2.sourceRules).Perm
      (sharedKeyStore.rules.filter fun r => r.source_choice_id == firstIntel.id) :=
  ⟨by decide, (lookup_returns_exactly_the_rules none sharedKeyStore 8 firstIntel
    (by decide)).2.1⟩

/-- Claim C6: for every store and key, both sequences of the lookup are sorted by priority
descending and, among equal priorities, by creation time ascending; and when the rules
stored for the choice are `A`, `B`, `C` in the order of their creation, with priorities
5, 5 and 10, the lookup returns `[C, A, B]`. -/
theorem lookup_sorted_by_priority_then_creation (env : Option String) (st : Store) (now : Nat)
    (choice_str_id : String) :
    ((handle env st now (.getCompatibilityRules choice_str_id)).2.sourceRules).Sorted
      ruleOrder ∧
    ((handle env st now (.getCompatibilityRules choice_str_id)).2.targetRules).Sorted
      ruleOrder ∧
    (∀ (c : OptionChoice) (A B C : CompatibilityRule),
      OptionChoice.findOne st choice_str_id = some c →
      (st.rules.filter fun r => r.source_choice_id == c.id) = [A, B, C] →
      A.priority = 5 → B.priority = 5 → C.priority = 10 → A.created_at ≤ B.created_at →
      (handle env st now (.getCompatibilityRules choice_str_id)).2.sourceRules = [C, A, B]) ∧
    (∀ (c : OptionChoice) (A B C : CompatibilityRule),
      OptionChoice.findOne st choice_str_id = some c →
      (st.rules.filter fun r => r.target_choice_id == c.id) = [A, B, C] →
      A.priority = 5 → B.priority = 5 → C.priority = 10 → A.created_at ≤ B.created_at →
      (handle env st now (.getCompatibilityRules choice_str_id)).2.targetRules = [C, A, B]) := by
  have hkey : ∀ A B C : CompatibilityRule, A.priority = 5 → B.priority = 5 →
      C.priority = 10 → A.created_at ≤ B.created_at →
      List.insertionSort ruleOrder [A, B, C] = [C, A, B] := by
    intro A B C hA hB hC hAB
    simp [List.insertionSort, List.orderedInsert, ruleOrder, hA, hB, hC, hAB]
  cases hf : OptionChoice.findOne st choice_str_id with
  | none =>
    rw [(lookup_missing env now hf).1, (lookup_missing env now hf).2]
    exact ⟨List.sorted_nil, List.sorted_nil, fun _ _ _ _ h => by simp at h,
      fun _ _ _ _ h => by simp at h⟩
  | some c =>
    rw [lookup_sourceRules env now hf, lookup_targetRules env now hf]
    refine ⟨findAll_sorted st _, findAll_sorted st _, ?_, ?_⟩
    · intro c1 A B C hc1 hl hA hB hC hAB
      injection hc1 with hc1
      subst hc1
      unfold CompatibilityRule.findAll
      rw [hl]
      exact hkey A B C hA hB hC hAB
    · intro c1 A B C hc1 hl hA hB hC hAB
      injection hc1 with hc1
      subst hc1
      unfold CompatibilityRule.findAll
      rw [hl]
      exact hkey A B C hA hB hC hAB

/-- An instance on `priorityStore`: the three rules out of `intel_i7` come back as
`[ruleC, ruleA, ruleB]`. -/
theorem lookup_sorted_by_priority_then_creation_witness :
    (priorityStore.rules.filter fun r => r.source_choice_id == 1) = [ruleA, ruleB, ruleC] ∧
    ruleA.priority = 5 ∧ ruleB.priority = 5 ∧ ruleC.priority = 10 ∧
    (handle none priorityStore 10 (.getCompatibilityRules "intel_i7")).2.sourceRules =
      [ruleC, ruleA, ruleB] :=
  ⟨by decide, by decide, by decide, by decide,
    (lookup_sorted_by_priority_then_creation none priorityStore 10 "intel_i7").2.2.1
      { id := 1, choice_str_id := "intel_i7", name := "Intel Core i7", description := none,
        price_delta := 0, is_default := false, is_available := true, display_order := 0,
        option_category_id := 1, created_at := 3, updated_at := 3 }
      ruleA ruleB ruleC (by decide) (by decide) (by decide) (by decide) (by decide)
      (by decide)⟩

/-- Claim C7: after every successful rule creation, the created rule is among the outgoing
rules of a later lookup for the source key and among the incoming rules of a later
lookup for the target key, and its kind, priority and description are exactly the
values submitted in the body (priority 0 and no description when the key is absent). -/
theorem created_rule_round_trip (env : Option String) (st : Store) (now later : Nat)
    (choice_str_id : String) (body : Body)
    (hok : (handle env st now (.postCompatibilityRule choice_str_id body)).2.success = true) :
    ∃ (row : CompatibilityRule) (s t : ChoiceRef) (target : String),
      (handle env st now (.postCompatibilityRule choice_str_id body)).2.data = .rule row s t ∧
      row.source_choice_id = s.id ∧ row.target_choice_id = t.id ∧
      body.lookup "target_choice_str_id" = some (.str target) ∧
      row ∈ (handle env (handle env st now (.postCompatibilityRule choice_str_id body)).1 later
        (.getCompatibilityRules choice_str_id)).2.sourceRules ∧
      row ∈ (handle env (handle env st now (.postCompatibilityRule choice_str_id body)).1 later
        (.getCompatibilityRules target)).2.targetRules ∧
      body.lookup "rule_type" = some (.str row.rule_type.toString) ∧
      ((body.lookup "priority" = none ∧ row.priority = 0) ∨
        ∃ n : JNum, body.lookup "priority" = some (.num n) ∧
          n.mantissa = row.priority * (10 : Int) ^ n.scale) ∧
      body.lookup "description" = row.description.map JVal.str := by
  have hpost : (handle env st now (.postCompatibilityRule choice_str_id body)) =
      ((postCompatibilityRule st now choice_str_id body).1,
        respond env (postCompatibilityRule st now choice_str_id body).2) := rfl
  rw [hpost] at hok ⊢
  simp only [postCompatibilityRule] at hok ⊢
  cases hv : validate compatibilityRuleSchema body with
  | error e => simp [hv, respond, errorHandler_success] at hok
  | ok v =>
    simp only [hv] at hok ⊢
    cases hs : OptionChoice.findOne st choice_str_id with
    | none => simp [hs, respond, failure] at hok
    | some s =>
      simp only [hs] at hok ⊢
      cases ht : OptionChoice.findOne st v.target_choice_str_id with
      | none => simp [ht, respond, failure] at hok
      | some t =>
        simp only [ht] at hok ⊢
        cases hc : CompatibilityRule.create st now v.rule_type s.id t.id v.description
            v.priority with
        | error e => simp [hc, respond, errorHandler_success] at hok
        | ok res =>
          obtain ⟨st1, row⟩ := res
          obtain ⟨hr, hch, -, -, hrow, -⟩ := compatibilityRule_create_ok hc
          obtain ⟨hkind, htarget, hdesc, hprio⟩ := compatibilityRuleSchema_ok (validate_ok hv)
          have hs1 : OptionChoice.findOne st1 choice_str_id = some s := by
            unfold OptionChoice.findOne at hs ⊢
            rw [hch]
            exact hs
          have ht1 : OptionChoice.findOne st1 v.target_choice_str_id = some t := by
            unfold OptionChoice.findOne at ht ⊢
            rw [hch]
            exact ht
          refine ⟨row, s.ref, t.ref, v.target_choice_str_id, rfl, ?_, ?_, htarget, ?_, ?_, ?_,
            ?_, ?_⟩
          · rw [hrow]; rfl
          · rw [hrow]; rfl
          · show row ∈ (handle env st1 later (.getCompatibilityRules choice_str_id)).2.sourceRules
            rw [lookup_sourceRules env later hs1, (findAll_perm st1 _).mem_iff, hr]
            simp [hrow]
          · show row ∈ (handle env st1 later
              (.getCompatibilityRules v.target_choice_str_id)).2.targetRules
            rw [lookup_targetRules env later ht1, (findAll_perm st1 _).mem_iff, hr]
            simp [hrow]
          · rw [hrow]; exact hkind
          · rw [hrow]; exact hprio
          · rw [hrow]; exact hdesc

/-- An instance on `sharedKeyStore`: creating `ddr5 COMPATIBLE intel_i7` and looking it up
from both ends. -/
theorem created_rule_round_trip_witness :
    (handle none sharedKeyStore 8
      (.postCompatibilityRule "ddr5" (ruleBody "COMPATIBLE" "intel_i7" 3))).2.success = true ∧
    ∃ (row : CompatibilityRule) (s t : ChoiceRef) (target : String),
      (handle none sharedKeyStore 8
        (.postCompatibilityRule "ddr5" (ruleBody "COMPATIBLE" "intel_i7" 3))).2.data =
        .rule row s t ∧
      row.source_choice_id = s.id ∧ row.target_choice_id = t.id ∧
      (ruleBody "COMPATIBLE" "intel_i7" 3).lookup "target_choice_str_id" =
        some (.str target) ∧
      row ∈ (handle none (handle none sharedKeyStore 8
        (.postCompatibilityRule "ddr5" (ruleBody "COMPATIBLE" "intel_i7" 3))).1 9
        (.getCompatibilityRules "ddr5")).2.sourceRules ∧
      row ∈ (handle none (handle none sharedKeyStore 8
        (.postCompatibilityRule "ddr5" (ruleBody "COMPATIBLE" "intel_i7" 3))).1 9
        (.getCompatibilityRules target)).2.targetRules ∧
      (ruleBody "COMPATIBLE" "intel_i7" 3).lookup "rule_type" =
        some (.str row.rule_type.toString) ∧
      (((ruleBody "COMPATIBLE" "intel_i7" 3).lookup "priority" = none ∧ row.priority = 0) ∨
        ∃ n : JNum, (ruleBody "COMPATIBLE" "intel_i7" 3).lookup "priority" = some (.num n) ∧
          n.mantissa = row.priority * (10 : Int) ^ n.scale) ∧
      (ruleBody "COMPATIBLE" "intel_i7" 3).lookup "description" =
        row.description.map JVal.str :=
  ⟨by decide, created_rule_round_trip none sharedKeyStore 8 9 "ddr5"
    (ruleBody "COMPATIBLE" "intel_i7" 3) (by decide)⟩

/-- Claim C8 fails as stated: `sharedKeyStore` is reachable and holds the choice
`secondIntel` and a rule that references it at neither end, yet deleting `secondIntel`
removes that rule, because the delete takes every choice of the same key. -/
theorem delete_choice_frame_counterexample :
    Reachable sharedKeyStore ∧ secondIntel ∈ sharedKeyStore.choices ∧
    intelRequiresDdr5 ∈ sharedKeyStore.rules ∧
    intelRequiresDdr5.source_choice_id ≠ secondIntel.id ∧
    intelRequiresDdr5.target_choice_id ≠ secondIntel.id ∧
    intelRequiresDdr5 ∉ (handle none sharedKeyStore 8
      (.deleteOptionChoice secondIntel.choice_str_id)).1.rules :=
  ⟨reachable_run Reachable.empty sharedKeyRequests, by decide, by decide, by decide, by decide,
    by decide⟩

/-- Claim C8 as amended: for every store and stored choice `c`, after the delete request
for the key of `c` no stored rule has `c` as its source or target, every rule that
references no choice with the key of `c` is still stored, the stored rules are a
sublist of the former ones (none is changed or added), and no choice with that key
remains. -/
theorem delete_choice_cascade (env : Option String) (st : Store) (now : Nat)
    (c : OptionChoice) (hc : c ∈ st.choices) :
    (∀ r ∈ (handle env st now (.deleteOptionChoice c.choice_str_id)).1.rules,
      r.source_choice_id ≠ c.id ∧ r.target_choice_id ≠ c.id) ∧
    (∀ r ∈ st.rules,
      (∀ d ∈ st.choices, d.choice_str_id = c.choice_str_id →
        r.source_choice_id ≠ d.id ∧ r.target_choice_id ≠ d.id) →
      r ∈ (handle env st now (.deleteOptionChoice c.choice_str_id)).1.rules) ∧
    ((handle env st now (.deleteOptionChoice c.choice_str_id)).1.rules).Sublist st.rules ∧
    (∀ d ∈ (handle env st now (.deleteOptionChoice c.choice_str_id)).1.choices,
      d.choice_str_id ≠ c.choice_str_id) := by
  rw [deleteOptionChoice_store]
  simp only [Store.dropChoices]
  refine ⟨?_, ?_, List.filter_sublist _, ?_⟩
  · intro r hr
    simp only [List.mem_filter, Bool.not_eq_true', Bool.or_eq_false_iff] at hr
    have hmem : c.id ∈ List.map (fun c => c.id)
        (List.filter (fun d => d.choice_str_id == c.choice_str_id) st.choices) :=
      List.mem_map.mpr ⟨c, List.mem_filter.mpr ⟨hc, by simp⟩, rfl⟩
    constructor
    · intro h
      have := hr.2.1
      rw [h] at this
      simp [hmem] at this
    · intro h
      have := hr.2.2
      rw [h] at this
      simp [hmem] at this
  · intro r hr hfree
    simp only [List.mem_filter, Bool.not_eq_true', Bool.or_eq_false_iff]
    refine ⟨hr, ?_, ?_⟩
    · simp only [List.contains_eq_any_beq, List.any_eq_false, List.mem_map, List.mem_filter,
        beq_iff_eq]
      rintro x ⟨d, ⟨hd, hk⟩, rfl⟩ h
      exact (hfree d hd hk).1 h
    · simp only [List.contains_eq_any_beq, List.any_eq_false, List.mem_map, List.mem_filter,
        beq_iff_eq]
      rintro x ⟨d, ⟨hd, hk⟩, rfl⟩ h
      exact (hfree d hd hk).2 h
  · intro d hd
    simp only [List.mem_filter, Bool.not_eq_true', beq_eq_false_iff_ne] at hd
    exact hd.2

/-- An instance on `sharedKeyStore`: deleting `ddr5` removes the only rule. -/
theorem delete_choice_cascade_witness :
    ddr5Choice ∈ sharedKeyStore.choices ∧
    (∀ r ∈ (handle none sharedKeyStore 8
      (.deleteOptionChoice ddr5Choice.choice_str_id)).1.rules,
      r.source_choice_id ≠ ddr5Choice.id ∧ r.target_choice_id ≠ ddr5Choice.id) ∧
    (handle none sharedKeyStore 8 (.deleteOptionChoice ddr5Choice.choice_str_id)).1.rules =
      [] :=
  ⟨by decide, (delete_choice_cascade none sharedKeyStore 8 ddr5Choice (by decide)).1,
    by decide⟩

/-- Claim C9: for every store, deleting a stored category removes it, every choice that
belongs to it and every rule that references one of those choices; deleting a stored
template removes it, every category that belongs to it, every choice of those
categories and every rule that references one of those choices. -/
theorem delete_category_and_template_cascade (env : Option String) (st : Store) (now : Nat) :
    (∀ cat ∈ st.categories,
      cat ∉ (handle env st now (.deleteOptionCategory cat.category_str_id)).1.categories ∧
      ∀ c ∈ st.choices, c.option_category_id = cat.id →
        c ∉ (handle env st now (.deleteOptionCategory cat.category_str_id)).1.choices ∧
        ∀ r ∈ st.rules, (r.source_choice_id = c.id ∨ r.target_choice_id = c.id) →
          r ∉ (handle env st now (.deleteOptionCategory cat.category_str_id)).1.rules) ∧
    (∀ t ∈ st.templates,
      t ∉ (handle env st now (.deleteProductTemplate t.template_str_id)).1.templates ∧
      ∀ cat ∈ st.categories, cat.product_template_id = t.id →
        cat ∉ (handle env st now (.deleteProductTemplate t.template_str_id)).1.categories ∧
        ∀ c ∈ st.choices, c.option_category_id = cat.id →
          c ∉ (handle env st now (.deleteProductTemplate t.template_str_id)).1.choices ∧
          ∀ r ∈ st.rules, (r.source_choice_id = c.id ∨ r.target_choice_id = c.id) →
            r ∉ (handle env st now (.deleteProductTemplate t.template_str_id)).1.rules) := by
  refine ⟨?_, ?_⟩
  · intro cat hcat
    rw [deleteOptionCategory_store]
    exact dropCategories_removes st _ cat hcat (by simp)
  · intro t ht
    rw [deleteProductTemplate_store]
    exact dropTemplates_removes st _ t ht (by simp)

/-- An instance on `sharedKeyStore`: deleting the category `cpu` removes its choice
`intel_i7` and the rule out of it. -/
theorem delete_category_and_template_cascade_witness :
    firstIntel ∈ sharedKeyStore.choices ∧ intelRequiresDdr5 ∈ sharedKeyStore.rules ∧
    firstIntel ∉ (handle none sharedKeyStore 8 (.deleteOptionCategory "cpu")).1.choices ∧
    intelRequiresDdr5 ∉ (handle none sharedKeyStore 8 (.deleteOptionCategory "cpu")).1.rules :=
  have h := ((delete_category_and_template_cascade none sharedKeyStore 8).1
    { id := 1, category_str_id := "cpu", name := "Processor", description := none,
      is_required := false, display_order := 0, product_template_id := 1, created_at := 2,
      updated_at := 2 } (by decide)).2 firstIntel (by decide) (by decide)
  ⟨by decide, by decide, h.1, h.2 intelRequiresDdr5 (by decide) (Or.inl (by decide))⟩

/-- Claim C10: in every store reachable from the empty store by requests to the routes,
every stored rule has a source and a target that are distinct and that are both ids of
stored choices. -/
theorem rules_join_distinct_stored_choices (st : Store) (hreach : Reachable st) :
    ∀ r ∈ st.rules, r.source_choice_id ≠ r.target_choice_id ∧
      (∃ c ∈ st.choices, c.id = r.source_choice_id) ∧
      (∃ c ∈ st.choices, c.id = r.target_choice_id) :=
  (storeInv_of_reachable hreach).1

/-- An instance on `sharedKeyStore` and its rule. -/
theorem rules_join_distinct_stored_choices_witness :
    Reachable sharedKeyStore ∧ intelRequiresDdr5 ∈ sharedKeyStore.rules ∧
    intelRequiresDdr5.source_choice_id ≠ intelRequiresDdr5.target_choice_id ∧
    (∃ c ∈ sharedKeyStore.choices, c.id = intelRequiresDdr5.source_choice_id) ∧
    (∃ c ∈ sharedKeyStore.choices, c.id = intelRequiresDdr5.target_choice_id) :=
  have hreach : Reachable sharedKeyStore := reachable_run Reachable.empty sharedKeyRequests
  ⟨hreach, by decide,
    rules_join_distinct_stored_choices sharedKeyStore hreach intelRequiresDdr5 (by decide)⟩

/-! ## Further properties of the routes -/

/-- After a choice update that matched rows and set a different key, no stored choice
has the key of the path any more. -/
theorem optionChoice_update_renames {st st1 : Store} {now : Nat} {key : String}
    {v : ChoiceBody} {n : Nat} (h : OptionChoice.update st now key v = .ok (st1, n))
    (hn : n ≠ 0) (hkey : v.choice_str_id ≠ key) :
    ∀ c ∈ st1.choices, c.choice_str_id ≠ key := by
  unfold OptionChoice.update at h
  simp only at h
  split_ifs at h
  · injection h with h
    injection h with h1 h2
    exact absurd h2.symm hn
  · injection h with h
    injection h with h1 h2
    subst h1
    intro c hc
    simp only [List.mem_map] at hc
    obtain ⟨d, -, hd⟩ := hc
    by_cases hk : (d.choice_str_id == key) = true
    · rw [if_pos hk] at hd
      rw [← hd]
      exact hkey
    · rw [if_neg hk] at hd
      rw [← hd]
      simpa using hk

/-- The update route of option choices reads the row back under the key of the path:
when the body passes the schema, the update matches at least one row and the body
carries a different key, the rows are updated in the store and the request is answered
with status 500, the error of reading `id` from `null`. -/
theorem put_choice_with_new_key_answers_500 (env : Option String) (st st1 : Store)
    (now : Nat) (choice_str_id : String) (body : Body) (v : ChoiceBody) (n : Nat)
    (hv : optionChoiceSchema body = .ok v)
    (hupdate : OptionChoice.update st now choice_str_id v = .ok (st1, n))
    (hn : n ≠ 0) (hkey : v.choice_str_id ≠ choice_str_id) :
    (handle env st now (.putOptionChoice choice_str_id body)).1 = st1 ∧
    (handle env st now (.putOptionChoice choice_str_id body)).2.status = 500 ∧
    (handle env st now (.putOptionChoice choice_str_id body)).2.error =
      some "Cannot read properties of null (reading 'id')" := by
  have hv1 : validate optionChoiceSchema body = .ok v := by simp [validate, hv]
  have hnone : OptionChoice.findOne st1 choice_str_id = none :=
    findOne_eq_none (optionChoice_update_renames hupdate hn hkey)
  simp [handle, route, putOptionChoice, hv1, hupdate, hn, hnone, respond, errorHandler,
    nullPropertyError, failure]

/-- An instance on `sharedKeyStore`: renaming `ddr5` to `ddr4` changes the store and is
answered with status 500. -/
theorem put_choice_with_new_key_answers_500_witness :
    (handle none sharedKeyStore 8 (.putOptionChoice "ddr5" (choiceBody "ddr4"))).2.status =
      500 ∧
    (handle none sharedKeyStore 8 (.putOptionChoice "ddr5" (choiceBody "ddr4"))).1.choices =
      [firstIntel, { ddr5Choice with choice_str_id := "ddr4", updated_at := 8 },
        secondIntel] :=
  ⟨(put_choice_with_new_key_answers_500 none sharedKeyStore
      (handle none sharedKeyStore 8 (.putOptionChoice "ddr5" (choiceBody "ddr4"))).1 8
      "ddr5" (choiceBody "ddr4")
      { choice_str_id := "ddr4", name := "Intel Core i7", description := none,
        price_delta := 0, is_default := false, is_available := true, display_order := 0 } 1
      (by decide) (by decide) (by decide) (by decide)).2.1, by decide⟩


/-! ## Lemmas on the details of the schemas -/

/-- Every report of the string rules names the key. -/
theorem stringRuleErrors_path (label : String) (messages : List (String × String)) (p : Bool)
    (lo hi : Option Nat) (s : String) :
    ∀ d ∈ stringRuleErrors label messages p lo hi s, d.path = [label] := by
  intro d hd
  unfold stringRuleErrors at hd
  simp only [List.mem_append] at hd
  rcases hd with (hd | hd) | hd
  · split_ifs at hd <;> simp_all [detail]
  · cases lo with
    | none => simp at hd
    | some n =>
      simp only at hd
      split_ifs at hd <;> simp_all [detail]
  · cases hi with
    | none => simp at hd
    | some n =>
      simp only at hd
      split_ifs at hd <;> simp_all [detail]

/-- Every detail of a string schema names the key. -/
theorem joiString_path (label : String) (messages : List (String × String)) (p : Bool)
    (lo hi : Option Nat) (e : Bool) (v : JVal) :
    ∀ d ∈ errorsOf (joiString label messages p lo hi e v), d.path = [label] := by
  intro d hd
  cases v <;> simp only [joiString] at hd
  case str s =>
    split_ifs at hd
    · simp [errorsOf] at hd
    · simp only [errorsOf, List.mem_singleton] at hd
      rw [hd]; rfl
    · simp [errorsOf] at hd
    · exact stringRuleErrors_path label messages p lo hi s d hd
  all_goals
    simp only [errorsOf, List.mem_singleton] at hd
    rw [hd]; rfl

/-- Every detail of the integer schema names the key. -/
theorem joiInteger_path (label : String) (messages : List (String × String)) (v : JVal) :
    ∀ d ∈ errorsOf (joiInteger label messages v), d.path = [label] := by
  intro d hd
  cases v <;> simp only [joiInteger] at hd
  case num n =>
    split_ifs at hd
    · simp only [errorsOf, List.mem_singleton] at hd
      rw [hd]; rfl
    · simp [errorsOf] at hd
    · simp only [errorsOf, integerRuleErrors, List.mem_append] at hd
      rcases hd with hd | hd <;> split_ifs at hd <;> simp_all [detail]
  all_goals
    simp only [errorsOf, List.mem_singleton] at hd
    rw [hd]; rfl

/-- Every detail of a price schema names the key. -/
theorem joiPrice_path (label : String) (messages : List (String × String)) (nn : Bool)
    (v : JVal) : ∀ d ∈ errorsOf (joiPrice label messages nn v), d.path = [label] := by
  intro d hd
  cases v <;> simp only [joiPrice] at hd
  case num n =>
    split_ifs at hd
    · simp only [errorsOf, List.mem_singleton] at hd
      rw [hd]; rfl
    · simp only [errorsOf, List.mem_singleton] at hd
      rw [hd]; rfl
    · simp [errorsOf] at hd
  all_goals
    simp only [errorsOf, List.mem_singleton] at hd
    rw [hd]; rfl

/-- Every detail of the boolean schema names the key. -/
theorem joiBoolean_path (label : String) (messages : List (String × String)) (v : JVal) :
    ∀ d ∈ errorsOf (joiBoolean label messages v), d.path = [label] := by
  intro d hd
  cases v <;> simp only [joiBoolean] at hd
  case bool b => simp [errorsOf] at hd
  all_goals
    simp only [errorsOf, List.mem_singleton] at hd
    rw [hd]; rfl

/-- Every detail of the rule kind schema names the key. -/
theorem joiRuleType_path (label : String) (messages : List (String × String)) (v : JVal) :
    ∀ d ∈ errorsOf (joiRuleType label messages v), d.path = [label] := by
  intro d hd
  cases v <;> simp only [joiRuleType] at hd
  case str s =>
    split at hd
    · simp [errorsOf] at hd
    · simp only [errorsOf, List.mem_append, List.mem_singleton] at hd
      rcases hd with hd | hd
      · rw [hd]; rfl
      · split_ifs at hd
        · simp only [List.mem_singleton] at hd
          rw [hd]; rfl
        · simp at hd
  all_goals
    simp only [errorsOf, List.mem_cons, List.mem_singleton, List.not_mem_nil, or_false] at hd
    rcases hd with hd | hd <;> (rw [hd]; rfl)

/-- A required key draws `any.required` under its own name, or the details of its
schema. -/
theorem joiRequired_path {α : Type} (label : String) (messages : List (String × String))
    (check : JVal → Except (List JoiDetail) α)
    (hcheck : ∀ x, ∀ d ∈ errorsOf (check x), d.path = [label]) (v : Option JVal) :
    ∀ d ∈ errorsOf (joiRequired label messages check v), d.path = [label] := by
  intro d hd
  cases v with
  | none =>
    simp only [joiRequired, errorsOf, List.mem_singleton] at hd
    rw [hd]; rfl
  | some x => exact hcheck x d hd

/-- An optional key draws the details of its schema. -/
theorem joiOptional_path {α : Type} (label : String)
    (check : JVal → Except (List JoiDetail) α)
    (hcheck : ∀ x, ∀ d ∈ errorsOf (check x), d.path = [label]) (v : Option JVal) :
    ∀ d ∈ errorsOf (joiOptional check v), d.path = [label] := by
  intro d hd
  cases v with
  | none => simp [joiOptional, errorsOf] at hd
  | some x =>
    apply hcheck x d
    simp only [joiOptional] at hd
    cases hc : check x with
    | ok a => rw [hc] at hd; simp [Except.map, errorsOf] at hd
    | error es => rw [hc] at hd; simpa [Except.map, errorsOf] using hd

/-- A key with a default draws the details of its schema. -/
theorem joiDefault_path {α : Type} (label : String) (dflt : α)
    (check : JVal → Except (List JoiDetail) α)
    (hcheck : ∀ x, ∀ d ∈ errorsOf (check x), d.path = [label]) (v : Option JVal) :
    ∀ d ∈ errorsOf (joiDefault dflt check v), d.path = [label] := by
  intro d hd
  cases v with
  | none => simp [joiDefault, errorsOf] at hd
  | some x => exact hcheck x d hd


/-- Mapping the accepted value leaves the details as they are. -/
theorem errorsOf_map {α β : Type} (f : α → β) (r : Except (List JoiDetail) α) :
    errorsOf (r.map f) = errorsOf r := by
  cases r <;> rfl

/-- A body that holds only `k` holds the value of `k`. -/
theorem lookup_singleKeyBody_same (k : String) (v : Option JVal) :
    List.lookup k (singleKeyBody k v) = v := by
  cases v <;> simp [singleKeyBody, List.lookup]

/-- A body that holds only `k` holds no other key. -/
theorem lookup_singleKeyBody_other (k other : String) (v : Option JVal)
    (h : (other == k) = false) : List.lookup other (singleKeyBody k v) = none := by
  cases v <;> simp [singleKeyBody, List.lookup, h]

/-- Details that all name `k` pass the filter on `k`. -/
theorem filter_path_keep (k : String) (r : List JoiDetail) (h : ∀ d ∈ r, d.path = [k]) :
    (r.filter fun d => d.path == [k]) = r := by
  rw [List.filter_eq_self]
  intro d hd
  simp [h d hd]

/-- The details of the rule schema are the details of its keys in turn. -/
theorem compatibilityRule_details (b : Body) :
    Schema.details .compatibilityRule b =
      (Schema.keys .compatibilityRule).flatMap fun k =>
        Schema.keyDetails .compatibilityRule k (b.lookup k) := by
  simp only [Schema.details, Schema.keyDetails, Schema.run, Schema.keys, errorsOf_map,
    List.flatMap_cons, List.flatMap_nil, List.append_nil, compatibilityRuleSchema,
    lookup_singleKeyBody_same]
  simp (disch := decide) only [lookup_singleKeyBody_other]
  generalize h1 : joiRequired "rule_type" _ _ (List.lookup "rule_type" b) = r1
  generalize h2 : strIdSchema "target_choice_str_id" _ (List.lookup "target_choice_str_id" b) = r2
  generalize h3 : descriptionSchema (List.lookup "description" b) = r3
  generalize h4 : joiDefault (0 : Int) _ (List.lookup "priority" b) = r4
  have p1 : ∀ d ∈ errorsOf r1, d.path = ["rule_type"] :=
    h1 ▸ joiRequired_path _ _ _ (joiRuleType_path _ _) _
  have p2 : ∀ d ∈ errorsOf r2, d.path = ["target_choice_str_id"] :=
    h2 ▸ joiRequired_path _ _ _ (joiString_path _ _ _ _ _ _) _
  have p3 : ∀ d ∈ errorsOf r3, d.path = ["description"] :=
    h3 ▸ joiOptional_path _ _ (joiString_path _ _ _ _ _ _) _
  have p4 : ∀ d ∈ errorsOf r4, d.path = ["priority"] :=
    h4 ▸ joiDefault_path _ _ _ (joiInteger_path _ _) _
  clear h1 h2 h3 h4
  simp only [strIdSchema, descriptionSchema, joiRequired, joiDefault, joiOptional]
  cases r1 <;> cases r2 <;> cases r3 <;> cases r4 <;>
    simp only [errorsOf] at p1 p2 p3 p4 ⊢ <;>
    simp [List.filter_append, detail, filter_path_keep _ _ p1, filter_path_keep _ _ p2,
      filter_path_keep _ _ p3, filter_path_keep _ _ p4]


/-- An accepted value carries no details. -/
theorem errorsOf_ok {α : Type} (a : α) : errorsOf (Except.ok a : Except (List JoiDetail) α) = [] :=
  rfl

/-- A rejected value carries its details. -/
theorem errorsOf_error {α : Type} (es : List JoiDetail) :
    errorsOf (Except.error es : Except (List JoiDetail) α) = es :=
  rfl

/-- Every detail of a key schema names the key. -/
theorem strIdSchema_path (label : String) (messages : List (String × String))
    (v : Option JVal) : ∀ d ∈ errorsOf (strIdSchema label messages v), d.path = [label] :=
  joiRequired_path _ _ _ (joiString_path _ _ _ _ _ _) _

/-- Every detail of the name schema names `name`. -/
theorem nameSchema_path (v : Option JVal) : ∀ d ∈ errorsOf (nameSchema v), d.path = ["name"] :=
  joiRequired_path _ _ _ (joiString_path _ _ _ _ _ _) _

/-- Every detail of the description schema names `description`. -/
theorem descriptionSchema_path (v : Option JVal) :
    ∀ d ∈ errorsOf (descriptionSchema v), d.path = ["description"] :=
  joiOptional_path _ _ (joiString_path _ _ _ _ _ _) _

/-- Every detail of the display order schema names `display_order`. -/
theorem displayOrderSchema_path (v : Option JVal) :
    ∀ d ∈ errorsOf (displayOrderSchema v), d.path = ["display_order"] :=
  joiDefault_path _ _ _ (joiInteger_path _ _) _

/-- The details of the template schema are the details of its keys in turn. -/
theorem productTemplate_details (b : Body) :
    Schema.details .productTemplate b =
      (Schema.keys .productTemplate).flatMap fun k =>
        Schema.keyDetails .productTemplate k (b.lookup k) := by
  simp only [Schema.details, Schema.keyDetails, Schema.run, Schema.keys, errorsOf_map,
    List.flatMap_cons, List.flatMap_nil, List.append_nil, productTemplateSchema,
    lookup_singleKeyBody_same]
  simp (disch := decide) only [lookup_singleKeyBody_other]
  generalize h1 : strIdSchema "template_str_id" _ (List.lookup "template_str_id" b) = r1
  generalize h2 : nameSchema (List.lookup "name" b) = r2
  generalize h3 : joiRequired "base_price" _ _ (List.lookup "base_price" b) = r3
  generalize h4 : descriptionSchema (List.lookup "description" b) = r4
  have p1 : ∀ d ∈ errorsOf r1, d.path = ["template_str_id"] := h1 ▸ strIdSchema_path _ _ _
  have p2 : ∀ d ∈ errorsOf r2, d.path = ["name"] := h2 ▸ nameSchema_path _
  have p3 : ∀ d ∈ errorsOf r3, d.path = ["base_price"] :=
    h3 ▸ joiRequired_path _ _ _ (joiPrice_path _ _ _) _
  have p4 : ∀ d ∈ errorsOf r4, d.path = ["description"] := h4 ▸ descriptionSchema_path _
  clear h1 h2 h3 h4
  simp only [strIdSchema, nameSchema, descriptionSchema, joiRequired, joiOptional]
  cases r1 <;> cases r2 <;> cases r3 <;> cases r4 <;>
    simp only [errorsOf] at p1 p2 p3 p4 ⊢ <;>
    simp [List.filter_append, detail, filter_path_keep _ _ p1, filter_path_keep _ _ p2,
      filter_path_keep _ _ p3, filter_path_keep _ _ p4]

/-- The details of the category schema are the details of its keys in turn. -/
theorem optionCategory_details (b : Body) :
    Schema.details .optionCategory b =
      (Schema.keys .optionCategory).flatMap fun k =>
        Schema.keyDetails .optionCategory k (b.lookup k) := by
  simp only [Schema.details, Schema.keyDetails, Schema.run, Schema.keys, errorsOf_map,
    List.flatMap_cons, List.flatMap_nil, List.append_nil, optionCategorySchema,
    lookup_singleKeyBody_same]
  simp (disch := decide) only [lookup_singleKeyBody_other]
  generalize h1 : strIdSchema "category_str_id" _ (List.lookup "category_str_id" b) = r1
  generalize h2 : nameSchema (List.lookup "name" b) = r2
  generalize h3 : descriptionSchema (List.lookup "description" b) = r3
  generalize h4 : joiDefault false _ (List.lookup "is_required" b) = r4
  generalize h5 : displayOrderSchema (List.lookup "display_order" b) = r5
  have p1 : ∀ d ∈ errorsOf r1, d.path = ["category_str_id"] := h1 ▸ strIdSchema_path _ _ _
  have p2 : ∀ d ∈ errorsOf r2, d.path = ["name"] := h2 ▸ nameSchema_path _
  have p3 : ∀ d ∈ errorsOf r3, d.path = ["description"] := h3 ▸ descriptionSchema_path _
  have p4 : ∀ d ∈ errorsOf r4, d.path = ["is_required"] :=
    h4 ▸ joiDefault_path _ _ _ (joiBoolean_path _ _) _
  have p5 : ∀ d ∈ errorsOf r5, d.path = ["display_order"] := h5 ▸ displayOrderSchema_path _
  clear h1 h2 h3 h4 h5
  simp only [strIdSchema, nameSchema, descriptionSchema, displayOrderSchema, joiRequired,
    joiOptional, joiDefault]
  cases r1 <;> cases r2 <;> cases r3 <;> cases r4 <;> cases r5 <;>
    simp only [errorsOf] at p1 p2 p3 p4 p5 ⊢ <;>
    simp [List.filter_append, detail, filter_path_keep _ _ p1, filter_path_keep _ _ p2,
      filter_path_keep _ _ p3, filter_path_keep _ _ p4, filter_path_keep _ _ p5]

/-- The details of the choice schema are the details of its keys in turn. -/
theorem optionChoice_details (b : Body) :
    Schema.details .optionChoice b =
      (Schema.keys .optionChoice).flatMap fun k =>
        Schema.keyDetails .optionChoice k (b.lookup k) := by
  simp only [Schema.details, Schema.keyDetails, Schema.run, Schema.keys, errorsOf_map,
    List.flatMap_cons, List.flatMap_nil, List.append_nil, optionChoiceSchema,
    lookup_singleKeyBody_same]
  simp (disch := decide) only [lookup_singleKeyBody_other]
  generalize h1 : strIdSchema "choice_str_id" _ (List.lookup "choice_str_id" b) = r1
  generalize h2 : nameSchema (List.lookup "name" b) = r2
  generalize h3 : descriptionSchema (List.lookup "description" b) = r3
  generalize h4 : joiDefault (0 : Int) _ (List.lookup "price_delta" b) = r4
  generalize h5 : joiDefault false _ (List.lookup "is_default" b) = r5
  generalize h6 : joiDefault true _ (List.lookup "is_available" b) = r6
  generalize h7 : displayOrderSchema (List.lookup "display_order" b) = r7
  have p1 : ∀ d ∈ errorsOf r1, d.path = ["choice_str_id"] := h1 ▸ strIdSchema_path _ _ _
  have p2 : ∀ d ∈ errorsOf r2, d.path = ["name"] := h2 ▸ nameSchema_path _
  have p3 : ∀ d ∈ errorsOf r3, d.path = ["description"] := h3 ▸ descriptionSchema_path _
  have p4 : ∀ d ∈ errorsOf r4, d.path = ["price_delta"] :=
    h4 ▸ joiDefault_path _ _ _ (joiPrice_path _ _ _) _
  have p5 : ∀ d ∈ errorsOf r5, d.path = ["is_default"] :=
    h5 ▸ joiDefault_path _ _ _ (joiBoolean_path _ _) _
  have p6 : ∀ d ∈ errorsOf r6, d.path = ["is_available"] :=
    h6 ▸ joiDefault_path _ _ _ (joiBoolean_path _ _) _
  have p7 : ∀ d ∈ errorsOf r7, d.path = ["display_order"] := h7 ▸ displayOrderSchema_path _
  clear h1 h2 h3 h4 h5 h6 h7
  simp only [strIdSchema, nameSchema, descriptionSchema, displayOrderSchema, joiRequired,
    joiOptional, joiDefault]
  simp [List.filter_append, detail, filter_path_keep _ _ p1, filter_path_keep _ _ p2,
    filter_path_keep _ _ p3, filter_path_keep _ _ p4, filter_path_keep _ _ p5,
    filter_path_keep _ _ p6, filter_path_keep _ _ p7, errorsOf_ok, errorsOf_error]
  cases r1 <;> cases r2 <;> cases r3 <;> cases r4 <;> cases r5 <;> cases r6 <;> cases r7 <;>
    rfl


/-- A string schema that rejects reports at least one detail. -/
theorem joiString_error_ne_nil {label : String} {messages : List (String × String)} {p : Bool}
    {lo hi : Option Nat} {e : Bool} {v : JVal} {es : List JoiDetail}
    (h : joiString label messages p lo hi e v = .error es) : es ≠ [] := by
  cases v <;> simp only [joiString] at h
  case str s =>
    split_ifs at h with h1 h2 h3
    · injection h with h; rw [← h]; simp
    · injection h with h; rw [← h]; exact h3
  all_goals
    injection h with h; rw [← h]; simp

/-- The integer schema that rejects reports at least one detail. -/
theorem joiInteger_error_ne_nil {label : String} {messages : List (String × String)}
    {v : JVal} {es : List JoiDetail} (h : joiInteger label messages v = .error es) :
    es ≠ [] := by
  cases v <;> simp only [joiInteger] at h
  case num n =>
    split_ifs at h with h1 h2
    · injection h with h; rw [← h]; simp
    · injection h with h; rw [← h]; exact h2
  all_goals
    injection h with h; rw [← h]; simp

/-- A price schema that rejects reports at least one detail. -/
theorem joiPrice_error_ne_nil {label : String} {messages : List (String × String)} {nn : Bool}
    {v : JVal} {es : List JoiDetail} (h : joiPrice label messages nn v = .error es) :
    es ≠ [] := by
  cases v <;> simp only [joiPrice] at h
  case num n =>
    split_ifs at h <;> (injection h with h; rw [← h]; simp)
  all_goals
    injection h with h; rw [← h]; simp

/-- The boolean schema that rejects reports at least one detail. -/
theorem joiBoolean_error_ne_nil {label : String} {messages : List (String × String)}
    {v : JVal} {es : List JoiDetail} (h : joiBoolean label messages v = .error es) :
    es ≠ [] := by
  cases v <;> simp only [joiBoolean] at h
  case bool b => simp at h
  all_goals
    injection h with h; rw [← h]; simp

/-- The rule kind schema that rejects reports at least one detail. -/
theorem joiRuleType_error_ne_nil {label : String} {messages : List (String × String)}
    {v : JVal} {es : List JoiDetail} (h : joiRuleType label messages v = .error es) :
    es ≠ [] := by
  cases v <;> simp only [joiRuleType] at h
  case str s =>
    split at h
    · simp at h
    · injection h with h; rw [← h]; simp
  all_goals
    injection h with h; rw [← h]; simp

/-- A required key that is rejected reports at least one detail. -/
theorem joiRequired_error_ne_nil {α : Type} {label : String}
    {messages : List (String × String)} {check : JVal → Except (List JoiDetail) α}
    (hcheck : ∀ x es, check x = .error es → es ≠ []) {v : Option JVal} {es : List JoiDetail}
    (h : joiRequired label messages check v = .error es) : es ≠ [] := by
  cases v with
  | none =>
    simp only [joiRequired] at h
    injection h with h; rw [← h]; simp
  | some x => exact hcheck x es h

/-- An optional key that is rejected reports at least one detail. -/
theorem joiOptional_error_ne_nil {α : Type} {check : JVal → Except (List JoiDetail) α}
    (hcheck : ∀ x es, check x = .error es → es ≠ []) {v : Option JVal} {es : List JoiDetail}
    (h : joiOptional check v = .error es) : es ≠ [] := by
  cases v with
  | none => simp [joiOptional] at h
  | some x =>
    simp only [joiOptional] at h
    cases hc : check x with
    | ok a => rw [hc] at h; simp [Except.map] at h
    | error e =>
      rw [hc] at h
      simp only [Except.map] at h
      injection h with h
      rw [← h]
      exact hcheck x e hc

/-- A key with a default that is rejected reports at least one detail. -/
theorem joiDefault_error_ne_nil {α : Type} {dflt : α}
    {check : JVal → Except (List JoiDetail) α}
    (hcheck : ∀ x es, check x = .error es → es ≠ []) {v : Option JVal} {es : List JoiDetail}
    (h : joiDefault dflt check v = .error es) : es ≠ [] := by
  cases v with
  | none => simp [joiDefault] at h
  | some x => exact hcheck x es h

/-- A result without details is an accepted value, when rejections carry details. -/
theorem ok_of_errorsOf_nil {α : Type} {r : Except (List JoiDetail) α}
    (hr : ∀ es, r = .error es → es ≠ []) (h : errorsOf r = []) : ∃ a, r = .ok a := by
  cases r with
  | ok a => exact ⟨a, rfl⟩
  | error es => exact absurd h (hr es rfl)


/-- A body without details passes the rule schema. -/
theorem compatibilityRule_passes (b : Body) (h : Schema.details .compatibilityRule b = []) :
    ∃ v, Schema.run .compatibilityRule b = .ok v := by
  simp only [Schema.details, Schema.run, errorsOf_map, compatibilityRuleSchema] at h ⊢
  generalize h1 : joiRequired "rule_type" _ _ (List.lookup "rule_type" b) = r1 at h ⊢
  generalize h2 : strIdSchema "target_choice_str_id" _
    (List.lookup "target_choice_str_id" b) = r2 at h ⊢
  generalize h3 : descriptionSchema (List.lookup "description" b) = r3 at h ⊢
  generalize h4 : joiDefault (0 : Int) _ (List.lookup "priority" b) = r4 at h ⊢
  have n1 : ∀ es, r1 = .error es → es ≠ [] := fun es he =>
    joiRequired_error_ne_nil (fun _ _ => joiRuleType_error_ne_nil) (h1.trans he)
  have n2 : ∀ es, r2 = .error es → es ≠ [] := fun es he =>
    joiRequired_error_ne_nil (fun _ _ => joiString_error_ne_nil) (h2.trans he)
  have n3 : ∀ es, r3 = .error es → es ≠ [] := fun es he =>
    joiOptional_error_ne_nil (fun _ _ => joiString_error_ne_nil) (h3.trans he)
  have n4 : ∀ es, r4 = .error es → es ≠ [] := fun es he =>
    joiDefault_error_ne_nil (fun _ _ => joiInteger_error_ne_nil) (h4.trans he)
  clear h1 h2 h3 h4
  rcases r1 with e1 | a1
  · simp [errorsOf_error, n1 e1 rfl] at h
  rcases r2 with e2 | a2
  · simp [errorsOf_error, errorsOf_ok, n2 e2 rfl] at h
  rcases r3 with e3 | a3
  · simp [errorsOf_error, errorsOf_ok, n3 e3 rfl] at h
  rcases r4 with e4 | a4
  · simp [errorsOf_error, errorsOf_ok, n4 e4 rfl] at h
  exact ⟨_, rfl⟩

/-- A body without details passes the template schema. -/
theorem productTemplate_passes (b : Body) (h : Schema.details .productTemplate b = []) :
    ∃ v, Schema.run .productTemplate b = .ok v := by
  simp only [Schema.details, Schema.run, errorsOf_map, productTemplateSchema] at h ⊢
  generalize h1 : strIdSchema "template_str_id" _ (List.lookup "template_str_id" b) = r1 at h ⊢
  generalize h2 : nameSchema (List.lookup "name" b) = r2 at h ⊢
  generalize h3 : joiRequired "base_price" _ _ (List.lookup "base_price" b) = r3 at h ⊢
  generalize h4 : descriptionSchema (List.lookup "description" b) = r4 at h ⊢
  have n1 : ∀ es, r1 = .error es → es ≠ [] := fun es he =>
    joiRequired_error_ne_nil (fun _ _ => joiString_error_ne_nil) (h1.trans he)
  have n2 : ∀ es, r2 = .error es → es ≠ [] := fun es he =>
    joiRequired_error_ne_nil (fun _ _ => joiString_error_ne_nil) (h2.trans he)
  have n3 : ∀ es, r3 = .error es → es ≠ [] := fun es he =>
    joiRequired_error_ne_nil (fun _ _ => joiPrice_error_ne_nil) (h3.trans he)
  have n4 : ∀ es, r4 = .error es → es ≠ [] := fun es he =>
    joiOptional_error_ne_nil (fun _ _ => joiString_error_ne_nil) (h4.trans he)
  clear h1 h2 h3 h4
  rcases r1 with e1 | a1
  · simp [errorsOf_error, n1 e1 rfl] at h
  rcases r2 with e2 | a2
  · simp [errorsOf_error, errorsOf_ok, n2 e2 rfl] at h
  rcases r3 with e3 | a3
  · simp [errorsOf_error, errorsOf_ok, n3 e3 rfl] at h
  rcases r4 with e4 | a4
  · simp [errorsOf_error, errorsOf_ok, n4 e4 rfl] at h
  exact ⟨_, rfl⟩

/-- A body without details passes the category schema. -/
theorem optionCategory_passes (b : Body) (h : Schema.details .optionCategory b = []) :
    ∃ v, Schema.run .optionCategory b = .ok v := by
  simp only [Schema.details, Schema.run, errorsOf_map, optionCategorySchema] at h ⊢
  generalize h1 : strIdSchema "category_str_id" _ (List.lookup "category_str_id" b) = r1 at h ⊢
  generalize h2 : nameSchema (List.lookup "name" b) = r2 at h ⊢
  generalize h3 : descriptionSchema (List.lookup "description" b) = r3 at h ⊢
  generalize h4 : joiDefault false _ (List.lookup "is_required" b) = r4 at h ⊢
  generalize h5 : displayOrderSchema (List.lookup "display_order" b) = r5 at h ⊢
  have n1 : ∀ es, r1 = .error es → es ≠ [] := fun es he =>
    joiRequired_error_ne_nil (fun _ _ => joiString_error_ne_nil) (h1.trans he)
  have n2 : ∀ es, r2 = .error es → es ≠ [] := fun es he =>
    joiRequired_error_ne_nil (fun _ _ => joiString_error_ne_nil) (h2.trans he)
  have n3 : ∀ es, r3 = .error es → es ≠ [] := fun es he =>
    joiOptional_error_ne_nil (fun _ _ => joiString_error_ne_nil) (h3.trans he)
  have n4 : ∀ es, r4 = .error es → es ≠ [] := fun es he =>
    joiDefault_error_ne_nil (fun _ _ => joiBoolean_error_ne_nil) (h4.trans he)
  have n5 : ∀ es, r5 = .error es → es ≠ [] := fun es he =>
    joiDefault_error_ne_nil (fun _ _ => joiInteger_error_ne_nil) (h5.trans he)
  clear h1 h2 h3 h4 h5
  rcases r1 with e1 | a1
  · simp [errorsOf_error, n1 e1 rfl] at h
  rcases r2 with e2 | a2
  · simp [errorsOf_error, errorsOf_ok, n2 e2 rfl] at h
  rcases r3 with e3 | a3
  · simp [errorsOf_error, errorsOf_ok, n3 e3 rfl] at h
  rcases r4 with e4 | a4
  · simp [errorsOf_error, errorsOf_ok, n4 e4 rfl] at h
  rcases r5 with e5 | a5
  · simp [errorsOf_error, errorsOf_ok, n5 e5 rfl] at h
  exact ⟨_, rfl⟩

/-- A body without details passes the choice schema. -/
theorem optionChoice_passes (b : Body) (h : Schema.details .optionChoice b = []) :
    ∃ v, Schema.run .optionChoice b = .ok v := by
  simp only [Schema.details, Schema.run, errorsOf_map, optionChoiceSchema] at h ⊢
  generalize h1 : strIdSchema "choice_str_id" _ (List.lookup "choice_str_id" b) = r1 at h ⊢
  generalize h2 : nameSchema (List.lookup "name" b) = r2 at h ⊢
  generalize h3 : descriptionSchema (List.lookup "description" b) = r3 at h ⊢
  generalize h4 : joiDefault (0 : Int) _ (List.lookup "price_delta" b) = r4 at h ⊢
  generalize h5 : joiDefault false _ (List.lookup "is_default" b) = r5 at h ⊢
  generalize h6 : joiDefault true _ (List.lookup "is_available" b) = r6 at h ⊢
  generalize h7 : displayOrderSchema (List.lookup "display_order" b) = r7 at h ⊢
  have n1 : ∀ es, r1 = .error es → es ≠ [] := fun es he =>
    joiRequired_error_ne_nil (fun _ _ => joiString_error_ne_nil) (h1.trans he)
  have n2 : ∀ es, r2 = .error es → es ≠ [] := fun es he =>
    joiRequired_error_ne_nil (fun _ _ => joiString_error_ne_nil) (h2.trans he)
  have n3 : ∀ es, r3 = .error es → es ≠ [] := fun es he =>
    joiOptional_error_ne_nil (fun _ _ => joiString_error_ne_nil) (h3.trans he)
  have n4 : ∀ es, r4 = .error es → es ≠ [] := fun es he =>
    joiDefault_error_ne_nil (fun _ _ => joiPrice_error_ne_nil) (h4.trans he)
  have n5 : ∀ es, r5 = .error es → es ≠ [] := fun es he =>
    joiDefault_error_ne_nil (fun _ _ => joiBoolean_error_ne_nil) (h5.trans he)
  have n6 : ∀ es, r6 = .error es → es ≠ [] := fun es he =>
    joiDefault_error_ne_nil (fun _ _ => joiBoolean_error_ne_nil) (h6.trans he)
  have n7 : ∀ es, r7 = .error es → es ≠ [] := fun es he =>
    joiDefault_error_ne_nil (fun _ _ => joiInteger_error_ne_nil) (h7.trans he)
  clear h1 h2 h3 h4 h5 h6 h7
  rcases r1 with e1 | a1
  · simp [errorsOf_error, n1 e1 rfl] at h
  rcases r2 with e2 | a2
  · simp [errorsOf_error, errorsOf_ok, n2 e2 rfl] at h
  rcases r3 with e3 | a3
  · simp [errorsOf_error, errorsOf_ok, n3 e3 rfl] at h
  rcases r4 with e4 | a4
  · simp [errorsOf_error, errorsOf_ok, n4 e4 rfl] at h
  rcases r5 with e5 | a5
  · simp [errorsOf_error, errorsOf_ok, n5 e5 rfl] at h
  rcases r6 with e6 | a6
  · simp [errorsOf_error, errorsOf_ok, n6 e6 rfl] at h
  rcases r7 with e7 | a7
  · simp [errorsOf_error, errorsOf_ok, n7 e7 rfl] at h
  exact ⟨_, rfl⟩

/-- A schema reads nothing but its keys: bodies that agree on them get the same result. -/
theorem schema_run_congr (s : Schema) (b c : Body)
    (h : ∀ k ∈ s.keys, c.lookup k = b.lookup k) : s.run c = s.run b := by
  cases s
  · have h1 := h "template_str_id" (by simp [Schema.keys])
    have h2 := h "name" (by simp [Schema.keys])
    have h3 := h "base_price" (by simp [Schema.keys])
    have h4 := h "description" (by simp [Schema.keys])
    simp only [Schema.run, productTemplateSchema, h1, h2, h3, h4]
  · have h1 := h "category_str_id" (by simp [Schema.keys])
    have h2 := h "name" (by simp [Schema.keys])
    have h3 := h "description" (by simp [Schema.keys])
    have h4 := h "is_required" (by simp [Schema.keys])
    have h5 := h "display_order" (by simp [Schema.keys])
    simp only [Schema.run, optionCategorySchema, h1, h2, h3, h4, h5]
  · have h1 := h "choice_str_id" (by simp [Schema.keys])
    have h2 := h "name" (by simp [Schema.keys])
    have h3 := h "description" (by simp [Schema.keys])
    have h4 := h "price_delta" (by simp [Schema.keys])
    have h5 := h "is_default" (by simp [Schema.keys])
    have h6 := h "is_available" (by simp [Schema.keys])
    have h7 := h "display_order" (by simp [Schema.keys])
    simp only [Schema.run, optionChoiceSchema, h1, h2, h3, h4, h5, h6, h7]
  · have h1 := h "rule_type" (by simp [Schema.keys])
    have h2 := h "target_choice_str_id" (by simp [Schema.keys])
    have h3 := h "description" (by simp [Schema.keys])
    have h4 := h "priority" (by simp [Schema.keys])
    simp only [Schema.run, compatibilityRuleSchema, h1, h2, h3, h4]

/-- A route whose schema rejects the body answers with the handler's response to the
Joi error and leaves the store as it was. -/
theorem rejected_body_skips_handler (env : Option String) (st : Store) (now : Nat)
    (s : Schema) (key : String) (query : Option String) (body : Body)
    (ds : List JoiDetail) (h : s.run body = .error ds) :
    ∀ req ∈ s.requests key query body,
      handle env st now req = (st, validationResponse ds) := by
  intro req hreq
  cases s <;> simp only [Schema.requests, List.mem_cons, List.mem_singleton,
    List.not_mem_nil, or_false] at hreq <;> simp only [Schema.run] at h
  · have hs : productTemplateSchema body = .error ds := by
      cases hp : productTemplateSchema body with
      | ok v => rw [hp] at h; simp [Except.map] at h
      | error e => rw [hp] at h; simpa [Except.map] using h
    rcases hreq with rfl | rfl <;>
      simp [handle, route, postProductTemplate, putProductTemplate, validate, hs, respond,
        errorHandler, validationResponse, failure]
  · have hs : optionCategorySchema body = .error ds := by
      cases hp : optionCategorySchema body with
      | ok v => rw [hp] at h; simp [Except.map] at h
      | error e => rw [hp] at h; simpa [Except.map] using h
    rcases hreq with rfl | rfl <;>
      simp [handle, route, postOptionCategory, putOptionCategory, validate, hs, respond,
        errorHandler, validationResponse, failure]
  · have hs : optionChoiceSchema body = .error ds := by
      cases hp : optionChoiceSchema body with
      | ok v => rw [hp] at h; simp [Except.map] at h
      | error e => rw [hp] at h; simpa [Except.map] using h
    rcases hreq with rfl | rfl <;>
      simp [handle, route, postOptionChoice, putOptionChoice, validate, hs, respond,
        errorHandler, validationResponse, failure]
  · have hs : compatibilityRuleSchema body = .error ds := by
      cases hp : compatibilityRuleSchema body with
      | ok v => rw [hp] at h; simp [Except.map] at h
      | error e => rw [hp] at h; simpa [Except.map] using h
    subst hreq
    simp [handle, route, postCompatibilityRule, validate, hs, respond,
      errorHandler, validationResponse, failure]


/-! ## Lemmas on the defaults and the values of sanitized bodies -/

/-- A sanitized body holds the default for every optional key the body leaves out. -/
theorem schema_defaults (s : Schema) (b : Body) (v : Sanitized) (h : s.run b = .ok v) :
    defaultsFilled b v := by
  cases s with
  | productTemplate =>
    simp only [Schema.run] at h
    cases hs : productTemplateSchema b with
    | error e => rw [hs] at h; simp [Except.map] at h
    | ok w =>
      rw [hs] at h
      simp only [Except.map] at h
      injection h with h
      subst h
      trivial
  | optionCategory =>
    simp only [Schema.run] at h
    cases hs : optionCategorySchema b with
    | error e => rw [hs] at h; simp [Except.map] at h
    | ok w =>
      rw [hs] at h
      simp only [Except.map] at h
      injection h with h
      subst h
      unfold optionCategorySchema at hs
      simp only at hs
      split at hs
      next k n d r o hk hn hd hr ho =>
        injection hs with hs
        subst hs
        refine ⟨fun hx => ?_, fun hx => ?_⟩
        · rw [hx] at hr
          simp only [joiDefault] at hr
          injection hr with hr
          exact hr.symm
        · rw [hx] at ho
          simp only [displayOrderSchema, joiDefault] at ho
          injection ho with ho
          exact ho.symm
      next => simp at hs
  | optionChoice =>
    simp only [Schema.run] at h
    cases hs : optionChoiceSchema b with
    | error e => rw [hs] at h; simp [Except.map] at h
    | ok w =>
      rw [hs] at h
      simp only [Except.map] at h
      injection h with h
      subst h
      unfold optionChoiceSchema at hs
      simp only at hs
      split at hs
      next k n d p f a o hk hn hd hp hf ha ho =>
        injection hs with hs
        subst hs
        refine ⟨fun hx => ?_, fun hx => ?_, fun hx => ?_, fun hx => ?_⟩
        · rw [hx] at hp
          simp only [joiDefault] at hp
          injection hp with hp
          exact hp.symm
        · rw [hx] at hf
          simp only [joiDefault] at hf
          injection hf with hf
          exact hf.symm
        · rw [hx] at ha
          simp only [joiDefault] at ha
          injection ha with ha
          exact ha.symm
        · rw [hx] at ho
          simp only [displayOrderSchema, joiDefault] at ho
          injection ho with ho
          exact ho.symm
      next => simp at hs
  | compatibilityRule =>
    simp only [Schema.run] at h
    cases hs : compatibilityRuleSchema b with
    | error e => rw [hs] at h; simp [Except.map] at h
    | ok w =>
      rw [hs] at h
      simp only [Except.map] at h
      injection h with h
      subst h
      intro hx
      rcases (compatibilityRuleSchema_ok hs).2.2.2 with h1 | ⟨n, h1, -⟩
      · exact h1.2
      · rw [hx] at h1
        simp at h1

/-- The details of a body are, key by key in the order of the schema, the details of
each key. -/
theorem schema_details (s : Schema) (b : Body) :
    s.details b = s.keys.flatMap fun k => s.keyDetails k (b.lookup k) := by
  cases s with
  | productTemplate => exact productTemplate_details b
  | optionCategory => exact optionCategory_details b
  | optionChoice => exact optionChoice_details b
  | compatibilityRule => exact compatibilityRule_details b

/-- A body without details passes. -/
theorem schema_passes (s : Schema) (b : Body) (h : s.details b = []) :
    ∃ v, s.run b = .ok v := by
  cases s with
  | productTemplate => exact productTemplate_passes b h
  | optionCategory => exact optionCategory_passes b h
  | optionChoice => exact optionChoice_passes b h
  | compatibilityRule => exact compatibilityRule_passes b h

/-- The details of a key carry the key as their path. -/
theorem keyDetails_path (s : Schema) (k : String) (v : Option JVal) :
    ∀ d ∈ s.keyDetails k v, d.path = [k] := by
  intro d hd
  simp only [Schema.keyDetails, List.mem_filter, beq_iff_eq] at hd
  exact hd.2


/-- Wrapping the sanitized body loses nothing of the result of a schema. -/
theorem except_map_injective {α β : Type} (f : α → β) (hf : Function.Injective f)
    (r1 r2 : Except (List JoiDetail) α) (h : r1.map f = r2.map f) : r1 = r2 := by
  cases r1 <;> cases r2 <;> simp only [Except.map] at h
  · injection h with h
    rw [h]
  · simp at h
  · simp at h
  · injection h with h
    rw [hf h]

/-- The routes read the body through the schema only: two bodies with the same result
of the schema are served alike. -/
theorem handler_reads_sanitized (env : Option String) (st : Store) (now : Nat)
    (s : Schema) (key : String) (query : Option String) (b c : Body)
    (h : s.run c = s.run b) :
    (s.requests key query c).map (handle env st now) =
      (s.requests key query b).map (handle env st now) := by
  cases s <;> simp only [Schema.run] at h
  · have hs := except_map_injective _ (fun _ _ he => Sanitized.productTemplate.inj he) _ _ h
    simp [Schema.requests, handle, route, postProductTemplate, putProductTemplate, validate,
      hs]
  · have hs := except_map_injective _ (fun _ _ he => Sanitized.optionCategory.inj he) _ _ h
    simp [Schema.requests, handle, route, postOptionCategory, putOptionCategory, validate, hs]
  · have hs := except_map_injective _ (fun _ _ he => Sanitized.optionChoice.inj he) _ _ h
    simp [Schema.requests, handle, route, postOptionChoice, putOptionChoice, validate, hs]
  · have hs := except_map_injective _ (fun _ _ he => Sanitized.compatibilityRule.inj he) _ _ h
    simp [Schema.requests, handle, route, postCompatibilityRule, validate, hs]

/-- The details of the Joi error are the details of the body, and there is at least one. -/
theorem schema_error_details (s : Schema) (b : Body) (ds : List JoiDetail)
    (h : s.run b = .error ds) : s.details b = ds ∧ ds ≠ [] := by
  have hd : s.details b = ds := by simp [Schema.details, h, errorsOf]
  refine ⟨hd, ?_⟩
  intro hnil
  obtain ⟨v, hv⟩ := schema_passes s b (hd.trans hnil)
  rw [hv] at h
  simp at h


/-! ## The claims on the validation layer and the error handler -/

/-- Claim C12, the counterexample: the rule body with `priority = -1.5` violates the one
field `priority` (every other key of the schema draws no detail), yet the Joi error
carries two details for it, `number.integer` and `number.min`, and the response to the
creation request lists both under `details`. -/
theorem one_detail_per_field_counterexample :
    ((Schema.keys .compatibilityRule).filter fun k =>
      Schema.keyDetails .compatibilityRule k (fractionalPriorityBody.lookup k) != []) =
        ["priority"] ∧
    (Schema.details .compatibilityRule fractionalPriorityBody).map (fun d => (d.path, d.type)) =
      [(["priority"], "number.integer"), (["priority"], "number.min")] ∧
    (handle none Store.empty 1
      (.postCompatibilityRule "intel_i7" fractionalPriorityBody)).2.details =
      .items [{ field := "priority", message := "priority must be an integer",
                value := some (.num { mantissa := -15, scale := 1 }) },
              { field := "priority", message := "priority must be a non-negative number",
                value := some (.num { mantissa := -15, scale := 1 }) }] := by
  decide

/-- Claim C12, amended: for every schema `s` and body, the details of the body are, key
by key, the details of each declared key, each under the path of its key, so a violated
key has at least one detail (one per rule it breaks) and no other field has any.  Then
either the schema passes with a sanitized value `v`: there are no details, the absent
optional keys hold their defaults, and every body that agrees on the declared keys
(whatever other keys it holds) yields the same `v` and is served alike by the routes; or
the schema fails with details `ds`, not empty and equal to the details of the body, and
every route with the schema answers 400 with these details and leaves the store as it
was. -/
theorem validation_layer (env : Option String) (st : Store) (now : Nat) (s : Schema)
    (key : String) (query : Option String) (body : Body) :
    s.details body = (s.keys.flatMap fun k => s.keyDetails k (body.lookup k)) ∧
    (∀ k v, ∀ d ∈ s.keyDetails k v, d.path = [k]) ∧
    ((∃ v, s.run body = .ok v ∧ s.details body = [] ∧ defaultsFilled body v ∧
        ∀ c : Body, (∀ k ∈ s.keys, c.lookup k = body.lookup k) →
          s.run c = .ok v ∧
          (s.requests key query c).map (handle env st now) =
            (s.requests key query body).map (handle env st now)) ∨
      (∃ ds, s.run body = .error ds ∧ ds ≠ [] ∧ s.details body = ds ∧
        ∀ req ∈ s.requests key query body,
          handle env st now req = (st, validationResponse ds) ∧
          (validationResponse ds).status = 400)) := by
  refine ⟨schema_details s body, keyDetails_path s, ?_⟩
  cases hr : s.run body with
  | ok v =>
    refine Or.inl ⟨v, rfl, ?_, schema_defaults s body v hr, ?_⟩
    · simp [Schema.details, hr, errorsOf]
    · intro c hc
      have hcong := schema_run_congr s body c hc
      exact ⟨hcong.trans hr, handler_reads_sanitized env st now s key query body c hcong⟩
  | error ds =>
    obtain ⟨hd, hne⟩ := schema_error_details s body ds hr
    refine Or.inr ⟨ds, rfl, hne, hd, ?_⟩
    intro req hreq
    exact ⟨rejected_body_skips_handler env st now s key query body ds hr req hreq, rfl⟩

/-- Claim C12, an instance: the rule body with `priority = -1.5` sent from the empty
store.  The detail `number.integer` is one of the details of the key `priority` and
lies under its path, and the creation request is answered with the details of the body
while the store stays empty. -/
theorem validation_layer_witness :
    (∃ d ∈ Schema.keyDetails .compatibilityRule "priority"
        (some (.num { mantissa := -15, scale := 1 })),
      d.type = "number.integer" ∧ d.path = ["priority"]) ∧
    handle none Store.empty 1 (.postCompatibilityRule "intel_i7" fractionalPriorityBody) =
      (Store.empty,
        validationResponse (Schema.details .compatibilityRule fractionalPriorityBody)) := by
  have h := validation_layer none Store.empty 1 .compatibilityRule "intel_i7" none
    fractionalPriorityBody
  refine ⟨?_, ?_⟩
  · have hm : (Schema.keyDetails .compatibilityRule "priority"
        (some (.num { mantissa := -15, scale := 1 }))).head? ≠ none := by decide
    cases hk : Schema.keyDetails .compatibilityRule "priority"
        (some (.num { mantissa := -15, scale := 1 })) with
    | nil => rw [hk] at hm; exact absurd rfl hm
    | cons d rest =>
      have hd : d ∈ Schema.keyDetails .compatibilityRule "priority"
          (some (.num { mantissa := -15, scale := 1 })) := by rw [hk]; exact List.mem_cons_self _ _
      refine ⟨d, List.mem_cons_self _ _, ?_, h.2.1 _ _ d hd⟩
      have ht : ((Schema.keyDetails .compatibilityRule "priority"
          (some (.num { mantissa := -15, scale := 1 }))).map fun d => d.type).head? =
          some "number.integer" := by decide
      rw [hk] at ht
      simpa using ht
  · rcases h.2.2 with ⟨v, hv, -⟩ | ⟨ds, -, -, hd, hall⟩
    · have he : (Schema.run .compatibilityRule fractionalPriorityBody).toBool = false := by
        decide
      rw [hv] at he
      exact absurd he (by simp [Except.toBool])
    · rw [hd]
      exact (hall _ (by simp [Schema.requests])).1


/-- Claim C13: for every error passed to the error handler the response has
`success = false` and an error message that is not empty.  For a model validation
failure (`SequelizeValidationError`) `details` is an array with one entry
`field, message, value` per item of the error's `errors`, and for a schema validation
failure (a Joi error not named as one of the three Sequelize errors the handler tests
first) one entry per item of the error's `details`, the field being the path joined by
dots. -/
theorem error_body_shape (env : Option String) (err : Err) :
    (errorHandler env err).success = false ∧
    (∃ m, (errorHandler env err).error = some m ∧ m ≠ "") ∧
    (err.name = "SequelizeValidationError" →
      (errorHandler env err).details = .items (err.errors.map fun e =>
        { field := e.path, message := e.message, value := e.value })) ∧
    (err.isJoi = true → err.name ≠ "SequelizeValidationError" →
      err.name ≠ "SequelizeUniqueConstraintError" →
      err.name ≠ "SequelizeForeignKeyConstraintError" →
      (errorHandler env err).details = .items (err.details.map fun d =>
        { field := ".".intercalate d.path, message := d.message, value := d.value })) := by
  refine ⟨errorHandler_success env err, ?_, ?_, ?_⟩
  · unfold errorHandler
    simp only
    split_ifs
    all_goals first
      | exact ⟨_, rfl, by decide⟩
      | exact ⟨_, rfl, by assumption⟩
  · intro h
    simp [errorHandler, h, failure]
  · intro hj h1 h2 h3
    simp [errorHandler, h1, h2, h3, hj, failure]

/-- Claim C13, instances: the model validation error of a rule of a choice with itself,
and the Joi error of an empty rule body. -/
theorem error_body_shape_witness :
    (errorHandler none (sequelizeValidationError (sourceNotTarget 1 1))).details =
      .items [{ field := "sourceNotTarget",
                message := "A choice cannot have a compatibility rule with itself",
                value := some .null }] ∧
    (errorHandler none
      { name := "ValidationError", statusCode := none, message := "", stack := none,
        errors := [], isJoi := true,
        details := Schema.details .compatibilityRule [] }).details =
      .items [{ field := "rule_type", message := "rule_type is required", value := none },
              { field := "target_choice_str_id",
                message := "target_choice_str_id is required", value := none }] :=
  ⟨(error_body_shape none (sequelizeValidationError (sourceNotTarget 1 1))).2.2.1 (by decide),
    (error_body_shape none
      { name := "ValidationError", statusCode := none, message := "", stack := none,
        errors := [], isJoi := true,
        details := Schema.details .compatibilityRule [] }).2.2.2
      (by decide) (by decide) (by decide) (by decide)⟩

/-- Claim C14, the counterexample: an error of no recognized kind that carries the
status code 404 is answered with 404, not 500, and outside production (no `NODE_ENV`,
or `test`) its stack trace is not included. -/
theorem unrecognized_error_counterexample :
    notFoundError.isRecognized = false ∧
    (errorHandler (some "production") notFoundError).status = 404 ∧
    notFoundError.stack ≠ none ∧
    (errorHandler none notFoundError).stack = none ∧
    (errorHandler (some "test") notFoundError).stack = none := by
  decide

/-- Claim C14, amended: for every error of none of the recognized kinds the handler
responds with the error's own status code when it carries one that is not 0, and with
500 otherwise; the body holds only `success = false` and the message (`Internal Server
Error` for an empty message); the stack trace is included exactly when `NODE_ENV` is
`development`. -/
theorem unrecognized_error_response (env : Option String) (err : Err)
    (h : err.isRecognized = false) :
    errorHandler env err =
      { status := (match err.statusCode with
          | some n => if n = 0 then 500 else n
          | none => 500),
        success := false, message := none,
        error := some (if err.message = "" then "Internal Server Error" else err.message),
        details := .absent,
        stack := if env = some "development" then err.stack else none,
        data := .none } ∧
    (err.statusCode = none → (errorHandler env err).status = 500) := by
  simp only [Err.isRecognized, Bool.or_eq_false_iff, beq_eq_false_iff_ne, ne_eq] at h
  obtain ⟨⟨⟨⟨h1, h2⟩, h3⟩, h4⟩, h5⟩ := h
  have he : errorHandler env err =
      { status := (match err.statusCode with
          | some n => if n = 0 then 500 else n
          | none => 500),
        success := false, message := none,
        error := some (if err.message = "" then "Internal Server Error" else err.message),
        details := .absent,
        stack := if env = some "development" then err.stack else none,
        data := .none } := by
    simp [errorHandler, h1, h2, h3, h4, h5, failure]
  refine ⟨he, ?_⟩
  intro hs
  rw [he, hs]

/-- Claim C14, an instance: the `TypeError` of reading a property of `null`, in
production and in development. -/
theorem unrecognized_error_response_witness :
    (errorHandler (some "production") nullPropertyError).status = 500 ∧
    (errorHandler (some "production") nullPropertyError).stack = none ∧
    (errorHandler (some "development") nullPropertyError).stack =
      some "TypeError: Cannot read properties of null (reading 'id')" := by
  have h1 := unrecognized_error_response (some "production") nullPropertyError (by decide)
  have h2 := unrecognized_error_response (some "development") nullPropertyError (by decide)
  refine ⟨h1.2 rfl, ?_, ?_⟩
  · rw [h1.1]
    rfl
  · rw [h2.1]
    rfl

/-- Claim C15: whatever status code the error object carries, the handler answers a
unique-constraint violation with 409, a foreign-key violation with 400, a connection
error (a store error, so not a Joi error) with 503, and a validation error with 400,
be it a model validation error or a Joi error (not one named as a unique-constraint
violation). -/
theorem known_errors_status (env : Option String) (err : Err) :
    (err.name = "SequelizeUniqueConstraintError" → (errorHandler env err).status = 409) ∧
    (err.name = "SequelizeForeignKeyConstraintError" → (errorHandler env err).status = 400) ∧
    (err.name = "SequelizeConnectionError" → err.isJoi = false →
      (errorHandler env err).status = 503) ∧
    (err.name = "SequelizeValidationError" → (errorHandler env err).status = 400) ∧
    (err.isJoi = true → err.name ≠ "SequelizeUniqueConstraintError" →
      (errorHandler env err).status = 400) := by
  refine ⟨?_, ?_, ?_, ?_, ?_⟩
  · intro h
    simp [errorHandler, h, failure]
  · intro h
    simp [errorHandler, h, failure]
  · intro h hj
    simp [errorHandler, h, hj, failure]
  · intro h
    simp [errorHandler, h, failure]
  · intro hj h
    unfold errorHandler
    simp only [failure]
    split_ifs <;> rfl

/-- Claim C15, instances: the four store errors and a Joi error, each carrying the
status code 418. -/
theorem known_errors_status_witness :
    (errorHandler none { sequelizeUniqueConstraintError [] with
      statusCode := some 418 }).status = 409 ∧
    (errorHandler none { sequelizeForeignKeyConstraintError with
      statusCode := some 418 }).status = 400 ∧
    (errorHandler none { nullPropertyError with
      name := "SequelizeConnectionError", statusCode := some 418 }).status = 503 ∧
    (errorHandler none { sequelizeValidationError [] with
      statusCode := some 418 }).status = 400 ∧
    (errorHandler none { nullPropertyError with
      name := "ValidationError", isJoi := true, statusCode := some 418 }).status = 400 :=
  ⟨(known_errors_status none _).1 rfl,
    (known_errors_status none _).2.1 rfl,
    (known_errors_status none _).2.2.1 rfl rfl,
    (known_errors_status none _).2.2.2.1 rfl,
    (known_errors_status none _).2.2.2.2 rfl (by decide)⟩


/-! ## The invariant on the stored values -/

/-- The integer schema only returns integers that are not negative. -/
theorem joiInteger_nonneg {label : String} {messages : List (String × String)} {v : JVal}
    {i : Int} (h : joiInteger label messages v = .ok i) : 0 ≤ i := by
  cases v <;> simp only [joiInteger] at h <;> try simp at h
  rename_i n
  split_ifs at h with h1 h2
  injection h with h
  simp only [integerRuleErrors, List.append_eq_nil, ite_eq_right_iff, List.cons_ne_nil,
    imp_false] at h2
  have h3 : 0 ≤ n.mantissa := not_lt.mp h2.2
  rw [← h]
  exact Int.ediv_nonneg h3 (pow_nonneg (by decide) _)

/-- A rule body that passes the schema has a priority that is not negative. -/
theorem compatibilityRuleSchema_priority {body : Body} {v : RuleBody}
    (h : compatibilityRuleSchema body = .ok v) : 0 ≤ v.priority := by
  unfold compatibilityRuleSchema at h
  simp only at h
  split at h
  next k t d p hk ht hd hp =>
    injection h with h
    subst h
    simp only
    cases hl : body.lookup "priority" with
    | none =>
      rw [hl] at hp
      simp only [joiDefault] at hp
      injection hp with hp
      rw [← hp]
    | some x =>
      rw [hl] at hp
      simp only [joiDefault] at hp
      exact joiInteger_nonneg hp
  next => simp at h

/-- The invariant on the values only reads the rules and the templates, and holds of
any part of them. -/
theorem valuesInv_of_subset {st st1 : Store} (hr : ∀ r ∈ st1.rules, r ∈ st.rules)
    (ht : ∀ t ∈ st1.templates, t ∈ st.templates) (h : ValuesInv st) : ValuesInv st1 :=
  ⟨fun r hm => h.1 r (hr r hm), fun t hm => h.2 t (ht t hm)⟩

/-- The cascade of a choice delete keeps a part of the rules and all templates. -/
theorem valuesInv_dropChoices {st : Store} (dead : OptionChoice → Bool) (h : ValuesInv st) :
    ValuesInv (st.dropChoices dead) := by
  apply valuesInv_of_subset _ _ h
  · intro r hr
    simp only [Store.dropChoices, List.mem_filter] at hr
    exact hr.1
  · intro t ht
    exact ht

/-- The cascade of a category delete keeps a part of the rules and all templates. -/
theorem valuesInv_dropCategories {st : Store} (dead : OptionCategory → Bool)
    (h : ValuesInv st) : ValuesInv (st.dropCategories dead) := by
  unfold Store.dropCategories
  exact valuesInv_dropChoices _ (valuesInv_of_subset (fun _ hr => hr) (fun _ ht => ht) h)

/-- The cascade of a template delete keeps a part of the rules and of the templates. -/
theorem valuesInv_dropTemplates {st : Store} (dead : ProductTemplate → Bool)
    (h : ValuesInv st) : ValuesInv (st.dropTemplates dead) := by
  unfold Store.dropTemplates
  apply valuesInv_dropCategories
  exact ⟨fun r hm => h.1 r hm, fun t hm => h.2 t (List.mem_filter.mp hm).1⟩

/-- A created template is appended, with a base price that is not negative. -/
theorem productTemplate_create_values {st st1 : Store} {now : Nat} {v : TemplateBody}
    {row : ProductTemplate} (h : ProductTemplate.create st now v = .ok (st1, row)) :
    st1.rules = st.rules ∧ st1.templates = st.templates ++ [row] ∧ 0 ≤ row.base_price := by
  unfold ProductTemplate.create at h
  simp only at h
  by_cases hp : v.base_price < 0
  · simp [hp] at h
  · rw [if_neg hp] at h
    split_ifs at h
    injection h with h
    injection h with h3 h4
    subst h3
    subst h4
    exact ⟨rfl, rfl, not_lt.mp hp⟩

/-- An updated template has a base price that is not negative. -/
theorem productTemplate_update_values {st st1 : Store} {now : Nat} {key : String}
    {v : TemplateBody} {n : Nat} (h : ProductTemplate.update st now key v = .ok (st1, n)) :
    st1.rules = st.rules ∧ ∀ t ∈ st1.templates, t ∈ st.templates ∨ 0 ≤ t.base_price := by
  unfold ProductTemplate.update at h
  simp only at h
  by_cases hp : v.base_price < 0
  · simp [hp] at h
  · rw [if_neg hp] at h
    split_ifs at h
    · injection h with h
      injection h with h4 h5
      subst h4
      exact ⟨rfl, fun t ht => Or.inl ht⟩
    · injection h with h
      injection h with h4 h5
      subst h4
      refine ⟨rfl, ?_⟩
      intro t ht
      simp only [List.mem_map] at ht
      obtain ⟨t0, ht0, hte⟩ := ht
      by_cases hk : (t0.template_str_id == key) = true
      · rw [if_pos hk] at hte
        right
        rw [← hte]
        exact not_lt.mp hp
      · rw [if_neg hk] at hte
        left
        rw [← hte]
        exact ht0

/-- A category create changes neither rules nor templates. -/
theorem optionCategory_create_values {st st1 : Store} {now : Nat} {v : CategoryBody}
    {t : Nat} {row : OptionCategory} (h : OptionCategory.create st now v t = .ok (st1, row)) :
    st1.rules = st.rules ∧ st1.templates = st.templates := by
  unfold OptionCategory.create at h
  simp only at h
  split_ifs at h
  injection h with h
  injection h with h1 h2
  subst h1
  exact ⟨rfl, rfl⟩

/-- A category update changes neither rules nor templates. -/
theorem optionCategory_update_values {st st1 : Store} {now : Nat} {key : String}
    {v : CategoryBody} {n : Nat} (h : OptionCategory.update st now key v = .ok (st1, n)) :
    st1.rules = st.rules ∧ st1.templates = st.templates := by
  unfold OptionCategory.update at h
  simp only at h
  split_ifs at h <;> injection h with h <;> injection h with h1 h2 <;> subst h1 <;>
    exact ⟨rfl, rfl⟩

/-- A choice create changes neither rules nor templates. -/
theorem optionChoice_create_values {st st1 : Store} {now : Nat} {v : ChoiceBody} {cat : Nat}
    {row : OptionChoice} (h : OptionChoice.create st now v cat = .ok (st1, row)) :
    st1.rules = st.rules ∧ st1.templates = st.templates := by
  unfold OptionChoice.create at h
  simp only at h
  split_ifs at h
  injection h with h
  injection h with h1 h2
  subst h1
  exact ⟨rfl, rfl⟩

/-- A choice update changes neither rules nor templates. -/
theorem optionChoice_update_values {st st1 : Store} {now : Nat} {key : String}
    {v : ChoiceBody} {n : Nat} (h : OptionChoice.update st now key v = .ok (st1, n)) :
    st1.rules = st.rules ∧ st1.templates = st.templates := by
  unfold OptionChoice.update at h
  simp only at h
  split_ifs at h <;> injection h with h <;> injection h with h1 h2 <;> subst h1 <;>
    exact ⟨rfl, rfl⟩

/-- The invariant on the values carries over to a store with the same rules and
templates. -/
theorem valuesInv_congr {st st1 : Store} (h : st1.rules = st.rules ∧ st1.templates = st.templates)
    (hv : ValuesInv st) : ValuesInv st1 :=
  valuesInv_of_subset (fun _ hr => h.1 ▸ hr) (fun _ ht => h.2 ▸ ht) hv

/-- Every route keeps the invariant on the values. -/
theorem valuesInv_route (st : Store) (now : Nat) (req : Request) (h : ValuesInv st) :
    ValuesInv (route st now req).1 := by
  cases req with
  | postProductTemplate body =>
    simp only [route, postProductTemplate]
    split
    · exact h
    · split
      · exact h
      · next hc =>
        obtain ⟨hr, ht, hp⟩ := productTemplate_create_values hc
        refine ⟨fun r hm => h.1 r (hr ▸ hm), ?_⟩
        intro t hm
        rw [ht, List.mem_append, List.mem_singleton] at hm
        rcases hm with hm | hm
        · exact h.2 t hm
        · rw [hm]
          exact hp
  | putProductTemplate key body =>
    simp only [route, putProductTemplate]
    split
    · exact h
    · split
      · exact h
      · next hu =>
        obtain ⟨hr, ht⟩ := productTemplate_update_values hu
        have hinv : ValuesInv _ := ⟨fun r hm => h.1 r (hr ▸ hm), fun t hm =>
          (ht t hm).elim (h.2 t) (fun hp => hp)⟩
        split
        · exact hinv
        · split <;> exact hinv
  | deleteProductTemplate key =>
    simp only [route, deleteProductTemplate, ProductTemplate.destroy]
    split <;> exact valuesInv_dropTemplates _ h
  | postOptionCategory query body =>
    simp only [route, postOptionCategory]
    split
    · exact h
    · split
      · exact h
      · split
        · exact h
        · split
          · exact h
          · next hc => exact valuesInv_congr (optionCategory_create_values hc) h
  | putOptionCategory key body =>
    simp only [route, putOptionCategory]
    split
    · exact h
    · split
      · exact h
      · next hu =>
        have hinv := valuesInv_congr (optionCategory_update_values hu) h
        split
        · exact hinv
        · split <;> exact hinv
  | deleteOptionCategory key =>
    simp only [route, deleteOptionCategory, OptionCategory.destroy]
    split <;> exact valuesInv_dropCategories _ h
  | postOptionChoice query body =>
    simp only [route, postOptionChoice]
    split
    · exact h
    · split
      · exact h
      · split
        · exact h
        · split
          · exact h
          · next hc => exact valuesInv_congr (optionChoice_create_values hc) h
  | putOptionChoice key body =>
    simp only [route, putOptionChoice]
    split
    · exact h
    · split
      · exact h
      · next hu =>
        have hinv := valuesInv_congr (optionChoice_update_values hu) h
        split
        · exact hinv
        · split <;> exact hinv
  | deleteOptionChoice key =>
    simp only [route, deleteOptionChoice, OptionChoice.destroy]
    split <;> exact valuesInv_dropChoices _ h
  | postCompatibilityRule key body =>
    simp only [route, postCompatibilityRule]
    split
    · exact h
    · next v hv =>
      split
      · exact h
      · split
        · exact h
        · split
          · exact h
          · next st1 row hc =>
            obtain ⟨hr, -, ht, -, hrow, -⟩ := compatibilityRule_create_ok hc
            refine ⟨?_, fun t hm => h.2 t (ht ▸ hm)⟩
            intro r hm
            rw [hr, List.mem_append, List.mem_singleton] at hm
            rcases hm with hm | hm
            · exact h.1 r hm
            · rw [hm, hrow]
              exact ⟨rfl, compatibilityRuleSchema_priority (validate_ok hv)⟩
  | getCompatibilityRules key =>
    simp only [route, getCompatibilityRules]
    split <;> exact h
  | getProductTemplates query =>
    simp only [route, getProductTemplates]
    exact h
  | getOptionCategories query =>
    simp only [route, getOptionCategories]
    split
    · exact h
    · split <;> exact h
  | getOptionChoices query =>
    simp only [route, getOptionChoices]
    split
    · exact h
    · split <;> exact h

/-- Every reachable store satisfies the invariant on the values. -/
theorem valuesInv_of_reachable {st : Store} (h : Reachable st) : ValuesInv st := by
  induction h with
  | empty => exact ⟨fun r hr => by simp [Store.empty] at hr, fun t ht => by simp [Store.empty] at ht⟩
  | step st now req _ ih => exact valuesInv_route st now req ih


/-- A body that lacks a key whose absence draws a detail is rejected by the schema. -/
theorem violated_key_rejected (s : Schema) (k : String) (hk : k ∈ s.keys) (body : Body)
    (hv : s.keyDetails k (body.lookup k) ≠ []) :
    s.run body = .error (s.details body) ∧ s.details body ≠ [] := by
  have hne : s.details body ≠ [] := by
    rw [schema_details s body]
    intro hnil
    rw [List.flatMap_eq_nil_iff] at hnil
    exact hv (hnil k hk)
  cases hr : s.run body with
  | ok v =>
    exfalso
    apply hne
    simp [Schema.details, hr, errorsOf]
  | error ds =>
    have hd := (schema_error_details s body ds hr).1
    rw [hd]
    exact ⟨rfl, hd ▸ hne⟩

/-- A price that rounds to a negative number of hundredths draws a detail. -/
theorem negative_price_detail (n : JNum) (h : n.roundCents < 0) :
    Schema.keyDetails .productTemplate "base_price" (some (.num n)) ≠ [] := by
  simp only [Schema.keyDetails, Schema.details, Schema.run, productTemplateSchema,
    errorsOf_map, lookup_singleKeyBody_same]
  simp (disch := decide) only [lookup_singleKeyBody_other]
  simp only [strIdSchema, nameSchema, descriptionSchema, joiRequired, joiOptional, joiPrice,
    Bool.true_and, h, decide_True]
  split_ifs <;> simp [errorsOf, detail]

/-- A priority that is negative or no integer draws a detail. -/
theorem bad_priority_detail (n : JNum) (h : n.mantissa < 0 ∨ n.isInteger = false) :
    Schema.keyDetails .compatibilityRule "priority" (some (.num n)) ≠ [] := by
  simp only [Schema.keyDetails, Schema.details, Schema.run, compatibilityRuleSchema,
    errorsOf_map, lookup_singleKeyBody_same]
  simp (disch := decide) only [lookup_singleKeyBody_other]
  simp only [strIdSchema, descriptionSchema, joiRequired, joiOptional, joiDefault, joiInteger]
  by_cases hs : n.outOfSafeRange = true
  · simp [hs, errorsOf, detail]
  · rcases h with h | h
    · simp [hs, errorsOf, detail, integerRuleErrors, h, List.filter_append]
    · simp [hs, errorsOf, detail, integerRuleErrors, h, List.filter_append]


/-- Unchanged rules are a selection of the rules. -/
theorem rules_kept {st st1 : Store} (h : st1.rules = st.rules) :
    (∃ p : CompatibilityRule → Bool, st1.rules = st.rules.filter p) ∨
    (∃ row, st1.rules = st.rules ++ [row] ∧ row.is_active = true) :=
  Or.inl ⟨fun _ => true, by rw [h, List.filter_eq_self.mpr (fun _ _ => rfl)]⟩

/-- No route changes a stored rule: after a request the rules are a selection of the
rules before it (a cascade removes some), or the rules before it and one new active
rule. -/
theorem rules_step (st : Store) (now : Nat) (req : Request) :
    (∃ p : CompatibilityRule → Bool, (route st now req).1.rules = st.rules.filter p) ∨
    (∃ row, (route st now req).1.rules = st.rules ++ [row] ∧ row.is_active = true) := by
  cases req with
  | postProductTemplate body =>
    simp only [route, postProductTemplate]
    split
    · exact rules_kept rfl
    · split
      · exact rules_kept rfl
      · next hc => exact rules_kept (productTemplate_create_frame hc).1
  | putProductTemplate key body =>
    simp only [route, putProductTemplate]
    split
    · exact rules_kept rfl
    · split
      · exact rules_kept rfl
      · next hu =>
        have hf := (productTemplate_update_frame hu).1
        split
        · exact rules_kept hf
        · split <;> exact rules_kept hf
  | deleteProductTemplate key =>
    simp only [route, deleteProductTemplate, ProductTemplate.destroy]
    split <;> exact Or.inl ⟨_, rfl⟩
  | postOptionCategory query body =>
    simp only [route, postOptionCategory]
    split
    · exact rules_kept rfl
    · split
      · exact rules_kept rfl
      · split
        · exact rules_kept rfl
        · split
          · exact rules_kept rfl
          · next hc => exact rules_kept (optionCategory_create_frame hc).1
  | putOptionCategory key body =>
    simp only [route, putOptionCategory]
    split
    · exact rules_kept rfl
    · split
      · exact rules_kept rfl
      · next hu =>
        have hf := (optionCategory_update_frame hu).1
        split
        · exact rules_kept hf
        · split <;> exact rules_kept hf
  | deleteOptionCategory key =>
    simp only [route, deleteOptionCategory, OptionCategory.destroy]
    split <;> exact Or.inl ⟨_, rfl⟩
  | postOptionChoice query body =>
    simp only [route, postOptionChoice]
    split
    · exact rules_kept rfl
    · split
      · exact rules_kept rfl
      · split
        · exact rules_kept rfl
        · split
          · exact rules_kept rfl
          · next hc => exact rules_kept (optionChoice_create_frame hc).1
  | putOptionChoice key body =>
    simp only [route, putOptionChoice]
    split
    · exact rules_kept rfl
    · split
      · exact rules_kept rfl
      · next hu =>
        have hf := (optionChoice_update_frame hu).1
        split
        · exact rules_kept hf
        · split <;> exact rules_kept hf
  | deleteOptionChoice key =>
    simp only [route, deleteOptionChoice, OptionChoice.destroy]
    split <;> exact Or.inl ⟨_, rfl⟩
  | postCompatibilityRule key body =>
    simp only [route, postCompatibilityRule]
    split
    · exact rules_kept rfl
    · split
      · exact rules_kept rfl
      · split
        · exact rules_kept rfl
        · split
          · exact rules_kept rfl
          · next st1 row hc =>
            obtain ⟨hr, -, -, -, hrow, -⟩ := compatibilityRule_create_ok hc
            exact Or.inr ⟨row, hr, by rw [hrow]⟩
  | getCompatibilityRules key =>
    simp only [route, getCompatibilityRules]
    split <;> exact rules_kept rfl
  | getProductTemplates query =>
    simp only [route, getProductTemplates]
    exact rules_kept rfl
  | getOptionCategories query =>
    simp only [route, getOptionCategories]
    split
    · exact rules_kept rfl
    · split <;> exact rules_kept rfl
  | getOptionChoices query =>
    simp only [route, getOptionChoices]
    split
    · exact rules_kept rfl
    · split <;> exact rules_kept rfl

/-! ## The claims on stored values and updates -/

/-- The rounding of prices on some decimals: 1.005 gives 1.00 (its product with 100 is
the double 100.49999999999999), 0.125 gives 0.13, and -0.004 and -0.005 give 0 while
-0.01 gives -0.01. -/
theorem roundCents_examples :
    JNum.roundCents { mantissa := 1005, scale := 3 } = 100 ∧
    JNum.roundCents { mantissa := 125, scale := 3 } = 13 ∧
    JNum.roundCents { mantissa := 800, scale := 0 } = 80000 ∧
    JNum.roundCents { mantissa := -4, scale := 3 } = 0 ∧
    JNum.roundCents { mantissa := -5, scale := 3 } = 0 ∧
    JNum.roundCents { mantissa := -1, scale := 2 } = -1 ∧
    roundToDouble 1 10 = { mantissa := 7205759403792794, exponent := -56 } := by
  decide

/-- Claim C17, the failing requests: the base price -0.004 is negative, yet the create
request that carries it is answered 201 and stores the template with base price 0, and
the update request that carries it is answered 200 and sets the base price to 0.  The
same holds of the base price -0.0050000000000000001, whose product with 100 is the
double -0.5, while -0.01 is refused with 400. -/
theorem tiny_negative_price_accepted :
    tinyNegativePriceBody.lookup "base_price" = some (.num { mantissa := -4, scale := 3 }) ∧
    (handle none Store.empty 1 (.postProductTemplate tinyNegativePriceBody)).2.status = 201 ∧
    (handle none Store.empty 1 (.postProductTemplate tinyNegativePriceBody)).1.templates.map
      (fun t => t.base_price) = [0] ∧
    (handle none (run Store.empty [(1, .postProductTemplate laptopBody)]) 2
      (.putProductTemplate "laptop_x" tinyNegativePriceBody)).2.status = 200 ∧
    (handle none (run Store.empty [(1, .postProductTemplate laptopBody)]) 2
      (.putProductTemplate "laptop_x" tinyNegativePriceBody)).1.templates.map
      (fun t => t.base_price) = [0] ∧
    (handle none Store.empty 1 (.postProductTemplate (priceBody
      { mantissa := -50000000000000001, scale := 19 }))).2.status = 201 ∧
    (handle none Store.empty 1 (.postProductTemplate (priceBody
      { mantissa := -1, scale := 2 }))).2.status = 400 := by
  decide

/-- In every state reachable by any sequence of requests every stored product template
has a base price that is not negative; and a create or update request whose base price
comes out of the rounding of the schema as a negative number of hundredths is answered
with the 400 validation error of the body and leaves the store as it was. -/
theorem base_price_never_negative (env : Option String) (st : Store) (now : Nat) :
    (Reachable st → ∀ t ∈ st.templates, 0 ≤ t.base_price) ∧
    (∀ (key : String) (body : Body) (n : JNum),
      body.lookup "base_price" = some (.num n) → n.roundCents < 0 →
      ∀ req ∈ [Request.postProductTemplate body, Request.putProductTemplate key body],
        handle env st now req =
          (st, validationResponse (Schema.details .productTemplate body)) ∧
        (handle env st now req).2.status = 400 ∧
        Schema.details .productTemplate body ≠ []) := by
  refine ⟨fun h => (valuesInv_of_reachable h).2, ?_⟩
  intro key body n hb hn req hreq
  obtain ⟨hrun, hne⟩ := violated_key_rejected .productTemplate "base_price"
    (by simp [Schema.keys]) body (hb ▸ negative_price_detail n hn)
  have hh := rejected_body_skips_handler env st now .productTemplate key none body _ hrun req
    (by simpa [Schema.requests] using hreq)
  exact ⟨hh, by rw [hh]; rfl, hne⟩

/-- An instance: the template of `sharedKeyStore`, and a create request with base
price -1 sent to the empty store. -/
theorem base_price_never_negative_witness :
    (∀ t ∈ sharedKeyStore.templates, 0 ≤ t.base_price) ∧
    handle none Store.empty 1 (.postProductTemplate (priceBody { mantissa := -1, scale := 0 })) =
      (Store.empty, validationResponse (Schema.details .productTemplate
        (priceBody { mantissa := -1, scale := 0 }))) :=
  ⟨(base_price_never_negative none sharedKeyStore 1).1
      (reachable_run Reachable.empty sharedKeyRequests),
    ((base_price_never_negative none Store.empty 1).2 "laptop_x" _
      { mantissa := -1, scale := 0 } (by decide) (by decide) _ (by simp)).1⟩

/-- Claim C19: an update request for a product template, an option category or an
option choice whose body lacks a key that creation requires (the string key, the name,
for templates the base price) is answered with the 400 validation error of the body,
which has at least one detail, and leaves the store as it was. -/
theorem update_needs_required_fields (env : Option String) (st : Store) (now : Nat)
    (key : String) (body : Body) :
    (∀ k ∈ ["template_str_id", "name", "base_price"], body.lookup k = none →
      handle env st now (.putProductTemplate key body) =
        (st, validationResponse (Schema.details .productTemplate body)) ∧
      (handle env st now (.putProductTemplate key body)).2.status = 400 ∧
      Schema.details .productTemplate body ≠ []) ∧
    (∀ k ∈ ["category_str_id", "name"], body.lookup k = none →
      handle env st now (.putOptionCategory key body) =
        (st, validationResponse (Schema.details .optionCategory body)) ∧
      (handle env st now (.putOptionCategory key body)).2.status = 400 ∧
      Schema.details .optionCategory body ≠ []) ∧
    (∀ k ∈ ["choice_str_id", "name"], body.lookup k = none →
      handle env st now (.putOptionChoice key body) =
        (st, validationResponse (Schema.details .optionChoice body)) ∧
      (handle env st now (.putOptionChoice key body)).2.status = 400 ∧
      Schema.details .optionChoice body ≠ []) := by
  refine ⟨?_, ?_, ?_⟩
  · intro k hk hb
    have hv : Schema.keyDetails .productTemplate k (body.lookup k) ≠ [] := by
      rw [hb]
      simp only [List.mem_cons, List.mem_singleton, List.not_mem_nil, or_false] at hk
      rcases hk with rfl | rfl | rfl <;> decide
    obtain ⟨hrun, hne⟩ := violated_key_rejected .productTemplate k
      (by
        simp only [List.mem_cons, List.mem_singleton, List.not_mem_nil, or_false] at hk
        rcases hk with rfl | rfl | rfl <;> simp [Schema.keys]) body hv
    have hh := rejected_body_skips_handler env st now .productTemplate key none body _ hrun
      (.putProductTemplate key body) (by simp [Schema.requests])
    exact ⟨hh, by rw [hh]; rfl, hne⟩
  · intro k hk hb
    have hv : Schema.keyDetails .optionCategory k (body.lookup k) ≠ [] := by
      rw [hb]
      simp only [List.mem_cons, List.mem_singleton, List.not_mem_nil, or_false] at hk
      rcases hk with rfl | rfl <;> decide
    obtain ⟨hrun, hne⟩ := violated_key_rejected .optionCategory k
      (by
        simp only [List.mem_cons, List.mem_singleton, List.not_mem_nil, or_false] at hk
        rcases hk with rfl | rfl <;> simp [Schema.keys]) body hv
    have hh := rejected_body_skips_handler env st now .optionCategory key none body _ hrun
      (.putOptionCategory key body) (by simp [Schema.requests])
    exact ⟨hh, by rw [hh]; rfl, hne⟩
  · intro k hk hb
    have hv : Schema.keyDetails .optionChoice k (body.lookup k) ≠ [] := by
      rw [hb]
      simp only [List.mem_cons, List.mem_singleton, List.not_mem_nil, or_false] at hk
      rcases hk with rfl | rfl <;> decide
    obtain ⟨hrun, hne⟩ := violated_key_rejected .optionChoice k
      (by
        simp only [List.mem_cons, List.mem_singleton, List.not_mem_nil, or_false] at hk
        rcases hk with rfl | rfl <;> simp [Schema.keys]) body hv
    have hh := rejected_body_skips_handler env st now .optionChoice key none body _ hrun
      (.putOptionChoice key body) (by simp [Schema.requests])
    exact ⟨hh, by rw [hh]; rfl, hne⟩

/-- Claim C19, an instance: on `sharedKeyStore`, a template update without the base
price, a category update without the name and a choice update without the key. -/
theorem update_needs_required_fields_witness :
    (handle none sharedKeyStore 9 (.putProductTemplate "laptop_x"
      [("template_str_id", .str "laptop_x"), ("name", .str "Laptop")])).1 = sharedKeyStore ∧
    (handle none sharedKeyStore 9 (.putOptionCategory "cpu"
      [("category_str_id", .str "cpu")])).2.status = 400 ∧
    (handle none sharedKeyStore 9 (.putOptionChoice "ddr5"
      [("name", .str "DDR5")])).2.status = 400 :=
  ⟨by
      rw [((update_needs_required_fields none sharedKeyStore 9 "laptop_x"
        [("template_str_id", .str "laptop_x"), ("name", .str "Laptop")]).1 "base_price"
        (by simp) (by decide)).1],
    ((update_needs_required_fields none sharedKeyStore 9 "cpu"
      [("category_str_id", .str "cpu")]).2.1 "name" (by simp) (by decide)).2.1,
    ((update_needs_required_fields none sharedKeyStore 9 "ddr5"
      [("name", .str "DDR5")]).2.2 "choice_str_id" (by simp) (by decide)).2.1⟩

/-- Claim C20: in every reachable state every stored compatibility rule is active.
Rule creation takes no active flag from the body: a body with an `is_active` key put in
front is served exactly as the body without it.  And no request changes a stored rule:
after any request the rules are a selection of the rules before it, or those rules and
one new active rule. -/
theorem stored_rules_are_active (env : Option String) (st : Store) (now : Nat) :
    (Reachable st → ∀ r ∈ st.rules, r.is_active = true) ∧
    (∀ (key : String) (body : Body) (flag : JVal),
      handle env st now (.postCompatibilityRule key (("is_active", flag) :: body)) =
        handle env st now (.postCompatibilityRule key body)) ∧
    (∀ req : Request,
      (∃ p : CompatibilityRule → Bool, (route st now req).1.rules = st.rules.filter p) ∨
      (∃ row, (route st now req).1.rules = st.rules ++ [row] ∧ row.is_active = true)) := by
  refine ⟨fun h r hr => ((valuesInv_of_reachable h).1 r hr).1, ?_, rules_step st now⟩
  intro key body flag
  have hc : Schema.run .compatibilityRule (("is_active", flag) :: body) =
      Schema.run .compatibilityRule body := by
    apply schema_run_congr
    intro k hk
    simp only [Schema.keys, List.mem_cons, List.mem_singleton, List.not_mem_nil, or_false] at hk
    rcases hk with rfl | rfl | rfl | rfl <;> rfl
  have hh := handler_reads_sanitized env st now .compatibilityRule key none body
    (("is_active", flag) :: body) hc
  simpa [Schema.requests] using hh

/-- Claim C20, an instance: the rule of `sharedKeyStore`. -/
theorem stored_rules_are_active_witness :
    Reachable sharedKeyStore ∧ intelRequiresDdr5 ∈ sharedKeyStore.rules ∧
    intelRequiresDdr5.is_active = true :=
  have hreach : Reachable sharedKeyStore := reachable_run Reachable.empty sharedKeyRequests
  ⟨hreach, by decide,
    (stored_rules_are_active none sharedKeyStore 1).1 hreach intelRequiresDdr5 (by decide)⟩

/-- Claim C21: a rule creation request whose priority is a number that is negative or
no integer is answered with the 400 validation error of the body, which does not depend
on the store, so no choice is looked up, and the store stays as it was; and in every
reachable state every stored rule has a priority (an integer) that is not negative. -/
theorem bad_priority_rejected (env : Option String) (st : Store) (now : Nat) :
    (∀ (key : String) (body : Body) (n : JNum),
      body.lookup "priority" = some (.num n) → (n.mantissa < 0 ∨ n.isInteger = false) →
      handle env st now (.postCompatibilityRule key body) =
        (st, validationResponse (Schema.details .compatibilityRule body)) ∧
      (handle env st now (.postCompatibilityRule key body)).2.status = 400 ∧
      ∃ d ∈ Schema.details .compatibilityRule body, d.path = ["priority"]) ∧
    (Reachable st → ∀ r ∈ st.rules, 0 ≤ r.priority) := by
  refine ⟨?_, fun h r hr => ((valuesInv_of_reachable h).1 r hr).2⟩
  intro key body n hb hn
  have hv : Schema.keyDetails .compatibilityRule "priority" (body.lookup "priority") ≠ [] :=
    hb ▸ bad_priority_detail n hn
  obtain ⟨hrun, -⟩ := violated_key_rejected .compatibilityRule "priority"
    (by simp [Schema.keys]) body hv
  have hh := rejected_body_skips_handler env st now .compatibilityRule key none body _ hrun
    (.postCompatibilityRule key body) (by simp [Schema.requests])
  refine ⟨hh, by rw [hh]; rfl, ?_⟩
  obtain ⟨d, hd⟩ := List.exists_mem_of_ne_nil _ hv
  refine ⟨d, ?_, keyDetails_path _ _ _ d hd⟩
  rw [schema_details]
  exact List.mem_flatMap.mpr ⟨"priority", by simp [Schema.keys], hd⟩

/-- Claim C21, an instance: a rule with priority -3 and a rule with priority 2.5 for
choices that do not exist, and the rule of `sharedKeyStore`. -/
theorem bad_priority_rejected_witness :
    (handle none Store.empty 1 (.postCompatibilityRule "intel_i7"
      (ruleBody "REQUIRES" "ddr5" (-3)))).2.status = 400 ∧
    (handle none Store.empty 1 (.postCompatibilityRule "intel_i7"
      [("rule_type", .str "REQUIRES"), ("target_choice_str_id", .str "ddr5"),
        ("priority", .num { mantissa := 25, scale := 1 })])).2.status = 400 ∧
    (∀ r ∈ sharedKeyStore.rules, 0 ≤ r.priority) :=
  ⟨((bad_priority_rejected none Store.empty 1).1 "intel_i7" _ { mantissa := -3, scale := 0 }
      (by decide) (Or.inl (by decide))).2.1,
    ((bad_priority_rejected none Store.empty 1).1 "intel_i7" _ { mantissa := 25, scale := 1 }
      (by decide) (Or.inr (by decide))).2.1,
    (bad_priority_rejected none sharedKeyStore 1).2
      (reachable_run Reachable.empty sharedKeyRequests)⟩


/-! ## The claims on deletion and the list routes -/

/-- Dropping choices none of which is stored leaves the store as it was. -/
theorem dropChoices_none (st : Store) (dead : OptionChoice → Bool)
    (h : ∀ c ∈ st.choices, dead c = false) : st.dropChoices dead = st := by
  have hf : st.choices.filter dead = [] := by
    rw [List.filter_eq_nil_iff]
    intro c hc
    simp [h c hc]
  have hc : (st.choices.filter fun c => !dead c) = st.choices := by
    rw [List.filter_eq_self]
    intro c hc
    simp [h c hc]
  cases st
  simp only [Store.dropChoices] at hf hc ⊢
  simp [hf, hc]

/-- Claim C22: for every store and key `k`, after the choice delete request for `k` the
stored choices are those that had a key other than `k`, in their order: every choice
with key `k` is removed, whatever its category, and no other; the answer is 404 exactly
when no stored choice had key `k`, and then the store is as it was. -/
theorem delete_choice_by_key (env : Option String) (st : Store) (now : Nat) (k : String) :
    (handle env st now (.deleteOptionChoice k)).1.choices =
      st.choices.filter (fun c => c.choice_str_id != k) ∧
    (∀ c ∈ st.choices, c.choice_str_id = k →
      c ∉ (handle env st now (.deleteOptionChoice k)).1.choices) ∧
    (∀ c ∈ st.choices, c.choice_str_id ≠ k →
      c ∈ (handle env st now (.deleteOptionChoice k)).1.choices) ∧
    ((handle env st now (.deleteOptionChoice k)).2.status = 404 ↔
      ∀ c ∈ st.choices, c.choice_str_id ≠ k) ∧
    ((handle env st now (.deleteOptionChoice k)).2.status = 404 →
      (handle env st now (.deleteOptionChoice k)).1 = st) := by
  have hst := deleteOptionChoice_store env st now k
  have hch : (handle env st now (.deleteOptionChoice k)).1.choices =
      st.choices.filter (fun c => c.choice_str_id != k) := by
    rw [hst]
    rfl
  have hiff : (handle env st now (.deleteOptionChoice k)).2.status = 404 ↔
      ∀ c ∈ st.choices, c.choice_str_id ≠ k := by
    simp only [handle, route, deleteOptionChoice, OptionChoice.destroy]
    split
    · next h0 =>
      simp only [respond, failure, true_iff]
      intro c hc hk
      have hl := List.length_eq_zero.mp h0
      rw [List.filter_eq_nil_iff] at hl
      exact hl c hc (by simp [hk])
    · next h0 =>
      simp only [respond, success]
      constructor
      · intro h
        exact absurd h (by decide)
      · intro h
        exfalso
        apply h0
        rw [List.length_eq_zero, List.filter_eq_nil_iff]
        intro c hc
        simpa using h c hc
  refine ⟨hch, ?_, ?_, hiff, ?_⟩
  · intro c _ hk
    rw [hch]
    simp [hk]
  · intro c hc hk
    rw [hch]
    simp [hc, hk]
  · intro h
    rw [hst]
    apply dropChoices_none
    intro c hc
    simpa using (hiff.mp h) c hc

/-- Claim C22, an instance: deleting `intel_i7` from `sharedKeyStore` removes the choice
of category `cpu` and the one of category `gpu` and keeps `ddr5`; deleting a key that
no choice has is answered 404. -/
theorem delete_choice_by_key_witness :
    firstIntel ∉ (handle none sharedKeyStore 9 (.deleteOptionChoice "intel_i7")).1.choices ∧
    secondIntel ∉ (handle none sharedKeyStore 9 (.deleteOptionChoice "intel_i7")).1.choices ∧
    ddr5Choice ∈ (handle none sharedKeyStore 9 (.deleteOptionChoice "intel_i7")).1.choices ∧
    (handle none sharedKeyStore 9 (.deleteOptionChoice "amd")).2.status = 404 :=
  ⟨(delete_choice_by_key none sharedKeyStore 9 "intel_i7").2.1 firstIntel (by decide)
      (by decide),
    (delete_choice_by_key none sharedKeyStore 9 "intel_i7").2.1 secondIntel (by decide)
      (by decide),
    (delete_choice_by_key none sharedKeyStore 9 "intel_i7").2.2.1 ddr5Choice (by decide)
      (by decide),
    (delete_choice_by_key none sharedKeyStore 9 "amd").2.2.2.1.mpr (by decide)⟩


/-- Claim C16, the counterexample: with `limit = 1` and `page = 1` the category list
of template `laptop_x` returns its two categories and the choice list of category `cpu`
its two choices. -/
theorem list_pagination_counterexample :
    onePerPage.limit = some 1 ∧ onePerPage.page = some 1 ∧
    (handle none sharedKeyStore 9 (.getOptionCategories onePerPage)).2.itemCount = 2 ∧
    (handle none sharedKeyStore 9 (.getOptionChoices onePerPage)).2.itemCount = 2 := by
  decide

/-- Claim C16, amended: the template list returns at most `limit` items (10 when no
limit is sent); the category list of a stored template and the choice list of a stored
category return every item of the parent, whatever `page` and `limit` say; and every
item of a list carries its child collection exactly when the inclusion flag of the list
is the string `true`. -/
theorem list_endpoints (env : Option String) (st : Store) (now : Nat) (q : Query) :
    (handle env st now (.getProductTemplates q)).2.itemCount ≤ q.limit.getD 10 ∧
    (∀ x ∈ (handle env st now (.getProductTemplates q)).2.children,
      x = decide (q.include_categories = some "true")) ∧
    (∀ key t, q.template_str_id = some key → key ≠ "" →
      ProductTemplate.findOne st key = some t →
      ((handle env st now (.getOptionCategories q)).2.categories).Perm
        (st.categories.filter fun c => c.product_template_id == t.id) ∧
      ∀ x ∈ (handle env st now (.getOptionCategories q)).2.children,
        x = decide (q.include_choices = some "true")) ∧
    (∀ key cat, q.category_str_id = some key → key ≠ "" →
      OptionCategory.findOne st key = some cat →
      ((handle env st now (.getOptionChoices q)).2.choices).Perm
        (st.choices.filter fun c => c.option_category_id == cat.id) ∧
      ∀ x ∈ (handle env st now (.getOptionChoices q)).2.children,
        x = decide (q.include_rules = some "true")) := by
  refine ⟨?_, ?_, ?_, ?_⟩
  · simp only [handle, route, getProductTemplates, ProductTemplate.findAndCountAll, respond,
      success, Response.itemCount, List.length_map]
    split_ifs
    · simp
    · simp only [List.length_take]
      exact Nat.min_le_left _ _
    · simp
    · simp only [List.length_take]
      exact Nat.min_le_left _ _
  · intro x hx
    simp only [handle, route, getProductTemplates, respond, success, Response.children,
      List.map_map, List.mem_map, Function.comp] at hx
    obtain ⟨t, -, hx⟩ := hx
    rw [← hx]
    by_cases h : q.include_categories = some "true" <;> simp [h]
  · intro key t hq hk hf
    have hm : missing (some key) = false := by simp [missing, hk]
    simp only [handle, route, getOptionCategories, hq, hm, Option.getD, hf, respond, success,
      Response.categories, Response.children, List.map_map, Function.comp]
    refine ⟨?_, ?_⟩
    · refine (List.Perm.of_eq ?_).trans (List.perm_insertionSort categoryOrder _)
      simp [Function.comp_def]
    · intro x hx
      simp only [Bool.false_eq_true, ↓reduceIte, List.map_map, Function.comp,
        List.mem_map] at hx
      obtain ⟨c, -, hx⟩ := hx
      rw [← hx]
      by_cases h : q.include_choices = some "true" <;> simp [h]
  · intro key cat hq hk hf
    have hm : missing (some key) = false := by simp [missing, hk]
    simp only [handle, route, getOptionChoices, hq, hm, Option.getD, hf, respond, success,
      Response.choices, Response.children, List.map_map, Function.comp]
    refine ⟨?_, ?_⟩
    · refine (List.Perm.of_eq ?_).trans (List.perm_insertionSort choiceOrder _)
      simp [Function.comp_def]
    · intro x hx
      simp only [Bool.false_eq_true, ↓reduceIte, List.map_map, Function.comp,
        List.mem_map] at hx
      obtain ⟨c, -, hx⟩ := hx
      rw [← hx]
      by_cases h : q.include_rules = some "true" <;> simp [h]


/-- Claim C16, an instance: on `sharedKeyStore` with one item per page asked for, the
template list has at most one item, the category list of `laptop_x` holds the
categories of the template, and the choice list of `cpu` the choices of the category. -/
theorem list_endpoints_witness :
    (handle none sharedKeyStore 9 (.getProductTemplates onePerPage)).2.itemCount ≤ 1 ∧
    ((handle none sharedKeyStore 9 (.getOptionCategories onePerPage)).2.categories).Perm
      (sharedKeyStore.categories.filter fun c => c.product_template_id == laptopTemplate.id) ∧
    ((handle none sharedKeyStore 9 (.getOptionChoices onePerPage)).2.choices).Perm
      (sharedKeyStore.choices.filter fun c => c.option_category_id == cpuCategory.id) :=
  ⟨(list_endpoints none sharedKeyStore 9 onePerPage).1,
    ((list_endpoints none sharedKeyStore 9 onePerPage).2.2.1 "laptop_x" laptopTemplate rfl
      (by decide) (by decide)).1,
    ((list_endpoints none sharedKeyStore 9 onePerPage).2.2.2 "cpu" cpuCategory rfl
      (by decide) (by decide)).1⟩

/-- Claim C23, the failing request: `sharedKeyStore` holds one template, which has two
categories.  The template list with `include_categories=true`, page 1 and limit 1
returns that template and reports `total_items = 2` and `total_pages = 2`. -/
theorem template_count_with_categories :
    sharedKeyStore.templates.length = 1 ∧
    (handle none sharedKeyStore 9 (.getProductTemplates withCategories)).2.templates =
      [laptopTemplate] ∧
    (handle none sharedKeyStore 9 (.getProductTemplates withCategories)).2.pagination =
      some { current_page := 1, total_pages := some 2, total_items := 2,
             items_per_page := 1 } := by
  decide

/-- The order of the template list is total. -/
theorem newestFirst_total (a b : ProductTemplate) : newestFirst a b ∨ newestFirst b a := by
  unfold newestFirst
  exact le_total _ _

/-- The order of the template list is transitive. -/
theorem newestFirst_trans (a b c : ProductTemplate) (hab : newestFirst a b)
    (hbc : newestFirst b c) : newestFirst a c := by
  unfold newestFirst at *
  exact le_trans hbc hab

/-- The number of pages `(n + l - 1) / l` is the ceiling of `n / l`. -/
theorem pages_ceiling (n l : Nat) (hl : 1 ≤ l) :
    n ≤ (n + l - 1) / l * l ∧ (0 < n → ((n + l - 1) / l - 1) * l < n) := by
  have h1 : (n + l - 1) / l * l ≤ n + l - 1 := Nat.div_mul_le_self _ _
  have h2 : n + l - 1 < l * ((n + l - 1) / l + 1) := Nat.lt_mul_div_succ _ (by omega)
  generalize (n + l - 1) / l = tp at h1 h2
  rw [Nat.mul_add, Nat.mul_one, Nat.mul_comm] at h2
  refine ⟨by omega, ?_⟩
  intro hn
  cases tp with
  | zero => simpa using hn
  | succ k =>
    rw [Nat.add_mul, Nat.one_mul] at h1
    simp only [Nat.add_sub_cancel]
    omega

/-- The template list without the included categories: for page `p ≥ 1` and limit
`l ≥ 1` on a store with `n` templates the response holds the templates at positions
`(p - 1) * l` up to `p * l` of the templates ordered newest first, at most `l` of them,
and reports `total_items = n` and `total_pages = ⌈n / l⌉`. -/
theorem template_list_page (env : Option String) (st : Store) (now : Nat) (q : Query)
    (p l : Nat) (hp : q.page = some p) (hl : q.limit = some l) (h1 : 1 ≤ p) (h2 : 1 ≤ l)
    (hinc : q.include_categories ≠ some "true") :
    (handle env st now (.getProductTemplates q)).2.templates =
      ((st.templates.insertionSort newestFirst).drop ((p - 1) * l)).take l ∧
    (st.templates.insertionSort newestFirst).Sorted newestFirst ∧
    (st.templates.insertionSort newestFirst).Perm st.templates ∧
    (handle env st now (.getProductTemplates q)).2.templates.length ≤ l ∧
    (handle env st now (.getProductTemplates q)).2.pagination =
      some { current_page := p, total_pages := some ((st.templates.length + l - 1) / l),
             total_items := st.templates.length, items_per_page := l } ∧
    st.templates.length ≤ (st.templates.length + l - 1) / l * l ∧
    (0 < st.templates.length →
      ((st.templates.length + l - 1) / l - 1) * l < st.templates.length) := by
  have hoff : (((p : Int) - 1) * (l : Int)).toNat = (p - 1) * l := by
    have : ((p : Int) - 1) * (l : Int) = (((p - 1) * l : Nat) : Int) := by
      push_cast [Nat.cast_sub h1]
      ring
    rw [this, Int.toNat_ofNat]
  have hl0 : l ≠ 0 := by omega
  have ht : (handle env st now (.getProductTemplates q)).2.templates =
      ((st.templates.insertionSort newestFirst).drop ((p - 1) * l)).take l := by
    simp only [handle, route, getProductTemplates, ProductTemplate.findAndCountAll, hp, hl,
      Option.getD, hinc, decide_False, respond, success, Response.templates, hoff,
      List.map_map, Function.comp_def, Bool.false_eq_true, ↓reduceIte]
    split_ifs with h0
    · have hnil : st.templates = [] := List.length_eq_zero.mp h0
      simp [hnil]
    · simp
  refine ⟨ht, ?_, List.perm_insertionSort _ _, ?_, ?_, (pages_ceiling _ l h2).1,
    (pages_ceiling _ l h2).2⟩
  · exact @List.sorted_insertionSort _ newestFirst _ ⟨newestFirst_total⟩ ⟨newestFirst_trans⟩ _
  · rw [ht, List.length_take]
    exact Nat.min_le_left _ _
  · simp [handle, route, getProductTemplates, ProductTemplate.findAndCountAll, hp, hl,
      hinc, respond, success, Response.pagination, hl0]

/-- An instance: page 1 with one item per page on `sharedKeyStore`. -/
theorem template_list_page_witness :
    (handle none sharedKeyStore 9 (.getProductTemplates onePerPage)).2.pagination =
      some { current_page := 1, total_pages := some 1, total_items := 1,
             items_per_page := 1 } :=
  (template_list_page none sharedKeyStore 9 onePerPage 1 1 rfl rfl (by decide) (by decide)
    (by decide)).2.2.2.2.1


/-! ## The claims on rule creation and the compatibility check -/

/-- A rule creation request that succeeds passed the schema, resolved both keys and
inserted the row. -/
theorem postCompatibilityRule_created {env : Option String} {st : Store} {now : Nat}
    {key : String} {body : Body}
    (hok : (handle env st now (.postCompatibilityRule key body)).2.success = true) :
    ∃ (v : RuleBody) (s t : OptionChoice) (row : CompatibilityRule),
      compatibilityRuleSchema body = .ok v ∧ OptionChoice.findOne st key = some s ∧
      OptionChoice.findOne st v.target_choice_str_id = some t ∧
      CompatibilityRule.create st now v.rule_type s.id t.id v.description v.priority =
        .ok ((handle env st now (.postCompatibilityRule key body)).1, row) := by
  simp only [handle, route, postCompatibilityRule] at hok ⊢
  cases hv : validate compatibilityRuleSchema body with
  | error e => simp [hv, respond, errorHandler_success] at hok
  | ok v =>
    simp only [hv] at hok ⊢
    cases hs : OptionChoice.findOne st key with
    | none => simp [hs, respond, failure] at hok
    | some s =>
      simp only [hs] at hok ⊢
      cases ht : OptionChoice.findOne st v.target_choice_str_id with
      | none => simp [ht, respond, failure] at hok
      | some t =>
        simp only [ht] at hok ⊢
        cases hc : CompatibilityRule.create st now v.rule_type s.id t.id v.description
            v.priority with
        | error e => simp [hc, respond, errorHandler_success] at hok
        | ok res =>
          obtain ⟨st1, row⟩ := res
          exact ⟨v, s, t, row, validate_ok hv, rfl, ht, hc⟩

/-- The lookup of a key reads the choices only. -/
theorem findOne_congr {st st1 : Store} (h : st1.choices = st.choices) (key : String) :
    OptionChoice.findOne st1 key = OptionChoice.findOne st key := by
  simp only [OptionChoice.findOne, h]

/-- Claim C11: a rule creation request that succeeds appends exactly one rule, the
submitted one (kind, description and priority of the sanitized body, joining the two
choices the keys resolve to), and leaves every other stored rule and the choices,
categories and templates as they were.  No rule is derived: after two creations, one
from key `kA` to key `kB` and one from key `kB` to key `kC` (such as `A REQUIRES B` and
`B INCOMPATIBLE C`), where `kA` resolves to `a` and `kC` to another choice `c` and no
stored rule joined `a` and `c` before, the rule lookup for `kA` contains no rule with
`c` at either end. -/
theorem rule_creation_adds_one_rule (env : Option String) (st : Store) :
    (∀ (now : Nat) (key : String) (body : Body),
      (handle env st now (.postCompatibilityRule key body)).2.success = true →
      (∃ (v : RuleBody) (s t : OptionChoice),
        compatibilityRuleSchema body = .ok v ∧ OptionChoice.findOne st key = some s ∧
        OptionChoice.findOne st v.target_choice_str_id = some t ∧
        (handle env st now (.postCompatibilityRule key body)).1.rules = st.rules ++
          [{ id := st.nextRuleId, rule_type := v.rule_type, description := v.description,
             is_active := true, priority := v.priority, source_choice_id := s.id,
             target_choice_id := t.id, created_at := now, updated_at := now }]) ∧
      (handle env st now (.postCompatibilityRule key body)).1.choices = st.choices ∧
      (handle env st now (.postCompatibilityRule key body)).1.categories = st.categories ∧
      (handle env st now (.postCompatibilityRule key body)).1.templates = st.templates) ∧
    (∀ (t1 t2 t3 : Nat) (kA kB kC : String) (b1 b2 : Body) (a c : OptionChoice),
      b1.lookup "target_choice_str_id" = some (.str kB) →
      b2.lookup "target_choice_str_id" = some (.str kC) →
      (handle env st t1 (.postCompatibilityRule kA b1)).2.success = true →
      (handle env (handle env st t1 (.postCompatibilityRule kA b1)).1 t2
        (.postCompatibilityRule kB b2)).2.success = true →
      OptionChoice.findOne st kA = some a → OptionChoice.findOne st kC = some c →
      a.id ≠ c.id →
      (∀ r ∈ st.rules, ¬ (r.source_choice_id = a.id ∧ r.target_choice_id = c.id) ∧
        ¬ (r.source_choice_id = c.id ∧ r.target_choice_id = a.id)) →
      ∀ r ∈ (handle env (handle env (handle env st t1 (.postCompatibilityRule kA b1)).1 t2
            (.postCompatibilityRule kB b2)).1 t3 (.getCompatibilityRules kA)).2.sourceRules ++
          (handle env (handle env (handle env st t1 (.postCompatibilityRule kA b1)).1 t2
            (.postCompatibilityRule kB b2)).1 t3 (.getCompatibilityRules kA)).2.targetRules,
        r.source_choice_id ≠ c.id ∧ r.target_choice_id ≠ c.id) := by
  refine ⟨?_, ?_⟩
  · intro now key body hok
    obtain ⟨v, s, t, row, hv, hs, ht, hc⟩ := postCompatibilityRule_created hok
    obtain ⟨hr, hch, htm, hcat, hrow, -⟩ := compatibilityRule_create_ok hc
    exact ⟨⟨v, s, t, hv, hs, ht, hrow ▸ hr⟩, hch, hcat, htm⟩
  · intro t1 t2 t3 kA kB kC b1 b2 a c hb1 hb2 hok1 hok2 ha hc hac hold
    obtain ⟨v1, s1, tb, row1, hv1, hs1, htb, hc1⟩ := postCompatibilityRule_created hok1
    obtain ⟨hr1, hch1, -, -, hrow1, hne1, -⟩ := compatibilityRule_create_ok hc1
    obtain ⟨v2, s2, tc, row2, hv2, hs2, htc, hc2⟩ := postCompatibilityRule_created hok2
    obtain ⟨hr2, hch2, -, -, hrow2, hne2, -⟩ := compatibilityRule_create_ok hc2
    have htk1 : v1.target_choice_str_id = kB := by
      have := (compatibilityRuleSchema_ok hv1).2.1
      rw [hb1] at this
      injection this with this
      injection this with this
      exact this.symm
    have htk2 : v2.target_choice_str_id = kC := by
      have := (compatibilityRuleSchema_ok hv2).2.1
      rw [hb2] at this
      injection this with this
      injection this with this
      exact this.symm
    rw [ha] at hs1
    injection hs1 with hs1
    subst hs1
    rw [findOne_congr hch1, ← htk1, htb] at hs2
    injection hs2 with hs2
    subst hs2
    rw [findOne_congr hch1, htk2, hc] at htc
    injection htc with htc
    subst htc
    have hfa : OptionChoice.findOne
        (handle env (handle env st t1 (.postCompatibilityRule kA b1)).1 t2
          (.postCompatibilityRule kB b2)).1 kA = some a := by
      rw [findOne_congr hch2, findOne_congr hch1, ha]
    intro r hr
    rw [lookup_sourceRules env t3 hfa, lookup_targetRules env t3 hfa, List.mem_append,
      (findAll_perm _ _).mem_iff, (findAll_perm _ _).mem_iff] at hr
    simp only [List.mem_filter, beq_iff_eq] at hr
    have hmem : r ∈ st.rules ∨ r = row1 ∨ r = row2 := by
      have hm : r ∈ (handle env (handle env st t1 (.postCompatibilityRule kA b1)).1 t2
          (.postCompatibilityRule kB b2)).1.rules := hr.elim (fun h => h.1) (fun h => h.1)
      rw [hr2, hr1] at hm
      simpa [or_assoc] using hm
    have hend : r.source_choice_id = a.id ∨ r.target_choice_id = a.id :=
      hr.elim (fun h => Or.inl h.2) (fun h => Or.inr h.2)
    rcases hmem with hm | hm | hm
    · obtain ⟨h1, h2⟩ := hold r hm
      rcases hend with he | he
      · exact ⟨he ▸ hac, fun ht => h1 ⟨he, ht⟩⟩
      · exact ⟨fun hs => h2 ⟨hs, he⟩, he ▸ hac⟩
    · rw [hm, hrow1]
      exact ⟨hac, hne2⟩
    · rw [hm, hrow2] at hend
      simp only at hend
      rcases hend with he | he
      · exact absurd he.symm hne1
      · exact absurd he.symm hac

/-- Claim C11, an instance: from the store with the choices `intel_i7`, `ddr4` and
`ddr5` and no rule, creating `intel_i7 REQUIRES ddr4` and `ddr4 INCOMPATIBLE ddr5`
leaves the lookup for `intel_i7` with the one rule to `ddr4` (choice 2) and no rule
with `ddr5` (choice 3) at either end. -/
theorem rule_creation_adds_one_rule_witness :
    (handle none (run Store.empty (chainRequests.take 5)) 6
      (.postCompatibilityRule "intel_i7" (ruleBody "REQUIRES" "ddr4" 0))).1.choices =
      (run Store.empty (chainRequests.take 5)).choices ∧
    ∀ r ∈ (handle none (run Store.empty chainRequests) 8
          (.getCompatibilityRules "intel_i7")).2.sourceRules ++
        (handle none (run Store.empty chainRequests) 8
          (.getCompatibilityRules "intel_i7")).2.targetRules,
      r.source_choice_id ≠ 3 ∧ r.target_choice_id ≠ 3 :=
  ⟨((rule_creation_adds_one_rule none (run Store.empty (chainRequests.take 5))).1 6
      "intel_i7" (ruleBody "REQUIRES" "ddr4" 0) (by decide)).2.1,
    (rule_creation_adds_one_rule none (run Store.empty (chainRequests.take 5))).2 6 7 8
      "intel_i7" "ddr4" "ddr5" (ruleBody "REQUIRES" "ddr4" 0) (ruleBody "INCOMPATIBLE" "ddr5" 0)
      { id := 1, choice_str_id := "intel_i7", name := "Intel Core i7", description := none,
        price_delta := 0, is_default := false, is_available := true, display_order := 0,
        option_category_id := 1, created_at := 3, updated_at := 3 }
      { id := 3, choice_str_id := "ddr5", name := "Intel Core i7", description := none,
        price_delta := 0, is_default := false, is_available := true, display_order := 0,
        option_category_id := 1, created_at := 5, updated_at := 5 }
      (by decide) (by decide) (by decide) (by decide) (by decide) (by decide) (by decide)
      (by decide)⟩


/-- A rule between the ends of a rule between `a` and `b` is a rule between `a` and `b`. -/
theorem between_ends {r o : CompatibilityRule} {a b : Nat} (hr : r.between a b = true)
    (ho : o.between r.source_choice_id r.target_choice_id = true) : o.between a b = true := by
  simp only [CompatibilityRule.between, Bool.or_eq_true, Bool.and_eq_true, beq_iff_eq] at *
  rcases hr with ⟨h1, h2⟩ | ⟨h1, h2⟩ <;> rcases ho with ⟨h3, h4⟩ | ⟨h3, h4⟩
  · exact Or.inl ⟨h3.trans h1, h4.trans h2⟩
  · exact Or.inr ⟨h3.trans h2, h4.trans h1⟩
  · exact Or.inr ⟨h3.trans h1, h4.trans h2⟩
  · exact Or.inl ⟨h3.trans h2, h4.trans h1⟩

/-- Claim C18, the counterexample: with an active `REQUIRES` rule from choice 1 to
choice 2 of priority 10 stored beside an active `INCOMPATIBLE` rule between the two of
priority 5, the higher-priority rule governs and `is_compatible` on the set of both
choices returns `Accepted`. -/
theorem incompatible_overridden_counterexample :
    incompatibleLow ∈ [requiresHigh, incompatibleLow] ∧ incompatibleLow.is_active = true ∧
    incompatibleLow.rule_type = .INCOMPATIBLE ∧ incompatibleLow.between 1 2 = true ∧
    is_compatible [requiresHigh, incompatibleLow] [1, 2] = some .Accepted := by
  decide

/-- Claim C18, amended: for every set of choices containing `a` and `b`, when an active
`INCOMPATIBLE` rule between `a` and `b` is stored whose priority is higher than that of
every active rule of another kind between `a` and `b`, and the stored rules hold no
equal-priority conflict, `is_compatible` on the set returns `Rejected` and cites the
pair `(a, b)` with the rule. -/
theorem incompatible_pair_rejected (rules : List CompatibilityRule) (choice_ids : List Nat)
    (a b : Nat) (r : CompatibilityRule) (ha : a ∈ choice_ids) (hb : b ∈ choice_ids)
    (hr : r ∈ rules) (hact : r.is_active = true) (hk : r.rule_type = .INCOMPATIBLE)
    (hbt : r.between a b = true) (hcfg : configurationError rules = false)
    (hprio : ∀ o ∈ rules, o.is_active = true → o.rule_type ≠ .INCOMPATIBLE →
      o.between a b = true → o.priority < r.priority) :
    ∃ cited, is_compatible rules choice_ids = some (.Rejected cited) ∧
      Violation.incompatible a b r ∈ cited := by
  have hgov : governs rules r = true := by
    simp only [governs, hact, Bool.true_and, List.all_eq_true, Bool.not_eq_true',
      Bool.and_eq_false_iff, decide_eq_false_iff_not, not_le]
    intro o ho
    by_cases h1 : o.is_active = true
    · by_cases h2 : o.between r.source_choice_id r.target_choice_id = true
      · by_cases h3 : conflictingKinds o.rule_type r.rule_type = true
        · right
          apply hprio o ho h1 _ (between_ends hbt h2)
          intro hoi
          rw [hoi, hk] at h3
          exact absurd h3 (by decide)
        · left
          right
          simpa using h3
      · left
        left
        right
        simpa using h2
    · left
      left
      left
      simpa using h1
  have hmem : Violation.incompatible a b r ∈
      (choice_ids.flatMap fun a => choice_ids.flatMap fun b =>
        (rules.filter fun r =>
          r.rule_type == .INCOMPATIBLE && r.between a b && governs rules r).map fun r =>
            Violation.incompatible a b r) := by
    rw [List.mem_flatMap]
    refine ⟨a, ha, ?_⟩
    rw [List.mem_flatMap]
    refine ⟨b, hb, ?_⟩
    rw [List.mem_map]
    refine ⟨r, ?_, rfl⟩
    rw [List.mem_filter]
    refine ⟨hr, ?_⟩
    simp [hk, hbt, hgov]
  unfold is_compatible
  simp only [hcfg, Bool.false_eq_true, ↓reduceIte]
  split_ifs with hnil
  · exfalso
    rw [List.append_eq_nil] at hnil
    rw [hnil.1] at hmem
    exact absurd hmem (List.not_mem_nil _)
  · exact ⟨_, rfl, List.mem_append_left _ hmem⟩

/-- Claim C18, an instance: the store that holds only the `INCOMPATIBLE` rule between
choices 1 and 2, and the set of both choices. -/
theorem incompatible_pair_rejected_witness :
    ∃ cited, is_compatible [incompatibleLow] [1, 2] = some (.Rejected cited) ∧
      Violation.incompatible 1 2 incompatibleLow ∈ cited :=
  incompatible_pair_rejected [incompatibleLow] [1, 2] 1 2 incompatibleLow (by decide)
    (by decide) (by decide) (by decide) (by decide) (by decide) (by decide) (by decide)

end Think41
